import Mathlib

/-!
# Oryol D3D12 texture factory: resource lifecycle

A shallow embedding of `code/Modules/Gfx/d3d12/d3d12TextureFactory.cc`.

* C++ pointers to native objects (`ID3D12Resource*`) are `Option Nat`: `none` is `nullptr`,
  `some h` is the object with identity `h`.
* Each member function becomes a function from the factory (which carries the renderer, the
  display manager and the texture pool it points to) and the texture to
  `Except Fault (result × texture × factory)`.
* `o_assert_dbg` is a checked assertion: a failed assertion aborts the call.
* The allocators, the texture and setup classes and the pixel-format tables are declared in
  files outside `d3d12TextureFactory.cc`; what is used of them is modelled below, each such
  definition saying so.
-/

namespace Oryol

/-! ## Basic types -/

/-- Ways in which a call can end without returning. -/
inductive Fault where
  /-- an `o_assert_dbg` condition was false -/
  | assertion
  /-- a null pointer was dereferenced -/
  | nullPointer
  /-- a `float` was converted to `int` whose truncated value `int` cannot hold (undefined
  behaviour) -/
  | undefinedConversion
  deriving DecidableEq, Repr

/-- The codes of `ResourceState::Code` that the factory returns. -/
inductive ResourceState where
  | Valid
  | Failed
  | InvalidState
  deriving DecidableEq, Repr

/-- The resource usage classes (`Usage::Code`). -/
inductive Usage where
  | InvalidUsage
  | Immutable
  | Dynamic
  | Stream
  deriving DecidableEq, Repr

/-- The texture types (`TextureType::Code`). -/
inductive TextureType where
  | InvalidTextureType
  | Texture2D
  | Texture3D
  | TextureCube
  deriving DecidableEq, Repr

/-- The resource states the factory assigns (`D3D12_RESOURCE_STATES`). -/
inductive D3D12_RESOURCE_STATES where
  | D3D12_RESOURCE_STATE_COMMON
  | D3D12_RESOURCE_STATE_RENDER_TARGET
  | D3D12_RESOURCE_STATE_DEPTH_WRITE
  | D3D12_RESOURCE_STATE_PIXEL_SHADER_RESOURCE
  deriving DecidableEq, Repr

open D3D12_RESOURCE_STATES

/-- Modelled from the spec: the sentinel "invalid" descriptor slot (`InvalidIndex` of the core
types header, not part of the factory source); a C++ `int`. -/
def InvalidIndex : Int := -1

/-- The native format code that stands for "no native equivalent". -/
def DXGI_FORMAT_UNKNOWN : Nat := 0

/-! ## Single-precision numbers

`RelWidth` and `RelHeight` are C++ `float`s.  A finite `float` is a dyadic rational
`mant * 2 ^ exp` with `|mant| < 2 ^ 24`; arithmetic rounds to nearest, ties to even.  The exponent
range (overflow to infinity) is not modelled. -/

/-- A finite binary floating-point value `mant * 2 ^ exp`. -/
structure F32 where
  mant : Int
  exp : Int
  deriving DecidableEq, Repr

/-- Number of low bits that have to be dropped from `a` to make it fit in 24 bits. -/
def F32.excessBits : Nat → Nat → Nat
  | 0, _ => 0
  | fuel + 1, a => if a < 2 ^ 24 then 0 else F32.excessBits fuel (a / 2) + 1

/-- Round `mant * 2 ^ exp` to a 24-bit significand, to nearest, ties to even. -/
def F32.round (mant exp : Int) : F32 :=
  let a := mant.natAbs
  let k := F32.excessBits a a
  let q := a / 2 ^ k
  let r := a % 2 ^ k
  let q1 := if 2 * r > 2 ^ k ∨ (2 * r = 2 ^ k ∧ q % 2 = 1) then q + 1 else q
  { mant := if mant < 0 then -(q1 : Int) else (q1 : Int), exp := exp + (k : Int) }

/-- Conversion `int → float`. -/
def F32.ofInt (n : Int) : F32 := F32.round n 0

/-- The `float` product. -/
def F32.mul (x y : F32) : F32 := F32.round (x.mant * y.mant) (x.exp + y.exp)

/-- The value of a float with its fractional part discarded (truncation toward zero), as an
integer of any size. -/
def F32.trunc (x : F32) : Int :=
  if 0 ≤ x.exp then x.mant * 2 ^ x.exp.toNat
  else if x.mant < 0 then -((x.mant.natAbs / 2 ^ (-x.exp).toNat : Nat) : Int)
  else ((x.mant.natAbs / 2 ^ (-x.exp).toNat : Nat) : Int)

/-- The largest value of the 32-bit C++ `int`. -/
def INT_MAX : Int := 2147483647

/-- The smallest value of the 32-bit C++ `int`. -/
def INT_MIN : Int := -2147483648

/-- The integer `n` is a value of the 32-bit C++ `int`. -/
def inIntRange (n : Int) : Prop := INT_MIN ≤ n ∧ n ≤ INT_MAX

instance (n : Int) : Decidable (inIntRange n) :=
  inferInstanceAs (Decidable (INT_MIN ≤ n ∧ n ≤ INT_MAX))

/-- Conversion `float → int` (`int(x)`): the value truncated toward zero; the conversion is
undefined when `int` cannot hold the truncated value. -/
def F32.toInt (x : F32) : Except Fault Int :=
  if inIntRange x.trunc then Except.ok x.trunc else Except.error Fault.undefinedConversion

/-- The creation parameters `TextureSetup`.  The class is declared outside the factory source
(`Type_` is its member `Type`, a reserved word here);
its data members keep their names, and each query method the factory calls
(`ShouldSetupFromFile()`, ..., `HasSharedDepth()`) is a boolean field of that name. -/
structure TextureSetup where
  ShouldSetupFromFile : Bool
  ShouldSetupFromPixelData : Bool
  ShouldSetupEmpty : Bool
  ShouldSetupAsRenderTarget : Bool
  IsRelSizeRenderTarget : Bool
  HasDepth : Bool
  HasSharedDepth : Bool
  Locator : Nat
  Type_ : TextureType
  TextureUsage : Usage
  Width : Int
  Height : Int
  RelWidth : F32
  RelHeight : F32
  NumMipMaps : Int
  ColorFormat : Nat
  DepthFormat : Nat
  ClearHint : Nat
  DepthRenderTarget : Nat
  deriving DecidableEq, Repr

/-- The derived attributes `TextureAttrs`. -/
structure TextureAttrs where
  Locator : Nat
  Type_ : TextureType
  ColorFormat : Nat
  DepthFormat : Nat
  TextureUsage : Usage
  Width : Int
  Height : Int
  NumMipMaps : Int
  IsRenderTarget : Bool
  HasDepthBuffer : Bool
  HasSharedDepthBuffer : Bool
  deriving DecidableEq, Repr

/-- Modelled from the spec: a default-constructed `TextureAttrs` (the class is declared outside
the factory source): nothing resolved yet, no render-target or depth flag set. -/
def TextureAttrs.init : TextureAttrs :=
  { Locator := 0, Type_ := TextureType.InvalidTextureType, ColorFormat := 0, DepthFormat := 0,
    TextureUsage := Usage.InvalidUsage, Width := 0, Height := 0, NumMipMaps := 1,
    IsRenderTarget := false, HasDepthBuffer := false, HasSharedDepthBuffer := false }

/-- Modelled from the spec: a default-constructed `TextureSetup` (the class is declared outside
the factory source): no creation path selected. -/
def TextureSetup.init : TextureSetup :=
  { ShouldSetupFromFile := false, ShouldSetupFromPixelData := false, ShouldSetupEmpty := false,
    ShouldSetupAsRenderTarget := false, IsRelSizeRenderTarget := false, HasDepth := false,
    HasSharedDepth := false, Locator := 0, Type_ := TextureType.Texture2D,
    TextureUsage := Usage.Immutable, Width := 0, Height := 0, RelWidth := ⟨0, 0⟩,
    RelHeight := ⟨0, 0⟩, NumMipMaps := 1, ColorFormat := 0, DepthFormat := 0, ClearHint := 0,
    DepthRenderTarget := 0 }

/-- Modelled from the spec: `TextureSetup` is declared outside the factory source, which reads
its flags through query methods only.  The spec gives a render target one of three size sources
("relative-size ⇒ fraction of current framebuffer size; shared-depth ⇒ copy dimensions from the
depth-provider texture; else explicit width/height from setup"): a setup is not relative-size and
shared-depth at once. -/
def TextureSetup.oneSizeSource (setup : TextureSetup) : Prop :=
  ¬ (setup.IsRelSizeRenderTarget = true ∧ setup.HasSharedDepth = true)

/-- One GPU resource slot of a texture (`d3d12Texture::slot`). -/
structure slot where
  d3d12TextureRes : Option Nat
  d3d12UploadBuffer : Option Nat
  d3d12TextureState : D3D12_RESOURCE_STATES
  deriving DecidableEq, Repr

/-- Modelled from the spec: an empty slot, holding no resource and no upload buffer. -/
def slot.init : slot :=
  { d3d12TextureRes := none, d3d12UploadBuffer := none,
    d3d12TextureState := D3D12_RESOURCE_STATE_COMMON }

/-- The two-element slot array `slots[0..1]` of a texture. -/
structure slotArray where
  s0 : slot
  s1 : slot
  deriving DecidableEq, Repr

/-- Read `slots[i]`; the array has exactly the indices 0 and 1. -/
def slotArray.get (a : slotArray) (i : Nat) : slot := if i = 0 then a.s0 else a.s1

/-- Write `slots[i] = s`; the array has exactly the indices 0 and 1. -/
def slotArray.set (a : slotArray) (i : Nat) (s : slot) : slotArray :=
  if i = 0 then { a with s0 := s } else if i = 1 then { a with s1 := s } else a

/-- The slots in the order a range-based `for` visits them. -/
def slotArray.toList (a : slotArray) : List slot := [a.s0, a.s1]

/-- The texture entity (`texture`, the D3D12 texture class). -/
structure texture where
  Setup : TextureSetup
  textureAttrs : TextureAttrs
  slots : slotArray
  numSlots : Nat
  d3d12DepthBufferRes : Option Nat
  d3d12DepthBufferState : D3D12_RESOURCE_STATES
  rtvDescriptorSlot : Int
  dsvDescriptorSlot : Int
  deriving DecidableEq, Repr

/-- Modelled from the spec: `texture::Clear()` (declared outside the factory source) resets the
entity to its empty state: default setup and attributes, every slot without resource and upload
buffer, one slot in use, no depth buffer, both descriptor slots `InvalidIndex`. -/
def texture.Clear (_tex : texture) : texture :=
  { Setup := TextureSetup.init, textureAttrs := TextureAttrs.init,
    slots := { s0 := slot.init, s1 := slot.init }, numSlots := 1,
    d3d12DepthBufferRes := none, d3d12DepthBufferState := D3D12_RESOURCE_STATE_COMMON,
    rtvDescriptorSlot := InvalidIndex, dsvDescriptorSlot := InvalidIndex }

/-- Modelled from the spec: the empty entity that is handed to `SetupResource`: the cleared state
with the creation parameters `setup` assigned. -/
def texture.empty (setup : TextureSetup) : texture :=
  { texture.Clear
      { Setup := setup, textureAttrs := TextureAttrs.init,
        slots := { s0 := slot.init, s1 := slot.init }, numSlots := 1,
        d3d12DepthBufferRes := none, d3d12DepthBufferState := D3D12_RESOURCE_STATE_COMMON,
        rtvDescriptorSlot := InvalidIndex, dsvDescriptorSlot := InvalidIndex } with
    Setup := setup }

/-! ## Collaborators of the factory -/

/-- The checked assertion `o_assert_dbg(cond)`: a false condition aborts the call. -/
def o_assert_dbg (cond : Bool) : Except Fault Unit :=
  if cond then Except.ok () else Except.error Fault.assertion

/-- The lookup tables and size computations the factory reads; they are defined outside the
factory source and are taken as they come. -/
structure Tables where
  /-- The predicate `PixelFormat::IsValidRenderTargetColorFormat`. -/
  IsValidRenderTargetColorFormat : Nat → Bool
  /-- The predicate `PixelFormat::IsCompressedFormat`. -/
  IsCompressedFormat : Nat → Bool
  /-- The translation `d3d12Types::asTextureFormat` to a native format code. -/
  asTextureFormat : Nat → Nat
  /-- The size computation `d3d12ResAllocator::ComputeTextureCopyFootprint`. -/
  ComputeTextureCopyFootprint : TextureSetup → Nat

/-- One call from the factory into the allocators or the device, with its arguments and, for an
allocation, the handle or slot it returned. -/
inductive Call where
  | AllocRenderTarget (width height : Int) (format clearHint sampleCount : Nat) (res : Nat)
  | AllocTexture (frameIndex : Nat) (setup : TextureSetup) (hasData : Bool) (size : Int)
      (res : Nat)
  | AllocUploadBuffer (size : Nat) (res : Nat)
  | AddRef (res : Nat)
  | ReleaseDeferred (frameIndex : Nat) (res : Nat)
  | AllocSlot (heap : Nat) (slotIndex : Nat)
  | ReleaseSlotDeferred (heap : Nat) (frameIndex : Nat) (slotIndex : Int)
  | CreateRenderTargetView (res : Option Nat) (heap : Nat) (slotIndex : Int)
  | CreateDepthStencilView (res : Option Nat) (heap : Nat) (slotIndex : Int)
  deriving DecidableEq, Repr

/-- Modelled from the spec: the resource allocator `d3d12ResAllocator` (its source is not part of
the factory source).  Native objects are reference counted; a release is never carried out at
once but queued together with the frame index it was issued at; an object whose releases have
all been carried out and whose reference count is zero is free, and its identity may be handed
out again.  Native allocation failure (a fatal abort inside the allocator) is not modelled. -/
structure d3d12ResAllocator where
  /-- the next identity that has never been handed out -/
  nextHandle : Nat
  /-- identities of freed objects -/
  freeList : List Nat
  /-- reference count of each native object -/
  refCount : Nat → Nat
  /-- pending releases `(frameIndex, handle)`, oldest first -/
  releaseQueue : List (Nat × Nat)

/-- Modelled from the spec: allocation of one native object; reuses a freed identity when there
is one (the head of the free list), otherwise takes the next fresh identity; the new object has
reference count 1. -/
def d3d12ResAllocator.Alloc (a : d3d12ResAllocator) : Nat × d3d12ResAllocator :=
  (a.freeList.headD a.nextHandle,
   { nextHandle := if a.freeList.isEmpty then a.nextHandle + 1 else a.nextHandle
     freeList := a.freeList.tail
     refCount := Function.update a.refCount (a.freeList.headD a.nextHandle) 1
     releaseQueue := a.releaseQueue })

/-- Modelled from the spec: `AddRef()` on a native object increments its reference count. -/
def d3d12ResAllocator.AddRef (a : d3d12ResAllocator) (h : Nat) : d3d12ResAllocator :=
  { a with refCount := Function.update a.refCount h (a.refCount h + 1) }

/-- Modelled from the spec: `ReleaseDeferred(frameIndex, handle)` gives up one reference and
queues the release, tagged with the frame index; nothing is freed by the call. -/
def d3d12ResAllocator.ReleaseDeferred (a : d3d12ResAllocator) (frameIndex h : Nat) :
    d3d12ResAllocator :=
  { a with refCount := Function.update a.refCount h (a.refCount h - 1),
           releaseQueue := a.releaseQueue ++ [(frameIndex, h)] }

/-- Modelled from the spec: the descriptor allocator `d3d12DescAllocator` (its source is not part
of the factory source).  Each heap hands out slot indices; a released slot is queued together
with the frame index and becomes free again later.  Heap exhaustion (a fatal abort inside the
allocator) is not modelled. -/
structure d3d12DescAllocator where
  /-- per heap, the next slot index that has never been handed out -/
  nextSlot : Nat → Nat
  /-- per heap, the slot indices that are free again -/
  freeSlots : Nat → List Nat
  /-- pending slot releases `(heap, frameIndex, slotIndex)`, oldest first -/
  releaseQueue : List (Nat × Nat × Int)

/-- Modelled from the spec: `AllocSlot(heap)` reserves one slot of the heap: a slot that is free
again when there is one, otherwise the next fresh slot index. -/
def d3d12DescAllocator.AllocSlot (d : d3d12DescAllocator) (heap : Nat) :
    Nat × d3d12DescAllocator :=
  ((d.freeSlots heap).headD (d.nextSlot heap),
   { nextSlot := if (d.freeSlots heap).isEmpty then
         Function.update d.nextSlot heap (d.nextSlot heap + 1)
       else d.nextSlot
     freeSlots := Function.update d.freeSlots heap (d.freeSlots heap).tail
     releaseQueue := d.releaseQueue })

/-- Modelled from the spec: `ReleaseSlotDeferred(heap, frameIndex, slotIndex)` queues the slot,
tagged with the frame index; the slot is not free yet. -/
def d3d12DescAllocator.ReleaseSlotDeferred (d : d3d12DescAllocator) (heap frameIndex : Nat)
    (slotIndex : Int) : d3d12DescAllocator :=
  { d with releaseQueue := d.releaseQueue ++ [(heap, frameIndex, slotIndex)] }

/-- The part of the renderer the factory uses: both allocators, the current frame index, the
identifiers of the two view heaps, and (as a record of what happened) the calls made so far. -/
structure renderer where
  resAllocator : d3d12ResAllocator
  descAllocator : d3d12DescAllocator
  frameIndex : Nat
  rtvHeap : Nat
  dsvHeap : Nat
  calls : List Call

/-- The display attributes `DisplayAttrs`, as far as the factory reads them and the display
manager writes them; a window extent that is not given is 0. -/
structure DisplayAttrs where
  WindowWidth : Int := 0
  WindowHeight : Int := 0
  FramebufferWidth : Int
  FramebufferHeight : Int
  deriving DecidableEq, Repr

/-- The display manager, as far as the factory reads it. -/
structure displayMgr where
  GetDisplayAttrs : DisplayAttrs
  deriving DecidableEq, Repr

/-- The texture pool: `Lookup` finds an existing texture by its id, `none` being `nullptr`. -/
structure texturePool where
  Lookup : Nat → Option texture

/-- The collaborators a factory points to (`gfxPointers`). -/
structure gfxPointers where
  renderer : renderer
  displayMgr : displayMgr
  texturePool : texturePool

/-- The factory object. -/
structure d3d12TextureFactory where
  isValid : Bool
  pointers : gfxPointers

/-- The factory with its renderer replaced (the renderer is reached through a pointer and is
changed in place by every allocator call). -/
def d3d12TextureFactory.withRenderer (f : d3d12TextureFactory) (r : renderer) :
    d3d12TextureFactory :=
  { f with pointers := { f.pointers with renderer := r } }

/-! ### Calls into the allocators and the device, recorded in `calls` -/

/-- The call `resAllocator.AllocRenderTarget(device, width, height, format, clearHint, n)`. -/
def renderer.AllocRenderTarget (r : renderer) (width height : Int)
    (format clearHint sampleCount : Nat) : Nat × renderer :=
  (r.resAllocator.Alloc.1,
   { r with resAllocator := r.resAllocator.Alloc.2,
            calls := r.calls ++ [Call.AllocRenderTarget width height format clearHint
                                   sampleCount r.resAllocator.Alloc.1] })

/-- The call `resAllocator.AllocTexture(device, cmdList, frameIndex, setup, data, size)`. -/
def renderer.AllocTexture (r : renderer) (frameIndex : Nat) (setup : TextureSetup)
    (hasData : Bool) (size : Int) : Nat × renderer :=
  (r.resAllocator.Alloc.1,
   { r with resAllocator := r.resAllocator.Alloc.2,
            calls := r.calls ++ [Call.AllocTexture frameIndex setup hasData size
                                   r.resAllocator.Alloc.1] })

/-- The call `resAllocator.AllocUploadBuffer(device, size)`. -/
def renderer.AllocUploadBuffer (r : renderer) (size : Nat) : Nat × renderer :=
  (r.resAllocator.Alloc.1,
   { r with resAllocator := r.resAllocator.Alloc.2,
            calls := r.calls ++ [Call.AllocUploadBuffer size r.resAllocator.Alloc.1] })

/-- The call `res->AddRef()`. -/
def renderer.AddRef (r : renderer) (h : Nat) : renderer :=
  { r with resAllocator := r.resAllocator.AddRef h, calls := r.calls ++ [Call.AddRef h] }

/-- The call `resAllocator.ReleaseDeferred(frameIndex, res)`. -/
def renderer.ReleaseDeferred (r : renderer) (frameIndex h : Nat) : renderer :=
  { r with resAllocator := r.resAllocator.ReleaseDeferred frameIndex h,
           calls := r.calls ++ [Call.ReleaseDeferred frameIndex h] }

/-- The call `descAllocator.AllocSlot(heap)`. -/
def renderer.AllocSlot (r : renderer) (heap : Nat) : Nat × renderer :=
  ((r.descAllocator.AllocSlot heap).1,
   { r with descAllocator := (r.descAllocator.AllocSlot heap).2,
            calls := r.calls ++ [Call.AllocSlot heap (r.descAllocator.AllocSlot heap).1] })

/-- The call `descAllocator.ReleaseSlotDeferred(heap, frameIndex, slotIndex)`. -/
def renderer.ReleaseSlotDeferred (r : renderer) (heap frameIndex : Nat) (slotIndex : Int) :
    renderer :=
  { r with descAllocator := r.descAllocator.ReleaseSlotDeferred heap frameIndex slotIndex,
           calls := r.calls ++ [Call.ReleaseSlotDeferred heap frameIndex slotIndex] }

/-- The call `d3d12Device->CreateRenderTargetView(res, nullptr, handle)`, the handle being the
CPU handle of `slotIndex` in `heap`. -/
def renderer.CreateRenderTargetView (r : renderer) (res : Option Nat) (heap : Nat)
    (slotIndex : Int) : renderer :=
  { r with calls := r.calls ++ [Call.CreateRenderTargetView res heap slotIndex] }

/-- The call `d3d12Device->CreateDepthStencilView(res, nullptr, handle)`, the handle being the
CPU handle of `slotIndex` in `heap`. -/
def renderer.CreateDepthStencilView (r : renderer) (res : Option Nat) (heap : Nat)
    (slotIndex : Int) : renderer :=
  { r with calls := r.calls ++ [Call.CreateDepthStencilView res heap slotIndex] }

/-! ## The factory (`d3d12TextureFactory.cc`) -/

/-- The result of a creation call: the state code, the texture and the factory afterwards. -/
abbrev SetupResult := Except Fault (ResourceState × texture × d3d12TextureFactory)

/-- The function `d3d12TextureFactory::setupTextureAttrs`. -/
def setupTextureAttrs (tex : texture) : texture :=
  let attrs : TextureAttrs :=
    { TextureAttrs.init with
      Locator := tex.Setup.Locator
      Type_ := tex.Setup.Type_
      ColorFormat := tex.Setup.ColorFormat
      TextureUsage := tex.Setup.TextureUsage
      Width := tex.Setup.Width
      Height := tex.Setup.Height
      NumMipMaps := tex.Setup.NumMipMaps }
  { tex with textureAttrs := attrs }

/-- The size-resolution step of `createRenderTarget` (the `if` / `else if` / `else` that sets
`width`, `height` and `sharedDepthProvider`). -/
def resolveSize (f : d3d12TextureFactory) (setup : TextureSetup) :
    Except Fault (Int × Int × Option texture) :=
  if setup.IsRelSizeRenderTarget then do
    let dispAttrs := f.pointers.displayMgr.GetDisplayAttrs
    let width ← F32.toInt (F32.mul (F32.ofInt dispAttrs.FramebufferWidth) setup.RelWidth)
    let height ← F32.toInt (F32.mul (F32.ofInt dispAttrs.FramebufferHeight) setup.RelHeight)
    Except.ok (width, height, none)
  else if setup.HasSharedDepth then
    let sharedDepthProvider := f.pointers.texturePool.Lookup setup.DepthRenderTarget
    match sharedDepthProvider with
    | none => Except.error Fault.assertion
    | some p => Except.ok (p.textureAttrs.Width, p.textureAttrs.Height, some p)
  else
    Except.ok (setup.Width, setup.Height, none)

/-- The colour-buffer step of `createRenderTarget` ("create the color buffer and
render-target-view"), working on the texture and the renderer. -/
def createColorBuffer (setup : TextureSetup) (width height : Int) (tex : texture)
    (r : renderer) : texture × renderer :=
  let (h, r) := r.AllocRenderTarget width height setup.ColorFormat setup.ClearHint 1
  let sl : slot := { tex.slots.get 0 with d3d12TextureRes := some h }
  let tex := { tex with slots := tex.slots.set 0 sl }
  let sl : slot := { tex.slots.get 0 with d3d12TextureState := D3D12_RESOURCE_STATE_RENDER_TARGET }
  let tex := { tex with slots := tex.slots.set 0 sl }
  let rtvHeap := r.rtvHeap
  let (s, r) := r.AllocSlot rtvHeap
  let tex := { tex with rtvDescriptorSlot := (s : Int) }
  let r := r.CreateRenderTargetView (tex.slots.get 0).d3d12TextureRes rtvHeap
             tex.rtvDescriptorSlot
  (tex, r)

/-- The optional depth-buffer step of `createRenderTarget` (the body of `if (setup.HasDepth())`),
working on the texture and the renderer. -/
def createDepthBuffer (setup : TextureSetup) (width height : Int)
    (sharedDepthProvider : Option texture) (tex : texture) (r : renderer) :
    Except Fault (texture × renderer) := do
  let (tex, r) ←
    if setup.HasSharedDepth then
      match sharedDepthProvider with
      | none => Except.error Fault.nullPointer
      | some p =>
        match p.d3d12DepthBufferRes with
        | none => Except.error Fault.assertion
        | some h =>
          let tex := { tex with d3d12DepthBufferRes := some h }
          Except.ok (tex, r.AddRef h)
    else
      let (h, r) := r.AllocRenderTarget width height setup.DepthFormat setup.ClearHint 1
      Except.ok ({ tex with d3d12DepthBufferRes := some h }, r)
  let tex := { tex with d3d12DepthBufferState := D3D12_RESOURCE_STATE_DEPTH_WRITE }
  let dsvHeap := r.dsvHeap
  let (s, r) := r.AllocSlot dsvHeap
  let tex := { tex with dsvDescriptorSlot := (s : Int) }
  let r := r.CreateDepthStencilView tex.d3d12DepthBufferRes dsvHeap tex.dsvDescriptorSlot
  pure (tex, r)

/-- The attributes `createRenderTarget` builds ("setup texture attrs and set on texture"):
a default-constructed `TextureAttrs` with the members assigned there. -/
def renderTargetAttrs (setup : TextureSetup) (width height : Int) : TextureAttrs :=
  { TextureAttrs.init with
    Locator := setup.Locator
    Type_ := TextureType.Texture2D
    ColorFormat := setup.ColorFormat
    DepthFormat := setup.DepthFormat
    TextureUsage := Usage.Immutable
    Width := width
    Height := height
    NumMipMaps := 1
    IsRenderTarget := true
    HasDepthBuffer := setup.HasDepth
    HasSharedDepthBuffer := setup.HasSharedDepth }

/-- The function `d3d12TextureFactory::createRenderTarget`. -/
def createRenderTarget (tb : Tables) (f : d3d12TextureFactory) (tex : texture) : SetupResult := do
  o_assert_dbg (tex.slots.get 0).d3d12TextureRes.isNone
  o_assert_dbg (decide (1 = tex.numSlots))
  o_assert_dbg tex.d3d12DepthBufferRes.isNone
  o_assert_dbg (decide (InvalidIndex = tex.rtvDescriptorSlot))
  o_assert_dbg (decide (InvalidIndex = tex.dsvDescriptorSlot))
  let setup := tex.Setup
  o_assert_dbg setup.ShouldSetupAsRenderTarget
  o_assert_dbg (decide (setup.TextureUsage = Usage.Immutable))
  o_assert_dbg (decide (setup.NumMipMaps = 1))
  o_assert_dbg (decide (setup.Type_ = TextureType.Texture2D))
  o_assert_dbg (tb.IsValidRenderTargetColorFormat setup.ColorFormat)
  let r := f.pointers.renderer
  -- get size of new render target
  let (width, height, sharedDepthProvider) ← resolveSize f setup
  o_assert_dbg (decide (width > 0) && decide (height > 0))
  -- create the color buffer and render-target-view
  let (tex, r) := createColorBuffer setup width height tex r
  -- create optional depth-buffer
  let (tex, r) ←
    if setup.HasDepth then createDepthBuffer setup width height sharedDepthProvider tex r
    else Except.ok (tex, r)
  -- setup texture attrs and set on texture
  let tex := { tex with textureAttrs := renderTargetAttrs setup width height }
  pure (ResourceState.Valid, tex, f.withRenderer r)

/-- The function `d3d12TextureFactory::createFromPixelData`; `data` is the pointer argument
(`none` is `nullptr`). -/
def createFromPixelData (tb : Tables) (f : d3d12TextureFactory) (tex : texture)
    (data : Option Nat) (size : Int) : SetupResult := do
  o_assert_dbg (tex.slots.get 0).d3d12TextureRes.isNone
  o_assert_dbg (decide (1 = tex.numSlots))
  o_assert_dbg data.isSome
  o_assert_dbg (decide (size > 0))
  let setup := tex.Setup
  o_assert_dbg (decide (setup.NumMipMaps > 0))
  o_assert_dbg (decide (setup.TextureUsage = Usage.Immutable))
  if setup.Type_ = TextureType.Texture3D then
    pure (ResourceState.Failed, tex, f)
  else if DXGI_FORMAT_UNKNOWN = tb.asTextureFormat setup.ColorFormat then
    pure (ResourceState.Failed, tex, f)
  else
    -- create d3d12 texture resource
    let r := f.pointers.renderer
    let frameIndex := r.frameIndex
    let (h, r) := r.AllocTexture frameIndex setup data.isSome size
    let sl : slot := { tex.slots.get 0 with d3d12TextureRes := some h }
    let tex := { tex with slots := tex.slots.set 0 sl }
    let sl : slot := { tex.slots.get 0 with d3d12TextureState := D3D12_RESOURCE_STATE_PIXEL_SHADER_RESOURCE }
    let tex := { tex with slots := tex.slots.set 0 sl }
    -- setup texture attributes
    let tex := setupTextureAttrs tex
    pure (ResourceState.Valid, tex, f.withRenderer r)

/-- One iteration of the slot loop of `createEmptyTexture`. -/
def createEmptyTextureSlot (setup : TextureSetup) (frameIndex copyFootprint : Nat)
    (st : texture × renderer) (slotIndex : Nat) : Except Fault (texture × renderer) := do
  let (tex, r) := st
  let (h, r) := r.AllocTexture frameIndex setup false 0
  let sl : slot := { tex.slots.get slotIndex with d3d12TextureRes := some h }
  let tex := { tex with slots := tex.slots.set slotIndex sl }
  o_assert_dbg (tex.slots.get slotIndex).d3d12TextureRes.isSome
  let sl : slot := { tex.slots.get slotIndex with d3d12TextureState := D3D12_RESOURCE_STATE_PIXEL_SHADER_RESOURCE }
  let tex := { tex with slots := tex.slots.set slotIndex sl }
  let (u, r) := r.AllocUploadBuffer copyFootprint
  let sl : slot := { tex.slots.get slotIndex with d3d12UploadBuffer := some u }
  let tex := { tex with slots := tex.slots.set slotIndex sl }
  o_assert_dbg (tex.slots.get slotIndex).d3d12UploadBuffer.isSome
  pure (tex, r)

/-- The function `d3d12TextureFactory::createEmptyTexture`. -/
def createEmptyTexture (tb : Tables) (f : d3d12TextureFactory) (tex : texture) : SetupResult := do
  o_assert_dbg (tex.slots.get 0).d3d12TextureRes.isNone
  o_assert_dbg (tex.slots.get 1).d3d12TextureRes.isNone
  let setup := tex.Setup
  o_assert_dbg (decide (setup.TextureUsage ≠ Usage.Immutable))
  o_assert_dbg (decide (setup.NumMipMaps > 0))
  o_assert_dbg (decide (setup.Type_ = TextureType.Texture2D))
  o_assert_dbg (!tb.IsCompressedFormat setup.ColorFormat)
  -- 2 textures and upload buffers for stream usage (updated each frame),
  -- 1 texture for spurious updates
  let tex := { tex with numSlots := if Usage.Stream = setup.TextureUsage then 2 else 1 }
  let r := f.pointers.renderer
  let frameIndex := r.frameIndex
  let copyFootprint := tb.ComputeTextureCopyFootprint setup
  let (tex, r) ← (List.range tex.numSlots).foldlM
      (createEmptyTextureSlot setup frameIndex copyFootprint) (tex, r)
  -- setup the texture attributes
  let tex := setupTextureAttrs tex
  pure (ResourceState.Valid, tex, f.withRenderer r)

/-- The function `d3d12TextureFactory::SetupResource(texture&)`. -/
def SetupResource (tb : Tables) (f : d3d12TextureFactory) (tex : texture) : SetupResult := do
  o_assert_dbg f.isValid
  o_assert_dbg (!tex.Setup.ShouldSetupFromPixelData)
  o_assert_dbg (!tex.Setup.ShouldSetupFromFile)
  if tex.Setup.ShouldSetupAsRenderTarget then
    createRenderTarget tb f tex
  else if tex.Setup.ShouldSetupEmpty then
    createEmptyTexture tb f tex
  else
    pure (ResourceState.InvalidState, tex, f)

/-- The function `d3d12TextureFactory::SetupResource(texture&, const void*, int)`. -/
def SetupResourceWithData (tb : Tables) (f : d3d12TextureFactory) (tex : texture)
    (data : Option Nat) (size : Int) : SetupResult := do
  o_assert_dbg f.isValid
  o_assert_dbg (!tex.Setup.ShouldSetupAsRenderTarget)
  if tex.Setup.ShouldSetupFromPixelData then
    createFromPixelData tb f tex data size
  else
    pure (ResourceState.InvalidState, tex, f)

/-- The releases `DestroyResource` issues for one slot (the body of its `for` loop). -/
def releaseSlot (frameIndex : Nat) (r : renderer) (s : slot) : renderer :=
  let r := match s.d3d12TextureRes with
    | some h => r.ReleaseDeferred frameIndex h
    | none => r
  match s.d3d12UploadBuffer with
  | some h => r.ReleaseDeferred frameIndex h
  | none => r

/-- The function `d3d12TextureFactory::DestroyResource`. -/
def DestroyResource (f : d3d12TextureFactory) (tex : texture) :
    Except Fault (texture × d3d12TextureFactory) := do
  o_assert_dbg f.isValid
  let r := f.pointers.renderer
  let frameIndex := r.frameIndex
  let r := tex.slots.toList.foldl (releaseSlot frameIndex) r
  let r := match tex.d3d12DepthBufferRes with
    | some h => r.ReleaseDeferred frameIndex h
    | none => r
  let r := if InvalidIndex ≠ tex.rtvDescriptorSlot then
      r.ReleaseSlotDeferred r.rtvHeap frameIndex tex.rtvDescriptorSlot
    else r
  let r := if InvalidIndex ≠ tex.dsvDescriptorSlot then
      r.ReleaseSlotDeferred r.dsvHeap frameIndex tex.dsvDescriptorSlot
    else r
  pure (tex.Clear, f.withRenderer r)

/-- The assertions at the head of `createRenderTarget`: the entity is empty with one slot in use,
the setup is a render-target setup with immutable usage, one mip level, 2D type and a colour
format valid for a render target. -/
def createRenderTarget_pre (tb : Tables) (tex : texture) : Prop :=
  (tex.slots.get 0).d3d12TextureRes = none ∧ tex.numSlots = 1 ∧
  tex.d3d12DepthBufferRes = none ∧ tex.rtvDescriptorSlot = InvalidIndex ∧
  tex.dsvDescriptorSlot = InvalidIndex ∧ tex.Setup.ShouldSetupAsRenderTarget = true ∧
  tex.Setup.TextureUsage = Usage.Immutable ∧ tex.Setup.NumMipMaps = 1 ∧
  tex.Setup.Type_ = TextureType.Texture2D ∧
  tb.IsValidRenderTargetColorFormat tex.Setup.ColorFormat = true

/-- The part of `createRenderTarget` after the assertions on the size: colour buffer, optional
depth buffer, attributes. -/
def createRenderTargetBody (f : d3d12TextureFactory) (tex : texture) (width height : Int)
    (sharedDepthProvider : Option texture) : SetupResult :=
  let cb := createColorBuffer tex.Setup width height tex f.pointers.renderer
  match (if tex.Setup.HasDepth then
      createDepthBuffer tex.Setup width height sharedDepthProvider cb.1 cb.2
    else Except.ok cb) with
  | Except.ok (t, r) =>
    Except.ok (ResourceState.Valid,
      { t with textureAttrs := renderTargetAttrs tex.Setup width height }, f.withRenderer r)
  | Except.error e => Except.error e

/-- The assertions at the head of `createFromPixelData`: slot 0 holds no resource, one slot is in
use, there is data of positive size, the setup has at least one mip level and immutable usage. -/
def createFromPixelData_pre (tex : texture) (data : Option Nat) (size : Int) : Prop :=
  (tex.slots.get 0).d3d12TextureRes = none ∧ tex.numSlots = 1 ∧ data.isSome = true ∧
  0 < size ∧ 0 < tex.Setup.NumMipMaps ∧ tex.Setup.TextureUsage = Usage.Immutable

/-- The assertions at the head of `createEmptyTexture`: no slot holds a texture resource, the
usage is not immutable, there is at least one mip level, the type is 2D and the colour format is
not compressed. -/
def createEmptyTexture_pre (tb : Tables) (tex : texture) : Prop :=
  (tex.slots.get 0).d3d12TextureRes = none ∧ (tex.slots.get 1).d3d12TextureRes = none ∧
  tex.Setup.TextureUsage ≠ Usage.Immutable ∧ 0 < tex.Setup.NumMipMaps ∧
  tex.Setup.Type_ = TextureType.Texture2D ∧
  tb.IsCompressedFormat tex.Setup.ColorFormat = false

/-- One iteration of the slot loop of `createEmptyTexture` with its assertions taken as passed:
the texture and renderer after the two allocations for slot `slotIndex`. -/
def emptySlotStep (setup : TextureSetup) (frameIndex copyFootprint : Nat)
    (st : texture × renderer) (slotIndex : Nat) : texture × renderer :=
  let r1 := st.2.AllocTexture frameIndex setup false 0
  let r2 := r1.2.AllocUploadBuffer copyFootprint
  let sl : slot := { d3d12TextureRes := some r1.1, d3d12UploadBuffer := some r2.1,
                     d3d12TextureState := D3D12_RESOURCE_STATE_PIXEL_SHADER_RESOURCE }
  ({ st.1 with slots := st.1.slots.set slotIndex sl }, r2.2)

/-! ## Concrete objects used to evaluate the definitions -/

/-- Example tables: every format is a valid colour target, none is compressed, format code `c`
translates to native code `c` (so code 0 has no native equivalent), 4 bytes per pixel. -/
def exTables : Tables :=
  { IsValidRenderTargetColorFormat := fun _ => true
    IsCompressedFormat := fun _ => false
    asTextureFormat := fun c => c
    ComputeTextureCopyFootprint := fun s => (s.Width * s.Height * 4).toNat }

/-- Example renderer at frame 7 with fresh allocators: nothing allocated, nothing queued. -/
def exRenderer : renderer :=
  { resAllocator := { nextHandle := 1, freeList := [], refCount := fun _ => 0,
                      releaseQueue := [] }
    descAllocator := { nextSlot := fun _ => 0, freeSlots := fun _ => [], releaseQueue := [] }
    frameIndex := 7
    rtvHeap := 1
    dsvHeap := 2
    calls := [] }

/-- Example factory: set up, 800x600 framebuffer, empty texture pool. -/
def exFactory : d3d12TextureFactory :=
  { isValid := true
    pointers := { renderer := exRenderer
                  displayMgr := { GetDisplayAttrs := { FramebufferWidth := 800,
                                                       FramebufferHeight := 600 } }
                  texturePool := { Lookup := fun _ => none } } }

/-- Example setup that selects no creation path at all. -/
def exSetupNone : TextureSetup := { TextureSetup.init with ColorFormat := 1 }

/-- Example setup for the from-pixel-data path: immutable 2D texture, 64x64, one mip. -/
def exSetupPixelData : TextureSetup :=
  { TextureSetup.init with ShouldSetupFromPixelData := true, Width := 64, Height := 64,
                           ColorFormat := 1 }

/-- Example setup for the render-target path: 256x128 colour target without depth. -/
def exSetupRenderTarget : TextureSetup :=
  { TextureSetup.init with ShouldSetupAsRenderTarget := true, Width := 256, Height := 128,
                           ColorFormat := 1 }

/-- Example setup of a render target that allocates its own depth buffer (256x128, id 5). -/
def exSetupDepthA : TextureSetup :=
  { TextureSetup.init with ShouldSetupAsRenderTarget := true, HasDepth := true, Width := 256,
                           Height := 128, ColorFormat := 1, DepthFormat := 9, Locator := 5 }

/-- Example setup of a render target that shares the depth buffer of the texture with id 5. -/
def exSetupSharedB : TextureSetup :=
  { TextureSetup.init with ShouldSetupAsRenderTarget := true, HasDepth := true,
                           HasSharedDepth := true, ColorFormat := 1, DepthFormat := 9,
                           DepthRenderTarget := 5, Locator := 6 }

/-- Creation of the depth-owning render target A on the example factory. -/
def exRunA : SetupResult := createRenderTarget exTables exFactory (texture.empty exSetupDepthA)

/-- The texture A as `createRenderTarget` leaves it. -/
def exTexA : texture :=
  match exRunA with
  | Except.ok (_, t, _) => t
  | Except.error _ => texture.empty exSetupDepthA

/-- The factory after A was created, with A registered in the texture pool under id 5. -/
def exFactoryA : d3d12TextureFactory :=
  match exRunA with
  | Except.ok (_, _, f) =>
    { f with pointers := { f.pointers with
        texturePool := { Lookup := fun id => if id = 5 then some exTexA else none } } }
  | Except.error _ => exFactory

/-- Creation of the render target B that shares A's depth buffer. -/
def exRunB : SetupResult := createRenderTarget exTables exFactoryA (texture.empty exSetupSharedB)

/-- The texture B as `createRenderTarget` leaves it. -/
def exTexB : texture :=
  match exRunB with
  | Except.ok (_, t, _) => t
  | Except.error _ => texture.empty exSetupSharedB

/-- The factory after B was created. -/
def exFactoryB : d3d12TextureFactory :=
  match exRunB with
  | Except.ok (_, _, f) => f
  | Except.error _ => exFactoryA

/-- Example setup for the empty path with stream usage: 32x32, one mip. -/
def exSetupStream : TextureSetup :=
  { TextureSetup.init with ShouldSetupEmpty := true, TextureUsage := Usage.Stream, Width := 32,
                           Height := 32, ColorFormat := 1 }

/-- Example setup for the from-pixel-data path with a 3D texture type. -/
def exSetup3D : TextureSetup :=
  { TextureSetup.init with ShouldSetupFromPixelData := true, Type_ := TextureType.Texture3D,
                           Width := 8, Height := 8, ColorFormat := 1 }

/-- Example setup of a second render target that shares the depth buffer of the texture with
id 5. -/
def exSetupSharedC : TextureSetup := { exSetupSharedB with Locator := 8 }

/-- Creation of the render target C, which shares A's depth buffer as B already does. -/
def exRunC : SetupResult := createRenderTarget exTables exFactoryB (texture.empty exSetupSharedC)

/-- The texture C as `createRenderTarget` leaves it. -/
def exTexC : texture :=
  match exRunC with
  | Except.ok (_, t, _) => t
  | Except.error _ => texture.empty exSetupSharedC

/-- The factory after C was created. -/
def exFactoryC : d3d12TextureFactory :=
  match exRunC with
  | Except.ok (_, _, f) => f
  | Except.error _ => exFactoryB

/-- In the words of the spec: the size of a new render target: "relative-size ⇒ fraction of
current framebuffer size; shared-depth ⇒ copy dimensions from the depth-provider texture (looked
up by locator in the texture pool); else explicit width/height from setup".  The fraction is the
C++ expression `int(FramebufferWidth * RelWidth)`: the integer is converted to `float`, the
product is the `float` product, and the conversion to `int` truncates; the value here is the
truncated product, whether or not `int` can hold it.  When the provider is not in the pool the
size is `(0, 0)`, which the assertion on the size rejects. -/
def resolvedSize (f : d3d12TextureFactory) (setup : TextureSetup) : Int × Int :=
  if setup.IsRelSizeRenderTarget then
    (F32.trunc (F32.mul (F32.ofInt f.pointers.displayMgr.GetDisplayAttrs.FramebufferWidth)
        setup.RelWidth),
     F32.trunc (F32.mul (F32.ofInt f.pointers.displayMgr.GetDisplayAttrs.FramebufferHeight)
        setup.RelHeight))
  else if setup.HasSharedDepth then
    match f.pointers.texturePool.Lookup setup.DepthRenderTarget with
    | some p => (p.textureAttrs.Width, p.textureAttrs.Height)
    | none => (0, 0)
  else (setup.Width, setup.Height)


/-- The state code of a creation result, if the call returned. -/
def SetupResult.code (r : SetupResult) : Option ResourceState :=
  match r with
  | Except.ok (c, _, _) => some c
  | Except.error _ => none

/-- The resolved size `(attrs.Width, attrs.Height)` of a creation result, if the call
returned. -/
def SetupResult.size (r : SetupResult) : Option (Int × Int) :=
  match r with
  | Except.ok (_, t, _) => some (t.textureAttrs.Width, t.textureAttrs.Height)
  | Except.error _ => none

/-- The renderer after a `DestroyResource` call, if the call returned. -/
def destroyedRenderer (r : Except Fault (texture × d3d12TextureFactory)) : Option renderer :=
  match r with
  | Except.ok (_, f) => some f.pointers.renderer
  | Except.error _ => none

/-- The native resources a texture holds, in the order `DestroyResource` visits them: per slot
the texture resource and the upload buffer, then the depth buffer. -/
def texture.heldResources (tex : texture) : List Nat :=
  [tex.slots.s0.d3d12TextureRes, tex.slots.s0.d3d12UploadBuffer,
   tex.slots.s1.d3d12TextureRes, tex.slots.s1.d3d12UploadBuffer,
   tex.d3d12DepthBufferRes].reduceOption

/-- In the words of the spec: a texture owns its depth buffer when it has one and its setup does
not share the depth buffer of another texture ("a texture with `HasSharedDepth() == true` never
owns its depth resource"). -/
def texture.ownsDepthBuffer (tex : texture) : Bool :=
  tex.d3d12DepthBufferRes.isSome && !tex.Setup.HasSharedDepth

/-- In the words of the spec: the resources whose release the destruction queues, the depth buffer
only "if owned". -/
def texture.releasesIfOwned (tex : texture) : List Nat :=
  [tex.slots.s0.d3d12TextureRes, tex.slots.s0.d3d12UploadBuffer,
   tex.slots.s1.d3d12TextureRes, tex.slots.s1.d3d12UploadBuffer,
   if tex.ownsDepthBuffer then tex.d3d12DepthBufferRes else none].reduceOption

/-- The descriptor-slot releases of a texture: the RTV slot if allocated, then the DSV slot if
allocated, each with its heap and the frame index. -/
def texture.heldSlots (tex : texture) (r : renderer) : List (Nat × Nat × Int) :=
  (if InvalidIndex ≠ tex.rtvDescriptorSlot then [(r.rtvHeap, r.frameIndex, tex.rtvDescriptorSlot)]
   else []) ++
  (if InvalidIndex ≠ tex.dsvDescriptorSlot then [(r.dsvHeap, r.frameIndex, tex.dsvDescriptorSlot)]
   else [])

/-- Deferred release of a list of resources, one `ReleaseDeferred` call after the other. -/
def renderer.releaseAll (r : renderer) (frameIndex : Nat) (hs : List Nat) : renderer :=
  hs.foldl (fun r h => r.ReleaseDeferred frameIndex h) r

/-- Deferred release of a list of descriptor slots `(heap, frameIndex, slotIndex)`, one
`ReleaseSlotDeferred` call after the other. -/
def renderer.releaseSlots (r : renderer) (ss : List (Nat × Nat × Int)) : renderer :=
  ss.foldl (fun r s => r.ReleaseSlotDeferred s.1 s.2.1 s.2.2) r

/-- The texture resources in the slots in use (index below `numSlots`), in slot order. -/
def texture.slotTextures (tex : texture) : List Nat :=
  (List.range tex.numSlots).filterMap (fun i => (tex.slots.get i).d3d12TextureRes)

/-- The upload buffers in the slots in use (index below `numSlots`), in slot order. -/
def texture.slotUploadBuffers (tex : texture) : List Nat :=
  (List.range tex.numSlots).filterMap (fun i => (tex.slots.get i).d3d12UploadBuffer)

/-! ## The frame pipeline around the factory -/

/-- Modelled from the spec: garbage collection of the resource allocator (its source is not part
of the factory source).  The queue of `(frame tag, resource)` pairs is drained when the
completed-frame counter has reached the tag; a drained resource is actually freed (its identity
goes to the free list) only when its reference count is zero and no later release of it is still
pending. -/
def d3d12ResAllocator.GarbageCollect (a : d3d12ResAllocator) (completedFrame : Nat) :
    d3d12ResAllocator :=
  { a with
    releaseQueue := a.releaseQueue.filter (fun e => decide (completedFrame < e.1))
    freeList := a.freeList ++
      (((a.releaseQueue.filter (fun e => decide (e.1 ≤ completedFrame))).map Prod.snd).dedup.filter
        (fun h => decide (a.refCount h = 0) &&
          decide (h ∉ (a.releaseQueue.filter (fun e => decide (completedFrame < e.1))).map
            Prod.snd))) }

/-- Modelled from the spec: garbage collection of the descriptor allocator (its source is not part
of the factory source).  A queued slot becomes free again in its heap when the completed-frame
counter has reached its frame tag. -/
def d3d12DescAllocator.GarbageCollect (d : d3d12DescAllocator) (completedFrame : Nat) :
    d3d12DescAllocator :=
  { d with
    releaseQueue := d.releaseQueue.filter (fun e => decide (completedFrame < e.2.1))
    freeSlots := fun heap => d.freeSlots heap ++
      ((d.releaseQueue.filter
          (fun e => decide (e.2.1 ≤ completedFrame) && decide (e.1 = heap))).map
        (fun e => e.2.2.toNat)) }

/-- Modelled from the spec: the renderer with its display manager, the completed-frame counter
("a monotonically increasing frame-completion counter maintained by the surrounding renderer")
and the texture pool, in which the texture with id `i` is the `i`-th entry. -/
structure System where
  renderer : renderer
  displayMgr : displayMgr
  completedFrame : Nat
  textures : List texture

/-- The set-up factory of a system: its pointers are the system's renderer, display manager and
texture pool. -/
def System.factory (s : System) : d3d12TextureFactory :=
  { isValid := true
    pointers := { renderer := s.renderer
                  displayMgr := s.displayMgr
                  texturePool := { Lookup := fun id => s.textures[id]? } } }

/-- What can happen to a system: a texture is set up (without or with pixel data) from an empty
entity, a texture of the pool is destroyed, the CPU begins the next frame, or the GPU retires one
more frame, upon which both allocators collect garbage. -/
inductive Op where
  | setup (setup : TextureSetup)
  | setupWithData (setup : TextureSetup) (data : Option Nat) (size : Int)
  | destroy (id : Nat)
  | beginFrame
  | retireFrame
  deriving DecidableEq, Repr

/-- One operation on a system; `none` when the call aborts (a failed assertion, a null pointer),
when there is no such texture, or when the GPU has no submitted frame left to retire. -/
def System.step (tb : Tables) (s : System) : Op → Option System
  | Op.setup setup =>
    match SetupResource tb s.factory (texture.empty setup) with
    | Except.ok (_, t, f) =>
      some { s with renderer := f.pointers.renderer, textures := s.textures ++ [t] }
    | Except.error _ => none
  | Op.setupWithData setup data size =>
    match SetupResourceWithData tb s.factory (texture.empty setup) data size with
    | Except.ok (_, t, f) =>
      some { s with renderer := f.pointers.renderer, textures := s.textures ++ [t] }
    | Except.error _ => none
  | Op.destroy id =>
    match s.textures[id]? with
    | some tex =>
      match DestroyResource s.factory tex with
      | Except.ok (t, f) =>
        some { s with renderer := f.pointers.renderer, textures := s.textures.set id t }
      | Except.error _ => none
    | none => none
  | Op.beginFrame =>
    some { s with renderer := { s.renderer with frameIndex := s.renderer.frameIndex + 1 } }
  | Op.retireFrame =>
    if s.completedFrame + 1 < s.renderer.frameIndex then
      some { s with
        completedFrame := s.completedFrame + 1
        renderer := { s.renderer with
          resAllocator := s.renderer.resAllocator.GarbageCollect (s.completedFrame + 1)
          descAllocator := s.renderer.descAllocator.GarbageCollect (s.completedFrame + 1) } }
    else none

/-- A sequence of operations, `none` as soon as one of them has no outcome. -/
def System.run (tb : Tables) (s : System) : List Op → Option System
  | [] => some s
  | op :: ops =>
    match s.step tb op with
    | some s' => s'.run tb ops
    | none => none

/-- A system at start-up: nothing allocated, nothing queued, nothing free again, no texture, no
frame retired; the first identity, the heap identifiers, the first frame index and the display
are arbitrary. -/
def System.init (firstHandle rtvHeap dsvHeap frameIndex : Nat) (display : Oryol.displayMgr) :
    System :=
  { renderer := { resAllocator := { nextHandle := firstHandle, freeList := [],
                                    refCount := fun _ => 0, releaseQueue := [] }
                  descAllocator := { nextSlot := fun _ => 0, freeSlots := fun _ => [],
                                     releaseQueue := [] }
                  frameIndex := frameIndex
                  rtvHeap := rtvHeap
                  dsvHeap := dsvHeap
                  calls := [] }
    displayMgr := display
    completedFrame := 0
    textures := [] }

/-- The number of references the textures of the pool hold to the native resource `h`. -/
def System.texHold (s : System) (h : Nat) : Nat :=
  (s.textures.map (fun t => t.heldResources.count h)).sum

/-- The first `k` allocations from a resource allocator: the identities handed out, in order, and
the allocator afterwards. -/
def d3d12ResAllocator.allocN : Nat → d3d12ResAllocator → List Nat × d3d12ResAllocator
  | 0, a => ([], a)
  | k + 1, a => (a.Alloc.1 :: (allocN k a.Alloc.2).1, (allocN k a.Alloc.2).2)

/-- Slot allocations from the given heaps, one after the other: the slots `(heap, slotIndex)`
handed out, in order, and the allocator afterwards. -/
def d3d12DescAllocator.allocSlots :
    List Nat → d3d12DescAllocator → List (Nat × Int) × d3d12DescAllocator
  | [], d => ([], d)
  | heap :: heaps, d =>
    ((heap, ((d.AllocSlot heap).1 : Int)) :: (allocSlots heaps (d.AllocSlot heap).2).1,
     (allocSlots heaps (d.AllocSlot heap).2).2)

/-- The descriptor slots `(heap, slotIndex)` a texture holds, given the identifiers of the RTV
and the DSV heap. -/
def texture.slotsOf (tex : texture) (rtvHeap dsvHeap : Nat) : List (Nat × Int) :=
  (if InvalidIndex ≠ tex.rtvDescriptorSlot then [(rtvHeap, tex.rtvDescriptorSlot)] else []) ++
  (if InvalidIndex ≠ tex.dsvDescriptorSlot then [(dsvHeap, tex.dsvDescriptorSlot)] else [])

/-- The number of owners of the descriptor slot `x = (heap, slotIndex)`: textures of the pool
that hold it and pending releases of it. -/
def System.slotHold (s : System) (x : Nat × Int) : Nat :=
  (s.textures.map (fun t =>
      (t.slotsOf s.renderer.rtvHeap s.renderer.dsvHeap).countP (fun y => decide (y = x)))).sum
    + (s.renderer.descAllocator.releaseQueue.map (fun e => (e.1, e.2.2))).countP
        (fun y => decide (y = x))

/-- The resource `h` can be handed out by the next allocations: it is in the free list or has
never been handed out. -/
def d3d12ResAllocator.allocatable (a : d3d12ResAllocator) (h : Nat) : Prop :=
  h ∈ a.freeList ∨ a.nextHandle ≤ h

/-- The slot `n` of `heap` can be handed out by the next allocations: it is free again or has
never been handed out. -/
def d3d12DescAllocator.allocatable (d : d3d12DescAllocator) (heap n : Nat) : Prop :=
  n ∈ d.freeSlots heap ∨ d.nextSlot heap ≤ n

/-- The free list of a resource allocator is well formed: no identity twice, and every identity
in it has been handed out before. -/
def d3d12ResAllocator.wf (a : d3d12ResAllocator) : Prop :=
  a.freeList.Nodup ∧ ∀ h ∈ a.freeList, h < a.nextHandle

/-- The free slots of every heap are well formed: no slot twice, and every free slot has been
handed out before. -/
def d3d12DescAllocator.wf (d : d3d12DescAllocator) : Prop :=
  ∀ heap, (d.freeSlots heap).Nodup ∧ ∀ n ∈ d.freeSlots heap, n < d.nextSlot heap

/-- The bookkeeping invariant of the frame pipeline: the reference count of every resource is
the number of references the textures of the pool hold; a resource that is held, and a resource
with a pending release, cannot be handed out; a descriptor slot has at most one owner (a texture
or a pending release) and cannot be handed out while it has one; the free lists are well formed. -/
def System.Inv (s : System) : Prop :=
  (∀ h, s.renderer.resAllocator.refCount h = s.texHold h) ∧
  (∀ h, 0 < s.texHold h → ¬ s.renderer.resAllocator.allocatable h) ∧
  (∀ e ∈ s.renderer.resAllocator.releaseQueue, ¬ s.renderer.resAllocator.allocatable e.2) ∧
  s.renderer.resAllocator.wf ∧
  (∀ x, s.slotHold x ≤ 1) ∧
  (∀ x, 0 < s.slotHold x →
    0 ≤ x.2 ∧ ¬ s.renderer.descAllocator.allocatable x.1 x.2.toNat) ∧
  s.renderer.descAllocator.wf

/-- What a creation call does to the allocators: the resources the new texture holds are the
results of `k` allocations, plus possibly one shared resource `d` that a texture of the pool
holds and that got an `AddRef`; the descriptor slots it holds are the results of slot allocations
from no heap, from the RTV heap, or from the RTV and then the DSV heap; frame index and heap
identifiers are as before. -/
def CreationSummary (f f' : d3d12TextureFactory) (t' : texture) : Prop :=
  f'.pointers.renderer.frameIndex = f.pointers.renderer.frameIndex ∧
  f'.pointers.renderer.rtvHeap = f.pointers.renderer.rtvHeap ∧
  f'.pointers.renderer.dsvHeap = f.pointers.renderer.dsvHeap ∧
  (∃ k, ∃ shared : Option Nat,
    t'.heldResources = (f.pointers.renderer.resAllocator.allocN k).1 ++ shared.toList ∧
    f'.pointers.renderer.resAllocator =
      (match shared with
        | none => (f.pointers.renderer.resAllocator.allocN k).2
        | some d => (f.pointers.renderer.resAllocator.allocN k).2.AddRef d) ∧
    ∀ d, shared = some d →
      ∃ id q, f.pointers.texturePool.Lookup id = some q ∧ d ∈ q.heldResources) ∧
  (∃ heaps : List Nat,
    (heaps = [] ∨ heaps = [f.pointers.renderer.rtvHeap] ∨
      heaps = [f.pointers.renderer.rtvHeap, f.pointers.renderer.dsvHeap]) ∧
    t'.slotsOf f.pointers.renderer.rtvHeap f.pointers.renderer.dsvHeap
      = (f.pointers.renderer.descAllocator.allocSlots heaps).1 ∧
    f'.pointers.renderer.descAllocator
      = (f.pointers.renderer.descAllocator.allocSlots heaps).2)

/-- Example system: started with first resource identity 1, RTV heap 1, DSV heap 2, at frame 5,
on the 800x600 display of the example factory. -/
def exSystemInit : System := System.init 1 1 2 5 exFactory.pointers.displayMgr

/-- Example system after the depth-owning render target A was set up as texture 0. -/
def exSystemA : System :=
  (exSystemInit.run exTables [Op.setup exSetupDepthA]).getD exSystemInit

/-- The texture 0 of the example system. -/
def exSystemTexA : texture := (exSystemA.textures[0]?).getD (texture.empty exSetupDepthA)

/-- Example system after texture 0 was destroyed at frame 5. -/
def exSystemDestroyed : System := (exSystemA.step exTables (Op.destroy 0)).getD exSystemA

/-- Example system two frames later, with one frame retired by the GPU. -/
def exSystemLater : System :=
  (exSystemDestroyed.run exTables [Op.beginFrame, Op.beginFrame, Op.retireFrame]).getD
    exSystemDestroyed

/-! ## The D3D11 display manager (`d3d11DisplayMgr.cc`, UWP code path)

The function works on C++ `float`s; besides the product it needs the sum, the quotient, the
comparison and `floorf`. -/

/-- Number of binary digits of `a` (0 for 0). -/
def F32.bitLength : Nat → Nat → Nat
  | 0, _ => 0
  | fuel + 1, a => if a = 0 then 0 else F32.bitLength fuel (a / 2) + 1

/-- The `float` sum: the exact sum, rounded. -/
def F32.add (x y : F32) : F32 :=
  let e := min x.exp y.exp
  F32.round (x.mant * 2 ^ (x.exp - e).toNat + y.mant * 2 ^ (y.exp - e).toNat) e

/-- The `float` quotient: the exact quotient, rounded.  The quotient of the significands is
computed to at least 26 binary digits, a further digit records whether there is a remainder, and
the result is rounded from there.  Division by zero (an infinity or a NaN) is not modelled. -/
def F32.div (x y : F32) : F32 :=
  let k := F32.bitLength y.mant.natAbs y.mant.natAbs + 26
  let n := x.mant.natAbs * 2 ^ k
  let q := n / y.mant.natAbs
  let r := n % y.mant.natAbs
  let m := 2 * q + (if r = 0 then 0 else 1)
  let neg := decide (x.mant < 0) != decide (y.mant < 0)
  F32.round (if neg then -(m : Int) else (m : Int)) (x.exp - y.exp - (k : Int) - 1)

/-- The comparison `x < y` of two `float`s. -/
def F32.lt (x y : F32) : Bool :=
  let e := min x.exp y.exp
  decide (x.mant * 2 ^ (x.exp - e).toNat < y.mant * 2 ^ (y.exp - e).toNat)

/-- The function `floorf`: the largest integral `float` not above `x`. -/
def F32.floor (x : F32) : F32 :=
  if 0 ≤ x.exp then x else F32.round (Int.fdiv x.mant (2 ^ (-x.exp).toNat)) 0

/-- The static function `dipsToPixels` ("Round to nearest integer"). -/
def dipsToPixels (dips dpi : F32) : F32 :=
  let dipsPerInch : F32 := ⟨96, 0⟩
  F32.floor (F32.add (F32.div (F32.mul dips dpi) dipsPerInch) ⟨1, -1⟩)

/-- The rectangle `CoreWindow::Bounds`, as far as it is read: its extent in device-independent
pixels. -/
structure Rect where
  Width : F32
  Height : F32
  deriving DecidableEq, Repr

/-- The platform window `CoreWindow`, as far as it is read. -/
structure CoreWindow where
  Bounds : Rect
  deriving DecidableEq, Repr

/-- The platform object `DisplayInformation`, as far as it is read (the two orientations are
read into locals that are not used). -/
structure DisplayInformation where
  NativeOrientation : Nat
  CurrentOrientation : Nat
  LogicalDpi : F32
  deriving DecidableEq, Repr

/-- The value `Windows::Foundation::Size`. -/
structure Size where
  Width : F32
  Height : F32
  deriving DecidableEq, Repr

/-- The setup object `GfxSetup`, as far as `updateFramebufferSize` reads it. -/
structure GfxSetup where
  HighDPI : Bool
  deriving DecidableEq, Repr

/-- The display manager `d3d11DisplayMgr`, as far as `updateFramebufferSize` reads and writes
it. -/
structure d3d11DisplayMgr where
  gfxSetup : GfxSetup
  displayAttrs : DisplayAttrs
  deriving DecidableEq, Repr

/-- The local `effectiveDpi` of `updateFramebufferSize`: the logical dpi, halved when high-dpi
rendering is off and the dpi is above 192. -/
def effectiveDpi (gfxSetup : GfxSetup) (dpi : F32) : F32 :=
  if !gfxSetup.HighDPI && F32.lt ⟨192, 0⟩ dpi then F32.mul dpi ⟨1, -1⟩ else dpi

/-- The function `d3d11DisplayMgr::updateFramebufferSize` of the UWP code path; the platform
objects `DisplayInformation::GetForCurrentView()` and `CoreWindow::GetForCurrentThread()` are
arguments.  Each `int(...)` is a conversion that is undefined beyond the range of `int`. -/
def d3d11DisplayMgr.updateFramebufferSize (this : d3d11DisplayMgr)
    (dispInfo : DisplayInformation) (win : CoreWindow) : Except Fault d3d11DisplayMgr := do
  let logicalSize : Size := { Width := win.Bounds.Width, Height := win.Bounds.Height }
  let dpi := dispInfo.LogicalDpi
  let effectiveDpi := effectiveDpi this.gfxSetup dpi
  let v ← F32.toInt logicalSize.Width
  let this := { this with displayAttrs := { this.displayAttrs with WindowWidth := v } }
  let v ← F32.toInt logicalSize.Height
  let this := { this with displayAttrs := { this.displayAttrs with WindowHeight := v } }
  let v ← F32.toInt (dipsToPixels logicalSize.Width effectiveDpi)
  let this := { this with displayAttrs := { this.displayAttrs with FramebufferWidth := v } }
  let v ← F32.toInt (dipsToPixels logicalSize.Height effectiveDpi)
  let this := { this with displayAttrs := { this.displayAttrs with FramebufferWidth := v } }
  pure this

/-- The factory as `createRenderTarget` leaves it after creating A on the example factory. -/
def exFactoryAfterA : d3d12TextureFactory :=
  match exRunA with
  | Except.ok (_, _, f) => f
  | Except.error _ => exFactory

/-- Example display manager: high-dpi rendering off, framebuffer 800x600 so far. -/
def exDisplayMgr : d3d11DisplayMgr :=
  { gfxSetup := { HighDPI := false }
    displayAttrs := { FramebufferWidth := 800, FramebufferHeight := 600 } }

/-- Example display information: logical dpi 240. -/
def exDisplayInformation : DisplayInformation :=
  { NativeOrientation := 0, CurrentOrientation := 0, LogicalDpi := ⟨240, 0⟩ }

/-- Example window: 1280 x 720 device-independent pixels. -/
def exCoreWindow : CoreWindow := { Bounds := { Width := ⟨1280, 0⟩, Height := ⟨720, 0⟩ } }

/-! ## Invalid request shapes (C1) -/

/-- C1, as stated, fails: a set-up factory given a setup flagged from-pixel-data (which matches
neither the render-target nor the empty path) does not return `InvalidState` from
`SetupResource(tex)` but stops at the assertion; likewise a render-target setup given to the
entry point with data. -/
theorem SetupResource_invalidState_counterexample :
    (exSetupPixelData.ShouldSetupAsRenderTarget = false ∧
      exSetupPixelData.ShouldSetupEmpty = false ∧
      SetupResource exTables exFactory (texture.empty exSetupPixelData)
        = Except.error Fault.assertion) ∧
    (exSetupRenderTarget.ShouldSetupFromPixelData = false ∧
      SetupResourceWithData exTables exFactory (texture.empty exSetupRenderTarget) (some 1) 16
        = Except.error Fault.assertion) :=
  ⟨⟨rfl, rfl, rfl⟩, rfl, rfl⟩

/-- C1, amended: when the assertions of the entry point hold (the factory is set up; for the entry
point without data the setup is flagged neither from-pixel-data nor from-file; for the entry point
with data it is not flagged render-target), a setup matching neither the render-target nor the
empty path makes `SetupResource(tex)` return `InvalidState`, a setup not matching the
from-pixel-data path makes `SetupResource(tex, data, size)` return `InvalidState`, and in both
cases the texture and the factory with its renderer and both allocators are returned exactly as
they were. -/
theorem SetupResource_invalidState (tb : Tables) (f : d3d12TextureFactory) (tex : texture)
    (data : Option Nat) (size : Int) (hvalid : f.isValid = true) :
    (tex.Setup.ShouldSetupFromPixelData = false → tex.Setup.ShouldSetupFromFile = false →
      tex.Setup.ShouldSetupAsRenderTarget = false → tex.Setup.ShouldSetupEmpty = false →
      SetupResource tb f tex = Except.ok (ResourceState.InvalidState, tex, f)) ∧
    (tex.Setup.ShouldSetupAsRenderTarget = false →
      tex.Setup.ShouldSetupFromPixelData = false →
      SetupResourceWithData tb f tex data size
        = Except.ok (ResourceState.InvalidState, tex, f)) := by
  constructor
  · intro h1 h2 h3 h4
    simp [SetupResource, o_assert_dbg, hvalid, h1, h2, h3, h4, bind, Except.bind, pure,
      Except.pure]
  · intro h1 h2
    simp [SetupResourceWithData, o_assert_dbg, hvalid, h1, h2, bind, Except.bind, pure,
      Except.pure]

/-- C1, amended, at a concrete input: the setup that selects no path, on the example factory. -/
theorem SetupResource_invalidState_witness :
    SetupResource exTables exFactory (texture.empty exSetupNone)
        = Except.ok (ResourceState.InvalidState, texture.empty exSetupNone, exFactory) ∧
    SetupResourceWithData exTables exFactory (texture.empty exSetupNone) (some 1) 16
        = Except.ok (ResourceState.InvalidState, texture.empty exSetupNone, exFactory) :=
  ⟨(SetupResource_invalidState exTables exFactory (texture.empty exSetupNone) (some 1) 16
      rfl).1 rfl rfl rfl rfl,
   (SetupResource_invalidState exTables exFactory (texture.empty exSetupNone) (some 1) 16
      rfl).2 rfl rfl⟩

/-! ## Assertions -/

theorem o_assert_dbg_bind {α : Type} (c : Bool) (k : Unit → Except Fault α) :
    (o_assert_dbg c >>= k) = if c then k () else Except.error Fault.assertion := by
  cases c <;> rfl

theorem ite_error_eq_ok {α ε : Type} {c : Prop} [Decidable c] {k : Except ε α} {e : ε} {x : α} :
    (if c then k else Except.error e) = Except.ok x ↔ c ∧ k = Except.ok x := by
  by_cases h : c <;> simp [h]

theorem createRenderTarget_of_pre (tb : Tables) (f : d3d12TextureFactory) (tex : texture)
    (hpre : createRenderTarget_pre tb tex) :
    createRenderTarget tb f tex =
      match resolveSize f tex.Setup with
      | Except.ok (w, h, p) =>
        if 0 < w ∧ 0 < h then createRenderTargetBody f tex w h p
        else Except.error Fault.assertion
      | Except.error e => Except.error e := by
  obtain ⟨h1, h2, h3, h4, h5, h6, h7, h8, h9, h10⟩ := hpre
  simp only [createRenderTarget, o_assert_dbg_bind, h1, h2, h3, h4, h5, h6, h7, h8, h9, h10,
    Option.isNone_none, decide_True, if_true]
  cases hr : resolveSize f tex.Setup with
  | error e => rfl
  | ok v =>
    obtain ⟨w, h, p⟩ := v
    simp only [bind, Except.bind, createRenderTargetBody, Bool.and_eq_true, decide_eq_true_eq,
      gt_iff_lt]
    by_cases hwh : 0 < w ∧ 0 < h
    · simp only [hwh, and_self, if_true]
      by_cases hd : tex.Setup.HasDepth = true
      · simp only [hd, if_true]
        cases createDepthBuffer tex.Setup w h p
          (createColorBuffer tex.Setup w h tex f.pointers.renderer).1
          (createColorBuffer tex.Setup w h tex f.pointers.renderer).2 <;> rfl
      · simp only [hd]
        rfl
    · simp only [hwh, if_false]

theorem createRenderTarget_pre_of_ok (tb : Tables) (f : d3d12TextureFactory) (tex : texture)
    (x : ResourceState × texture × d3d12TextureFactory)
    (h : createRenderTarget tb f tex = Except.ok x) : createRenderTarget_pre tb tex := by
  simp only [createRenderTarget, o_assert_dbg_bind, ite_error_eq_ok] at h
  obtain ⟨h1, h2, h3, h4, h5, h6, h7, h8, h9, h10, _⟩ := h
  simp only [decide_eq_true_eq, Option.isNone_iff_eq_none] at h1 h2 h3 h4 h5 h7 h8 h9
  exact ⟨h1, h2.symm, h3, h4.symm, h5.symm, h6, h7, h8, h9, h10⟩

/-! ## The creation functions under their assertions -/

theorem createFromPixelData_pre_of_ok (tb : Tables) (f : d3d12TextureFactory) (tex : texture)
    (data : Option Nat) (size : Int) (x : ResourceState × texture × d3d12TextureFactory)
    (h : createFromPixelData tb f tex data size = Except.ok x) :
    createFromPixelData_pre tex data size := by
  simp only [createFromPixelData, o_assert_dbg_bind, ite_error_eq_ok] at h
  obtain ⟨h1, h2, h3, h4, h5, h6, _⟩ := h
  simp only [decide_eq_true_eq, Option.isNone_iff_eq_none, gt_iff_lt] at h1 h2 h4 h5 h6
  exact ⟨h1, h2.symm, h3, h4, h5, h6⟩

theorem slotArray_get_set (a : slotArray) (i : Nat) (s : slot) (hi : i < 2) :
    (a.set i s).get i = s := by
  interval_cases i <;> rfl

theorem slotArray_set_set (a : slotArray) (i : Nat) (s t : slot) :
    (a.set i s).set i t = a.set i t := by
  unfold slotArray.set
  by_cases h0 : i = 0
  · simp [h0]
  · by_cases h1 : i = 1
    · simp [h1]
    · simp [h0, h1]

theorem createEmptyTextureSlot_eq (setup : TextureSetup) (F cf : Nat) (st : texture × renderer)
    (i : Nat) (hi : i < 2) :
    createEmptyTextureSlot setup F cf st i = Except.ok (emptySlotStep setup F cf st i) := by
  obtain ⟨tex, r⟩ := st
  simp only [createEmptyTextureSlot, o_assert_dbg_bind, slotArray_get_set _ _ _ hi,
    slotArray_set_set, Option.isSome_some, if_true, emptySlotStep]
  rfl

theorem createEmptyTexture_of_pre (tb : Tables) (f : d3d12TextureFactory) (tex : texture)
    (hpre : createEmptyTexture_pre tb tex) :
    createEmptyTexture tb f tex = Except.ok (ResourceState.Valid,
      setupTextureAttrs ((List.range (if Usage.Stream = tex.Setup.TextureUsage then 2 else 1)).foldl
        (emptySlotStep tex.Setup f.pointers.renderer.frameIndex
          (tb.ComputeTextureCopyFootprint tex.Setup))
        ({ tex with numSlots := if Usage.Stream = tex.Setup.TextureUsage then 2 else 1 },
          f.pointers.renderer)).1,
      f.withRenderer ((List.range (if Usage.Stream = tex.Setup.TextureUsage then 2 else 1)).foldl
        (emptySlotStep tex.Setup f.pointers.renderer.frameIndex
          (tb.ComputeTextureCopyFootprint tex.Setup))
        ({ tex with numSlots := if Usage.Stream = tex.Setup.TextureUsage then 2 else 1 },
          f.pointers.renderer)).2) := by
  obtain ⟨h1, h2, h3, h4, h5, h6⟩ := hpre
  simp only [createEmptyTexture, o_assert_dbg_bind, h1, h2, h3, h4, h5, h6,
    Option.isNone_none, decide_True, if_true, gt_iff_lt, ne_eq, not_false_eq_true,
    Bool.not_false]
  by_cases hs : Usage.Stream = tex.Setup.TextureUsage
  · simp only [hs, if_true]
    have : List.range 2 = [0, 1] := rfl
    simp only [this, List.foldlM_cons, List.foldlM_nil, List.foldl_cons, List.foldl_nil,
      createEmptyTextureSlot_eq _ _ _ _ 0 (by decide), createEmptyTextureSlot_eq _ _ _ _ 1 (by decide)]
    rfl
  · simp only [hs, if_false]
    have : List.range 1 = [0] := rfl
    simp only [this, List.foldlM_cons, List.foldlM_nil, List.foldl_cons, List.foldl_nil,
      createEmptyTextureSlot_eq _ _ _ _ 0 (by decide)]
    rfl

theorem createEmptyTexture_pre_of_ok (tb : Tables) (f : d3d12TextureFactory) (tex : texture)
    (x : ResourceState × texture × d3d12TextureFactory)
    (h : createEmptyTexture tb f tex = Except.ok x) : createEmptyTexture_pre tb tex := by
  simp only [createEmptyTexture, o_assert_dbg_bind, ite_error_eq_ok] at h
  obtain ⟨h1, h2, h3, h4, h5, h6, _⟩ := h
  simp only [decide_eq_true_eq, Option.isNone_iff_eq_none, gt_iff_lt, Bool.not_eq_true',
    ne_eq] at h1 h2 h3 h4 h5 h6
  exact ⟨h1, h2, h3, h4, h5, h6⟩

theorem createDepthBuffer_shared (setup : TextureSetup) (w h : Int) (q : texture) (d : Nat)
    (tex : texture) (r : renderer) (hs : setup.HasSharedDepth = true)
    (hq : q.d3d12DepthBufferRes = some d) :
    createDepthBuffer setup w h (some q) tex r = Except.ok
      ({ tex with d3d12DepthBufferRes := some d,
                  d3d12DepthBufferState := D3D12_RESOURCE_STATE_DEPTH_WRITE,
                  dsvDescriptorSlot := (((r.AddRef d).AllocSlot r.dsvHeap).1 : Int) },
       ((r.AddRef d).AllocSlot r.dsvHeap).2.CreateDepthStencilView (some d) r.dsvHeap
         (((r.AddRef d).AllocSlot r.dsvHeap).1 : Int)) := by
  simp only [createDepthBuffer, hs, hq, if_true, bind, Except.bind, pure, Except.pure]
  rfl

theorem createDepthBuffer_own (setup : TextureSetup) (w h : Int) (p : Option texture)
    (tex : texture) (r : renderer) (hs : setup.HasSharedDepth = false) :
    createDepthBuffer setup w h p tex r = Except.ok
      ({ tex with
          d3d12DepthBufferRes := some (r.AllocRenderTarget w h setup.DepthFormat setup.ClearHint 1).1,
          d3d12DepthBufferState := D3D12_RESOURCE_STATE_DEPTH_WRITE,
          dsvDescriptorSlot :=
            (((r.AllocRenderTarget w h setup.DepthFormat setup.ClearHint 1).2.AllocSlot r.dsvHeap).1
              : Int) },
       ((r.AllocRenderTarget w h setup.DepthFormat setup.ClearHint 1).2.AllocSlot
          r.dsvHeap).2.CreateDepthStencilView
         (some (r.AllocRenderTarget w h setup.DepthFormat setup.ClearHint 1).1) r.dsvHeap
         (((r.AllocRenderTarget w h setup.DepthFormat setup.ClearHint 1).2.AllocSlot r.dsvHeap).1
           : Int)) := by
  simp only [createDepthBuffer, hs, bind, Except.bind, pure, Except.pure, Bool.false_eq_true,
    if_false]
  rfl

theorem createDepthBuffer_null (setup : TextureSetup) (w h : Int)
    (tex : texture) (r : renderer) (hs : setup.HasSharedDepth = true) :
    createDepthBuffer setup w h none tex r = Except.error Fault.nullPointer := by
  simp only [createDepthBuffer, hs, if_true, bind, Except.bind]

theorem createDepthBuffer_frame (setup : TextureSetup) (w h : Int) (p : Option texture)
    (tex : texture) (r : renderer) (t : texture) (r' : renderer)
    (hok : createDepthBuffer setup w h p tex r = Except.ok (t, r')) :
    t.Setup = tex.Setup ∧ t.numSlots = tex.numSlots ∧ t.slots = tex.slots ∧
      t.rtvDescriptorSlot = tex.rtvDescriptorSlot ∧ t.textureAttrs = tex.textureAttrs ∧
      t.d3d12DepthBufferRes.isSome = true ∧ r'.frameIndex = r.frameIndex := by
  by_cases hs : setup.HasSharedDepth = true
  · cases p with
    | none => rw [createDepthBuffer_null _ _ _ _ _ hs] at hok; cases hok
    | some q =>
      cases hq : q.d3d12DepthBufferRes with
      | none =>
        simp only [createDepthBuffer, hs, hq, if_true, bind, Except.bind] at hok
        cases hok
      | some d =>
        rw [createDepthBuffer_shared _ _ _ _ _ _ _ hs hq] at hok
        cases hok
        exact ⟨rfl, rfl, rfl, rfl, rfl, rfl, rfl⟩
  · simp only [Bool.not_eq_true] at hs
    rw [createDepthBuffer_own _ _ _ _ _ _ hs] at hok
    cases hok
    exact ⟨rfl, rfl, rfl, rfl, rfl, rfl, rfl⟩

theorem createRenderTarget_ok (tb : Tables) (f : d3d12TextureFactory) (tex : texture)
    (x : ResourceState × texture × d3d12TextureFactory)
    (hok : createRenderTarget tb f tex = Except.ok x) :
    createRenderTarget_pre tb tex ∧
    ∃ w h p t r, resolveSize f tex.Setup = Except.ok (w, h, p) ∧ 0 < w ∧ 0 < h ∧
      (if tex.Setup.HasDepth then
          createDepthBuffer tex.Setup w h p
            (createColorBuffer tex.Setup w h tex f.pointers.renderer).1
            (createColorBuffer tex.Setup w h tex f.pointers.renderer).2
        else Except.ok (createColorBuffer tex.Setup w h tex f.pointers.renderer))
        = Except.ok (t, r) ∧
      x = (ResourceState.Valid,
            { t with textureAttrs := renderTargetAttrs tex.Setup w h }, f.withRenderer r) := by
  have hpre := createRenderTarget_pre_of_ok tb f tex x hok
  refine ⟨hpre, ?_⟩
  rw [createRenderTarget_of_pre tb f tex hpre] at hok
  cases hr : resolveSize f tex.Setup with
  | error e => rw [hr] at hok; cases hok
  | ok v =>
    obtain ⟨w, h, p⟩ := v
    rw [hr] at hok
    simp only [ite_error_eq_ok, createRenderTargetBody] at hok
    obtain ⟨⟨hw, hh⟩, hok⟩ := hok
    split at hok
    · rename_i t r heq
      cases hok
      exact ⟨w, h, p, t, r, rfl, hw, hh, heq, rfl⟩
    · cases hok

theorem createRenderTarget_frame (tb : Tables) (f : d3d12TextureFactory) (tex : texture)
    (c : ResourceState) (t' : texture) (f' : d3d12TextureFactory)
    (hok : createRenderTarget tb f tex = Except.ok (c, t', f')) :
    c = ResourceState.Valid ∧ t'.Setup = tex.Setup ∧ t'.numSlots = tex.numSlots ∧
      f'.isValid = f.isValid := by
  obtain ⟨_, w, h, p, t, r, _, _, _, hstep, hx⟩ := createRenderTarget_ok tb f tex _ hok
  cases hx
  by_cases hd : tex.Setup.HasDepth = true
  · simp only [hd, if_true] at hstep
    obtain ⟨h1, h2, _⟩ := createDepthBuffer_frame _ _ _ _ _ _ _ _ hstep
    exact ⟨rfl, h1, h2, rfl⟩
  · simp only [hd] at hstep
    cases hstep
    exact ⟨rfl, rfl, rfl, rfl⟩

theorem createFromPixelData_frame (tb : Tables) (f : d3d12TextureFactory) (tex : texture)
    (data : Option Nat) (size : Int) (c : ResourceState) (t' : texture)
    (f' : d3d12TextureFactory)
    (hok : createFromPixelData tb f tex data size = Except.ok (c, t', f')) :
    t'.Setup = tex.Setup ∧ t'.numSlots = tex.numSlots ∧ f'.isValid = f.isValid := by
  obtain ⟨h1, h2, h3, h4, h5, h6⟩ := createFromPixelData_pre_of_ok tb f tex data size _ hok
  simp only [createFromPixelData, o_assert_dbg_bind, h1, h2, h3, h4, h5, h6,
    Option.isNone_none, decide_True, if_true, gt_iff_lt] at hok
  split at hok
  · cases hok; exact ⟨rfl, rfl, rfl⟩
  · split at hok
    · cases hok; exact ⟨rfl, rfl, rfl⟩
    · cases hok; exact ⟨rfl, h2.symm, rfl⟩

theorem createEmptyTexture_frame (tb : Tables) (f : d3d12TextureFactory) (tex : texture)
    (c : ResourceState) (t' : texture) (f' : d3d12TextureFactory)
    (hok : createEmptyTexture tb f tex = Except.ok (c, t', f')) :
    c = ResourceState.Valid ∧ t'.Setup = tex.Setup ∧ f'.isValid = f.isValid ∧
    t'.numSlots = (if tex.Setup.TextureUsage = Usage.Stream then 2 else 1) ∧
    (∀ i, i < t'.numSlots →
      (t'.slots.get i).d3d12TextureRes.isSome = true ∧
      (t'.slots.get i).d3d12UploadBuffer.isSome = true) ∧
    (∀ i, t'.numSlots ≤ i → i < 2 → t'.slots.get i = tex.slots.get i ∧
      (t'.slots.get i).d3d12TextureRes = none) ∧
    t'.d3d12DepthBufferRes = tex.d3d12DepthBufferRes ∧
    t'.rtvDescriptorSlot = tex.rtvDescriptorSlot ∧
    t'.dsvDescriptorSlot = tex.dsvDescriptorSlot := by
  have hpre := createEmptyTexture_pre_of_ok tb f tex _ hok
  rw [createEmptyTexture_of_pre tb f tex hpre] at hok
  obtain ⟨_, h2, _⟩ := hpre
  by_cases hs : Usage.Stream = tex.Setup.TextureUsage
  · have hs' : tex.Setup.TextureUsage = Usage.Stream := hs.symm
    have hr : List.range 2 = [0, 1] := rfl
    simp only [hs, if_true, hr, List.foldl_cons, List.foldl_nil] at hok
    cases hok
    refine ⟨rfl, rfl, rfl, by simp [hs']; rfl, ?_, ?_, rfl, rfl, rfl⟩
    · intro i hi
      have hi2 : i < 2 := hi
      interval_cases i <;> exact ⟨rfl, rfl⟩
    · intro i hi hi2
      have : (2 : Nat) ≤ i := hi
      omega
  · have hs' : ¬ tex.Setup.TextureUsage = Usage.Stream := fun hc => hs hc.symm
    have hr : List.range 1 = [0] := rfl
    simp only [hs, if_false, hr, List.foldl_cons, List.foldl_nil] at hok
    cases hok
    refine ⟨rfl, rfl, rfl, by simp [hs']; rfl, ?_, ?_, rfl, rfl, rfl⟩
    · intro i hi
      have hi1 : i < 1 := hi
      interval_cases i; exact ⟨rfl, rfl⟩
    · intro i hi hi2
      have hi1 : (1 : Nat) ≤ i := hi
      have : i = 1 := by omega
      subst this
      exact ⟨rfl, h2⟩

/-! ## `createRenderTarget` case by case -/

theorem F32.toInt_of_inIntRange (x : F32) (h : inIntRange x.trunc) :
    F32.toInt x = Except.ok x.trunc := by
  unfold F32.toInt
  rw [if_pos h]

theorem F32.toInt_ok (x : F32) (v : Int) (h : F32.toInt x = Except.ok v) :
    v = x.trunc ∧ inIntRange v := by
  unfold F32.toInt at h
  by_cases hr : inIntRange x.trunc
  · rw [if_pos hr] at h
    cases h
    exact ⟨rfl, hr⟩
  · rw [if_neg hr] at h
    cases h

theorem resolveSize_relSize (f : d3d12TextureFactory) (setup : TextureSetup)
    (hrel : setup.IsRelSizeRenderTarget = true) :
    resolveSize f setup =
      match F32.toInt (F32.mul (F32.ofInt f.pointers.displayMgr.GetDisplayAttrs.FramebufferWidth)
          setup.RelWidth),
        F32.toInt (F32.mul (F32.ofInt f.pointers.displayMgr.GetDisplayAttrs.FramebufferHeight)
          setup.RelHeight) with
      | Except.ok w, Except.ok h => Except.ok (w, h, none)
      | Except.ok _, Except.error e => Except.error e
      | Except.error e, _ => Except.error e := by
  unfold resolveSize
  simp only [hrel, if_true]
  cases F32.toInt (F32.mul (F32.ofInt f.pointers.displayMgr.GetDisplayAttrs.FramebufferWidth)
      setup.RelWidth) with
  | error e => rfl
  | ok w =>
    cases F32.toInt (F32.mul (F32.ofInt f.pointers.displayMgr.GetDisplayAttrs.FramebufferHeight)
        setup.RelHeight) with
    | error e => rfl
    | ok h => rfl

theorem resolveSize_eq (f : d3d12TextureFactory) (setup : TextureSetup) (w h : Int)
    (hres : resolvedSize f setup = (w, h)) (hw : 0 < w)
    (hrange : setup.IsRelSizeRenderTarget = true → inIntRange w ∧ inIntRange h) :
    resolveSize f setup = Except.ok (w, h,
      if setup.IsRelSizeRenderTarget then none
      else if setup.HasSharedDepth then f.pointers.texturePool.Lookup setup.DepthRenderTarget
      else none) := by
  cases hrel : setup.IsRelSizeRenderTarget
  · unfold resolveSize
    unfold resolvedSize at hres
    cases hsh : setup.HasSharedDepth
    · simp only [hrel, hsh, Bool.false_eq_true, if_false] at hres ⊢
      rw [Prod.mk.injEq] at hres
      rw [hres.1, hres.2]
    · simp only [hrel, hsh, Bool.false_eq_true, if_false, if_true] at hres ⊢
      cases hl : f.pointers.texturePool.Lookup setup.DepthRenderTarget with
      | none =>
        rw [hl] at hres
        simp only [Prod.mk.injEq] at hres
        omega
      | some p =>
        rw [hl] at hres
        simp only [Prod.mk.injEq] at hres
        simp only [hres.1, hres.2]
  · rw [resolveSize_relSize f setup hrel]
    unfold resolvedSize at hres
    simp only [hrel, if_true, Prod.mk.injEq] at hres
    obtain ⟨hrw, hrh⟩ := hrange hrel
    rw [← hres.1] at hrw
    rw [← hres.2] at hrh
    rw [F32.toInt_of_inIntRange _ hrw, F32.toInt_of_inIntRange _ hrh, hres.1, hres.2]
    rfl

theorem createRenderTarget_sharedDepth (tb : Tables) (f : d3d12TextureFactory) (tex : texture)
    (w h : Int) (q : texture) (d : Nat) (hpre : createRenderTarget_pre tb tex)
    (hres : resolvedSize f tex.Setup = (w, h)) (hw : 0 < w) (hh : 0 < h)
    (hd : tex.Setup.HasDepth = true) (hs : tex.Setup.HasSharedDepth = true)
    (hrel : tex.Setup.IsRelSizeRenderTarget = false)
    (hq : f.pointers.texturePool.Lookup tex.Setup.DepthRenderTarget = some q)
    (hqd : q.d3d12DepthBufferRes = some d) :
    ∃ t r, createDepthBuffer tex.Setup w h (some q)
        (createColorBuffer tex.Setup w h tex f.pointers.renderer).1
        (createColorBuffer tex.Setup w h tex f.pointers.renderer).2 = Except.ok (t, r) ∧
      createRenderTarget tb f tex = Except.ok (ResourceState.Valid,
        { t with textureAttrs := renderTargetAttrs tex.Setup w h }, f.withRenderer r) := by
  refine ⟨_, _, createDepthBuffer_shared _ _ _ _ _ _ _ hs hqd, ?_⟩
  rw [createRenderTarget_of_pre tb f tex hpre, resolveSize_eq f tex.Setup w h hres hw
    (fun hc => by rw [hrel] at hc; cases hc)]
  simp only [hw, hh, and_self, if_true, createRenderTargetBody, hd, hs, hrel, hq,
    Bool.false_eq_true, if_false, createDepthBuffer_shared _ _ _ _ _ _ _ hs hqd]

/-! ## Calls and their effect on the renderer -/

theorem releaseAll_append (r : renderer) (F : Nat) (xs ys : List Nat) :
    r.releaseAll F (xs ++ ys) = (r.releaseAll F xs).releaseAll F ys := by
  simp [renderer.releaseAll, List.foldl_append]

theorem releaseAll_resAllocator_releaseQueue (r : renderer) (F : Nat) (hs : List Nat) :
    (r.releaseAll F hs).resAllocator.releaseQueue
      = r.resAllocator.releaseQueue ++ hs.map (fun h => (F, h)) := by
  induction hs generalizing r with
  | nil => simp [renderer.releaseAll]
  | cons h t ih =>
    have := ih (r.ReleaseDeferred F h)
    simp only [renderer.releaseAll, List.foldl_cons] at this ⊢
    rw [this]
    simp [renderer.ReleaseDeferred, d3d12ResAllocator.ReleaseDeferred]

theorem releaseAll_calls (r : renderer) (F : Nat) (hs : List Nat) :
    (r.releaseAll F hs).calls = r.calls ++ hs.map (Call.ReleaseDeferred F) := by
  induction hs generalizing r with
  | nil => simp [renderer.releaseAll]
  | cons h t ih =>
    have := ih (r.ReleaseDeferred F h)
    simp only [renderer.releaseAll, List.foldl_cons] at this ⊢
    rw [this]
    simp [renderer.ReleaseDeferred]

theorem releaseAll_frame (r : renderer) (F : Nat) (hs : List Nat) :
    (r.releaseAll F hs).resAllocator.freeList = r.resAllocator.freeList ∧
    (r.releaseAll F hs).resAllocator.nextHandle = r.resAllocator.nextHandle ∧
    (r.releaseAll F hs).descAllocator = r.descAllocator ∧
    (r.releaseAll F hs).frameIndex = r.frameIndex ∧
    (r.releaseAll F hs).rtvHeap = r.rtvHeap ∧
    (r.releaseAll F hs).dsvHeap = r.dsvHeap := by
  induction hs generalizing r with
  | nil => simp [renderer.releaseAll]
  | cons h t ih =>
    have := ih (r.ReleaseDeferred F h)
    simp only [renderer.releaseAll, List.foldl_cons] at this ⊢
    obtain ⟨h1, h2, h3, h4, h5, h6⟩ := this
    rw [h1, h2, h3, h4, h5, h6]
    simp [renderer.ReleaseDeferred, d3d12ResAllocator.ReleaseDeferred]

@[simp] theorem releaseAll_freeList (r : renderer) (F : Nat) (hs : List Nat) :
    (r.releaseAll F hs).resAllocator.freeList = r.resAllocator.freeList :=
  (releaseAll_frame r F hs).1

@[simp] theorem releaseAll_nextHandle (r : renderer) (F : Nat) (hs : List Nat) :
    (r.releaseAll F hs).resAllocator.nextHandle = r.resAllocator.nextHandle :=
  (releaseAll_frame r F hs).2.1

@[simp] theorem releaseAll_descAllocator (r : renderer) (F : Nat) (hs : List Nat) :
    (r.releaseAll F hs).descAllocator = r.descAllocator :=
  (releaseAll_frame r F hs).2.2.1

@[simp] theorem releaseAll_frameIndex (r : renderer) (F : Nat) (hs : List Nat) :
    (r.releaseAll F hs).frameIndex = r.frameIndex :=
  (releaseAll_frame r F hs).2.2.2.1

@[simp] theorem releaseAll_rtvHeap (r : renderer) (F : Nat) (hs : List Nat) :
    (r.releaseAll F hs).rtvHeap = r.rtvHeap :=
  (releaseAll_frame r F hs).2.2.2.2.1

@[simp] theorem releaseAll_dsvHeap (r : renderer) (F : Nat) (hs : List Nat) :
    (r.releaseAll F hs).dsvHeap = r.dsvHeap :=
  (releaseAll_frame r F hs).2.2.2.2.2

theorem releaseSlots_descAllocator_releaseQueue (r : renderer) (ss : List (Nat × Nat × Int)) :
    (r.releaseSlots ss).descAllocator.releaseQueue = r.descAllocator.releaseQueue ++ ss := by
  induction ss generalizing r with
  | nil => simp [renderer.releaseSlots]
  | cons h t ih =>
    have := ih (r.ReleaseSlotDeferred h.1 h.2.1 h.2.2)
    simp only [renderer.releaseSlots, List.foldl_cons] at this ⊢
    rw [this]
    simp [renderer.ReleaseSlotDeferred, d3d12DescAllocator.ReleaseSlotDeferred]

theorem releaseSlots_calls (r : renderer) (ss : List (Nat × Nat × Int)) :
    (r.releaseSlots ss).calls
      = r.calls ++ ss.map (fun s => Call.ReleaseSlotDeferred s.1 s.2.1 s.2.2) := by
  induction ss generalizing r with
  | nil => simp [renderer.releaseSlots]
  | cons h t ih =>
    have := ih (r.ReleaseSlotDeferred h.1 h.2.1 h.2.2)
    simp only [renderer.releaseSlots, List.foldl_cons] at this ⊢
    rw [this]
    simp [renderer.ReleaseSlotDeferred]

theorem releaseSlots_frame (r : renderer) (ss : List (Nat × Nat × Int)) :
    (r.releaseSlots ss).resAllocator = r.resAllocator ∧
    (r.releaseSlots ss).descAllocator.freeSlots = r.descAllocator.freeSlots ∧
    (r.releaseSlots ss).descAllocator.nextSlot = r.descAllocator.nextSlot ∧
    (r.releaseSlots ss).frameIndex = r.frameIndex := by
  induction ss generalizing r with
  | nil => simp [renderer.releaseSlots]
  | cons h t ih =>
    have := ih (r.ReleaseSlotDeferred h.1 h.2.1 h.2.2)
    simp only [renderer.releaseSlots, List.foldl_cons] at this ⊢
    obtain ⟨h1, h2, h3, h4⟩ := this
    rw [h1, h2, h3, h4]
    simp [renderer.ReleaseSlotDeferred, d3d12DescAllocator.ReleaseSlotDeferred]

theorem releaseSlot_eq (F : Nat) (r : renderer) (s : slot) :
    releaseSlot F r s
      = r.releaseAll F [s.d3d12TextureRes, s.d3d12UploadBuffer].reduceOption := by
  obtain ⟨t, u, st⟩ := s
  cases t <;> cases u <;> rfl

/-- On a set-up factory `DestroyResource` returns the reset entity, and its renderer is the old
one after the deferred release of the held resources and then of the held descriptor slots. -/
theorem DestroyResource_eq (f : d3d12TextureFactory) (tex : texture)
    (hvalid : f.isValid = true) :
    DestroyResource f tex = Except.ok (tex.Clear,
      f.withRenderer ((f.pointers.renderer.releaseAll f.pointers.renderer.frameIndex
        tex.heldResources).releaseSlots (tex.heldSlots f.pointers.renderer))) := by
  have hd : ∀ (r : renderer) (d : Option Nat),
      (match d with
        | some h => r.ReleaseDeferred f.pointers.renderer.frameIndex h
        | none => r) = r.releaseAll f.pointers.renderer.frameIndex [d].reduceOption := by
    intro r d; cases d <;> rfl
  have hres : tex.heldResources
      = [tex.slots.s0.d3d12TextureRes, tex.slots.s0.d3d12UploadBuffer].reduceOption
        ++ ([tex.slots.s1.d3d12TextureRes, tex.slots.s1.d3d12UploadBuffer].reduceOption
        ++ [tex.d3d12DepthBufferRes].reduceOption) := by
    simp only [texture.heldResources, ← List.reduceOption_append]
    rfl
  have hstep : ∀ (r : renderer) (heap : Nat) (s : Int),
      (if InvalidIndex ≠ s then r.ReleaseSlotDeferred heap f.pointers.renderer.frameIndex s
        else r)
        = r.releaseSlots (if InvalidIndex ≠ s then [(heap, f.pointers.renderer.frameIndex, s)]
            else []) := by
    intro r heap s
    by_cases h : InvalidIndex = s <;> simp [h, renderer.releaseSlots]
  have hslots : ∀ (r : renderer) (xs ys : List (Nat × Nat × Int)),
      (r.releaseSlots xs).releaseSlots ys = r.releaseSlots (xs ++ ys) := by
    intro r xs ys
    simp [renderer.releaseSlots, List.foldl_append]
  have hheap : ∀ (r : renderer) (ss : List (Nat × Nat × Int)),
      (r.releaseSlots ss).dsvHeap = r.dsvHeap := by
    intro r ss
    induction ss generalizing r with
    | nil => rfl
    | cons h t ih =>
      have := ih (r.ReleaseSlotDeferred h.1 h.2.1 h.2.2)
      simp only [renderer.releaseSlots, List.foldl_cons] at this ⊢
      rw [this]; rfl
  simp only [DestroyResource, o_assert_dbg, hvalid, bind, Except.bind, pure, Except.pure,
    if_true, slotArray.toList, List.foldl_cons, List.foldl_nil, releaseSlot_eq, hd,
    ← releaseAll_append, hstep, hslots, hheap, releaseAll_rtvHeap, releaseAll_dsvHeap,
    texture.heldSlots]
  rw [hres, List.append_assoc]

/-- What `DestroyResource` does on a set-up factory, allocator field by allocator field. -/
theorem DestroyResource_effect (f : d3d12TextureFactory) (tex : texture)
    (hvalid : f.isValid = true) :
    ∃ f', DestroyResource f tex = Except.ok (tex.Clear, f') ∧
      f'.pointers.renderer.resAllocator.releaseQueue
        = f.pointers.renderer.resAllocator.releaseQueue
          ++ tex.heldResources.map (fun h => (f.pointers.renderer.frameIndex, h)) ∧
      f'.pointers.renderer.resAllocator.freeList = f.pointers.renderer.resAllocator.freeList ∧
      f'.pointers.renderer.resAllocator.nextHandle
        = f.pointers.renderer.resAllocator.nextHandle ∧
      f'.pointers.renderer.descAllocator.releaseQueue
        = f.pointers.renderer.descAllocator.releaseQueue
          ++ tex.heldSlots f.pointers.renderer ∧
      f'.pointers.renderer.descAllocator.freeSlots
        = f.pointers.renderer.descAllocator.freeSlots ∧
      f'.pointers.renderer.descAllocator.nextSlot
        = f.pointers.renderer.descAllocator.nextSlot ∧
      f'.pointers.renderer.calls
        = f.pointers.renderer.calls
          ++ tex.heldResources.map (Call.ReleaseDeferred f.pointers.renderer.frameIndex)
          ++ (tex.heldSlots f.pointers.renderer).map
               (fun s => Call.ReleaseSlotDeferred s.1 s.2.1 s.2.2) := by
  refine ⟨_, DestroyResource_eq f tex hvalid, ?_⟩
  obtain ⟨h1, h2, h3, _⟩ := releaseAll_frame f.pointers.renderer f.pointers.renderer.frameIndex
    tex.heldResources
  obtain ⟨g1, g2, g3, _⟩ := releaseSlots_frame
    (f.pointers.renderer.releaseAll f.pointers.renderer.frameIndex tex.heldResources)
    (tex.heldSlots f.pointers.renderer)
  simp only [d3d12TextureFactory.withRenderer]
  refine ⟨?_, ?_, ?_, ?_, ?_, ?_, ?_⟩
  · rw [g1, releaseAll_resAllocator_releaseQueue]
  · rw [g1, h1]
  · rw [g1, h2]
  · rw [releaseSlots_descAllocator_releaseQueue, h3]
  · rw [g2, h3]
  · rw [g3, h3]
  · rw [releaseSlots_calls, releaseAll_calls]

/-! ## Destruction (C3) -/

/-- C3, as stated, fails: the render target B that shares A's depth buffer does not own it, yet
`DestroyResource(B)` queues a deferred release of that depth buffer (handle 2) next to B's colour
resource (handle 3), which is more than the releases the claim lists. -/
theorem DestroyResource_releases_counterexample :
    exRunB.code = some ResourceState.Valid ∧
    exTexB.ownsDepthBuffer = false ∧
    exTexB.releasesIfOwned = [3] ∧
    (destroyedRenderer (DestroyResource exFactoryB exTexB)).map
        (fun r => r.resAllocator.releaseQueue) = some [(7, 3), (7, 2)] := by
  refine ⟨rfl, rfl, rfl, rfl⟩

/-- C3, amended: on a set-up factory `DestroyResource` returns the reset entity and has queued a
deferred release, tagged with the renderer's current frame index, for exactly: the texture
resource and the upload buffer of every slot that holds one, the depth buffer if the texture
holds one (owned or shared), the RTV slot and the DSV slot if allocated; nothing is freed at once
(free lists and fresh-identity counters of both allocators are as before), and the calls it made
are these releases and no others. -/
theorem DestroyResource_releases (f : d3d12TextureFactory) (tex : texture)
    (hvalid : f.isValid = true) :
    ∃ f', DestroyResource f tex = Except.ok (tex.Clear, f') ∧
      f'.pointers.renderer.resAllocator.releaseQueue
        = f.pointers.renderer.resAllocator.releaseQueue
          ++ tex.heldResources.map (fun h => (f.pointers.renderer.frameIndex, h)) ∧
      f'.pointers.renderer.resAllocator.freeList = f.pointers.renderer.resAllocator.freeList ∧
      f'.pointers.renderer.resAllocator.nextHandle
        = f.pointers.renderer.resAllocator.nextHandle ∧
      f'.pointers.renderer.descAllocator.releaseQueue
        = f.pointers.renderer.descAllocator.releaseQueue
          ++ tex.heldSlots f.pointers.renderer ∧
      f'.pointers.renderer.descAllocator.freeSlots
        = f.pointers.renderer.descAllocator.freeSlots ∧
      f'.pointers.renderer.descAllocator.nextSlot
        = f.pointers.renderer.descAllocator.nextSlot ∧
      f'.pointers.renderer.calls
        = f.pointers.renderer.calls
          ++ tex.heldResources.map (Call.ReleaseDeferred f.pointers.renderer.frameIndex)
          ++ (tex.heldSlots f.pointers.renderer).map
               (fun s => Call.ReleaseSlotDeferred s.1 s.2.1 s.2.2) :=
  DestroyResource_effect f tex hvalid

/-- C3, amended, at a concrete input: destroying the shared-depth render target B. -/
theorem DestroyResource_releases_witness :
    ∃ f', DestroyResource exFactoryB exTexB = Except.ok (exTexB.Clear, f') ∧
      f'.pointers.renderer.resAllocator.releaseQueue = [(7, 3), (7, 2)] ∧
      f'.pointers.renderer.descAllocator.releaseQueue = [(1, 7, 1), (2, 7, 1)] := by
  obtain ⟨f', h, hq, _, _, hd, _, _, _⟩ := DestroyResource_releases exFactoryB exTexB rfl
  exact ⟨f', h, hq, hd⟩

/-! ## Rejected configurations of `createFromPixelData` (C8) -/

/-- C8: under the preconditions of `createFromPixelData` (its assertions), a setup whose type is
`Texture3D`, and a setup whose colour format has no native texture format, make it return
`Failed` with the texture entity and the factory (renderer, allocators, record of calls) exactly
as they were, so no allocator was called and nothing was written; every other setup makes it
return `Valid`, with a texture resource in slot 0. -/
theorem createFromPixelData_result (tb : Tables) (f : d3d12TextureFactory) (tex : texture)
    (data : Option Nat) (size : Int) (hpre : createFromPixelData_pre tex data size) :
    ((tex.Setup.Type_ = TextureType.Texture3D ∨
        tb.asTextureFormat tex.Setup.ColorFormat = DXGI_FORMAT_UNKNOWN) →
      createFromPixelData tb f tex data size = Except.ok (ResourceState.Failed, tex, f)) ∧
    (¬ (tex.Setup.Type_ = TextureType.Texture3D ∨
        tb.asTextureFormat tex.Setup.ColorFormat = DXGI_FORMAT_UNKNOWN) →
      ∃ tex' f', createFromPixelData tb f tex data size
          = Except.ok (ResourceState.Valid, tex', f') ∧
        (tex'.slots.get 0).d3d12TextureRes.isSome = true) := by
  obtain ⟨h1, h2, h3, h4, h5, h6⟩ := hpre
  constructor
  · intro h
    simp only [createFromPixelData, o_assert_dbg_bind, h1, h2, h3, h4, h5, h6,
      Option.isNone_none, decide_True, if_true, gt_iff_lt]
    by_cases h3d : tex.Setup.Type_ = TextureType.Texture3D
    · simp [h3d, pure, Except.pure]
    · have hu : DXGI_FORMAT_UNKNOWN = tb.asTextureFormat tex.Setup.ColorFormat := by
        rcases h with h | h
        · exact absurd h h3d
        · exact h.symm
      simp [h3d, hu, pure, Except.pure]
  · intro h
    have h3d : ¬ tex.Setup.Type_ = TextureType.Texture3D := fun hc => h (Or.inl hc)
    have hu : ¬ DXGI_FORMAT_UNKNOWN = tb.asTextureFormat tex.Setup.ColorFormat :=
      fun hc => h (Or.inr hc.symm)
    simp only [createFromPixelData, o_assert_dbg_bind, h1, h2, h3, h4, h5, h6,
      Option.isNone_none, decide_True, if_true, gt_iff_lt, h3d, hu, if_false]
    exact ⟨_, _, rfl, rfl⟩

/-- C8 at concrete inputs: the 3D setup is rejected with everything unchanged, the 2D setup with
a known format is accepted. -/
theorem createFromPixelData_result_witness :
    createFromPixelData exTables exFactory (texture.empty exSetup3D) (some 1) 16
        = Except.ok (ResourceState.Failed, texture.empty exSetup3D, exFactory) ∧
    ∃ tex' f', createFromPixelData exTables exFactory (texture.empty exSetupPixelData) (some 1) 16
          = Except.ok (ResourceState.Valid, tex', f') ∧
        (tex'.slots.get 0).d3d12TextureRes.isSome = true :=
  ⟨(createFromPixelData_result exTables exFactory (texture.empty exSetup3D) (some 1) 16
      ⟨rfl, rfl, rfl, by decide, by decide, rfl⟩).1 (Or.inl rfl),
   (createFromPixelData_result exTables exFactory (texture.empty exSetupPixelData) (some 1) 16
      ⟨rfl, rfl, rfl, by decide, by decide, rfl⟩).2 (by decide)⟩

/-! ## Slot counts (C7) -/

/-- C7: a texture produced by a creation path that returned `Valid` has `numSlots = 2` exactly
when its setup's usage is `Stream` and `numSlots = 1` for every other usage.  For
`createEmptyTexture` moreover: `numSlots` is 2 for `Stream` and 1 for `Dynamic`, every slot below
`numSlots` holds a texture resource and an upload buffer, and a slot at `numSlots` or above is
left as it was, without a texture resource (so it is empty whenever it held no upload buffer
before, as in an entity that was created empty). -/
theorem numSlots_of_valid (tb : Tables) (f : d3d12TextureFactory) (tex : texture) :
    (∀ t' f', createRenderTarget tb f tex = Except.ok (ResourceState.Valid, t', f') →
      (t'.numSlots = 2 ↔ t'.Setup.TextureUsage = Usage.Stream) ∧
      (t'.Setup.TextureUsage ≠ Usage.Stream → t'.numSlots = 1)) ∧
    (∀ data size t' f',
      createFromPixelData tb f tex data size = Except.ok (ResourceState.Valid, t', f') →
      (t'.numSlots = 2 ↔ t'.Setup.TextureUsage = Usage.Stream) ∧
      (t'.Setup.TextureUsage ≠ Usage.Stream → t'.numSlots = 1)) ∧
    (∀ t' f', createEmptyTexture tb f tex = Except.ok (ResourceState.Valid, t', f') →
      (t'.numSlots = 2 ↔ t'.Setup.TextureUsage = Usage.Stream) ∧
      (t'.Setup.TextureUsage ≠ Usage.Stream → t'.numSlots = 1) ∧
      (tex.Setup.TextureUsage = Usage.Stream → t'.numSlots = 2) ∧
      (tex.Setup.TextureUsage = Usage.Dynamic → t'.numSlots = 1) ∧
      (∀ i, i < t'.numSlots →
        (t'.slots.get i).d3d12TextureRes.isSome = true ∧
        (t'.slots.get i).d3d12UploadBuffer.isSome = true) ∧
      (∀ i, t'.numSlots ≤ i → i < 2 →
        t'.slots.get i = tex.slots.get i ∧ (t'.slots.get i).d3d12TextureRes = none ∧
        ((tex.slots.get i).d3d12UploadBuffer = none →
          (t'.slots.get i).d3d12UploadBuffer = none))) := by
  refine ⟨?_, ?_, ?_⟩
  · intro t' f' hok
    obtain ⟨_, hs, hn, _⟩ := createRenderTarget_frame tb f tex _ _ _ hok
    obtain ⟨_, h1, _, _, _, _, hu, _⟩ := createRenderTarget_pre_of_ok tb f tex _ hok
    rw [hs, hn, h1, hu]
    simp
  · intro data size t' f' hok
    obtain ⟨hs, hn, _⟩ := createFromPixelData_frame tb f tex data size _ _ _ hok
    obtain ⟨_, h1, _, _, _, hu⟩ := createFromPixelData_pre_of_ok tb f tex data size _ hok
    rw [hs, hn, h1, hu]
    simp
  · intro t' f' hok
    obtain ⟨_, hs, _, hn, hpop, hrest, _⟩ := createEmptyTexture_frame tb f tex _ _ _ hok
    rw [hs, hn]
    refine ⟨?_, ?_, ?_, ?_, ?_, ?_⟩
    · by_cases h : tex.Setup.TextureUsage = Usage.Stream <;> simp [h]
    · intro h; simp [h]
    · intro h; simp [h]
    · intro h; simp [h]
    · intro i hi; exact hpop i (hn ▸ hi)
    · intro i hi hi2
      obtain ⟨h1, h2⟩ := hrest i (hn ▸ hi) hi2
      exact ⟨h1, h2, fun h0 => by rw [h1]; exact h0⟩

/-- C7 at a concrete input: an empty texture with stream usage gets two slots. -/
theorem numSlots_of_valid_witness :
    ∃ t' f', createEmptyTexture exTables exFactory (texture.empty exSetupStream)
        = Except.ok (ResourceState.Valid, t', f') ∧ t'.numSlots = 2 := by
  have hok := createEmptyTexture_of_pre exTables exFactory (texture.empty exSetupStream)
    ⟨rfl, rfl, by decide, by decide, rfl, rfl⟩
  exact ⟨_, _, hok,
    ((numSlots_of_valid exTables exFactory (texture.empty exSetupStream)).2.2 _ _ hok).2.2.1 rfl⟩

/-! ## Round trip (C5) -/

/-- C5: for an empty entity with any setup, whenever a `SetupResource` variant returns `Valid`
(render-target, empty or from-pixel-data path), `DestroyResource` applied to the result returns
the entity in its empty state: every slot's texture resource and upload buffer is null, the
depth-buffer handle is null, and both descriptor slots are `InvalidIndex`. -/
theorem SetupResource_DestroyResource_roundtrip (tb : Tables) (f : d3d12TextureFactory)
    (setup : TextureSetup) :
    (∀ t' f', SetupResource tb f (texture.empty setup)
        = Except.ok (ResourceState.Valid, t', f') →
      ∃ t'' f'', DestroyResource f' t' = Except.ok (t'', f'') ∧
        (∀ i, (t''.slots.get i).d3d12TextureRes = none ∧
              (t''.slots.get i).d3d12UploadBuffer = none) ∧
        t''.d3d12DepthBufferRes = none ∧ t''.rtvDescriptorSlot = InvalidIndex ∧
        t''.dsvDescriptorSlot = InvalidIndex ∧ t'' = (texture.empty setup).Clear) ∧
    (∀ data size t' f', SetupResourceWithData tb f (texture.empty setup) data size
        = Except.ok (ResourceState.Valid, t', f') →
      ∃ t'' f'', DestroyResource f' t' = Except.ok (t'', f'') ∧
        (∀ i, (t''.slots.get i).d3d12TextureRes = none ∧
              (t''.slots.get i).d3d12UploadBuffer = none) ∧
        t''.d3d12DepthBufferRes = none ∧ t''.rtvDescriptorSlot = InvalidIndex ∧
        t''.dsvDescriptorSlot = InvalidIndex ∧ t'' = (texture.empty setup).Clear) := by
  have hclear : ∀ (t' : texture) (f' : d3d12TextureFactory), f'.isValid = true →
      ∃ t'' f'', DestroyResource f' t' = Except.ok (t'', f'') ∧
        (∀ i, (t''.slots.get i).d3d12TextureRes = none ∧
              (t''.slots.get i).d3d12UploadBuffer = none) ∧
        t''.d3d12DepthBufferRes = none ∧ t''.rtvDescriptorSlot = InvalidIndex ∧
        t''.dsvDescriptorSlot = InvalidIndex ∧ t'' = (texture.empty setup).Clear := by
    intro t' f' hv
    refine ⟨_, _, DestroyResource_eq f' t' hv, ?_, rfl, rfl, rfl, rfl⟩
    intro i
    by_cases hi : i = 0
    · subst hi; exact ⟨rfl, rfl⟩
    · simp [texture.Clear, slotArray.get, hi, slot.init]
  constructor
  · intro t' f' hok
    simp only [SetupResource, o_assert_dbg_bind, ite_error_eq_ok] at hok
    obtain ⟨hv, _, _, hok⟩ := hok
    apply hclear
    split at hok
    · rw [(createRenderTarget_frame tb f _ _ _ _ hok).2.2.2, hv]
    · split at hok
      · rw [(createEmptyTexture_frame tb f _ _ _ _ hok).2.2.1, hv]
      · cases hok
  · intro data size t' f' hok
    simp only [SetupResourceWithData, o_assert_dbg_bind, ite_error_eq_ok] at hok
    obtain ⟨hv, _, hok⟩ := hok
    apply hclear
    split at hok
    · rw [(createFromPixelData_frame tb f _ data size _ _ _ hok).2.2, hv]
    · cases hok

/-- C5 at a concrete input: a render target set up on the example factory and destroyed again. -/
theorem SetupResource_DestroyResource_roundtrip_witness :
    ∃ t' f' t'' f'', SetupResource exTables exFactory (texture.empty exSetupRenderTarget)
        = Except.ok (ResourceState.Valid, t', f') ∧
      DestroyResource f' t' = Except.ok (t'', f'') ∧
      t''.slots.get 0 = slot.init ∧ t''.slots.get 1 = slot.init ∧
      t''.d3d12DepthBufferRes = none ∧ t''.rtvDescriptorSlot = InvalidIndex ∧
      t''.dsvDescriptorSlot = InvalidIndex := by
  obtain ⟨t', f', hok⟩ : ∃ t' f', SetupResource exTables exFactory
      (texture.empty exSetupRenderTarget) = Except.ok (ResourceState.Valid, t', f') :=
    ⟨_, _, rfl⟩
  obtain ⟨t'', f'', hd, _, h2, h3, h4, h5⟩ :=
    (SetupResource_DestroyResource_roundtrip exTables exFactory exSetupRenderTarget).1 t' f' hok
  refine ⟨t', f', t'', f'', hok, hd, ?_, ?_, h2, h3, h4⟩
  · rw [h5]; rfl
  · rw [h5]; rfl

/-! ## Empty texture followed by destruction (C6) -/

/-- C6: for an empty entity and a setup accepted by `createEmptyTexture` (usage not immutable, at
least one mip level, 2D, uncompressed format), on a set-up factory: `createEmptyTexture` returns
`Valid` with `numSlots` slots (2 for `Stream`, 1 otherwise), and `DestroyResource` right after it
queues exactly one deferred release for the texture resource and one for the upload buffer of
each of these slots (`numSlots` of each), all tagged with the current frame index; the
descriptor allocator's queue is as it was (no descriptor-slot release), the texture holds no depth
buffer (none is released), and nothing is freed at once (the free lists are as they were). -/
theorem createEmptyTexture_DestroyResource (tb : Tables) (f : d3d12TextureFactory)
    (setup : TextureSetup) (hvalid : f.isValid = true)
    (husage : setup.TextureUsage ≠ Usage.Immutable) (hmips : 0 < setup.NumMipMaps)
    (htype : setup.Type_ = TextureType.Texture2D)
    (hfmt : tb.IsCompressedFormat setup.ColorFormat = false) :
    ∃ tex' f' f'',
      createEmptyTexture tb f (texture.empty setup) = Except.ok (ResourceState.Valid, tex', f') ∧
      DestroyResource f' tex' = Except.ok (tex'.Clear, f'') ∧
      tex'.numSlots = (if setup.TextureUsage = Usage.Stream then 2 else 1) ∧
      tex'.slotTextures.length = tex'.numSlots ∧ tex'.slotUploadBuffers.length = tex'.numSlots ∧
      tex'.d3d12DepthBufferRes = none ∧
      f''.pointers.renderer.resAllocator.releaseQueue
        = f'.pointers.renderer.resAllocator.releaseQueue
          ++ ((tex'.slotTextures.zip tex'.slotUploadBuffers).map
                (fun p => [(f'.pointers.renderer.frameIndex, p.1),
                           (f'.pointers.renderer.frameIndex, p.2)])).flatten ∧
      f''.pointers.renderer.calls
        = f'.pointers.renderer.calls
          ++ ((tex'.slotTextures.zip tex'.slotUploadBuffers).map (fun p =>
                [Call.ReleaseDeferred f'.pointers.renderer.frameIndex p.1,
                 Call.ReleaseDeferred f'.pointers.renderer.frameIndex p.2])).flatten ∧
      f''.pointers.renderer.descAllocator.releaseQueue
        = f'.pointers.renderer.descAllocator.releaseQueue ∧
      f''.pointers.renderer.descAllocator.freeSlots
        = f'.pointers.renderer.descAllocator.freeSlots ∧
      f''.pointers.renderer.resAllocator.freeList
        = f'.pointers.renderer.resAllocator.freeList := by
  have hpre : createEmptyTexture_pre tb (texture.empty setup) :=
    ⟨rfl, rfl, husage, hmips, htype, hfmt⟩
  obtain ⟨tex', f', hok⟩ : ∃ tex' f', createEmptyTexture tb f (texture.empty setup)
      = Except.ok (ResourceState.Valid, tex', f') :=
    ⟨_, _, createEmptyTexture_of_pre tb f (texture.empty setup) hpre⟩
  obtain ⟨_, _, hv, hn, hpop, hrest, hd, hrtv, hdsv⟩ :=
    createEmptyTexture_frame tb f _ _ _ _ hok
  rw [hvalid] at hv
  obtain ⟨f'', hdes, hq, hfl, _, hdq, hfs, _, hcalls⟩ := DestroyResource_effect f' tex' hv
  refine ⟨tex', f', f'', hok, hdes, hn, ?_⟩
  rw [hq, hcalls, hdq, hfs, hfl]
  have hd' : tex'.d3d12DepthBufferRes = none := hd
  have hrtv' : tex'.rtvDescriptorSlot = InvalidIndex := hrtv
  have hdsv' : tex'.dsvDescriptorSlot = InvalidIndex := hdsv
  have hslots : tex'.heldSlots f'.pointers.renderer = [] := by
    simp [texture.heldSlots, hrtv', hdsv']
  have hsetup : (texture.empty setup).Setup = setup := rfl
  rw [hsetup] at hn
  rw [hslots]
  by_cases hs : setup.TextureUsage = Usage.Stream
  · simp only [hs, if_true] at hn
    obtain ⟨h0t, h0u⟩ := hpop 0 (by omega)
    obtain ⟨h1t, h1u⟩ := hpop 1 (by omega)
    obtain ⟨su, at_, ⟨⟨t0, u0, st0⟩, ⟨t1, u1, st1⟩⟩, n, d, ds, rtv, dsv⟩ := tex'
    simp only at hn hd'
    subst hn hd'
    obtain ⟨a, rfl⟩ := Option.isSome_iff_exists.mp h0t
    obtain ⟨b, rfl⟩ := Option.isSome_iff_exists.mp h0u
    obtain ⟨c, rfl⟩ := Option.isSome_iff_exists.mp h1t
    obtain ⟨e, rfl⟩ := Option.isSome_iff_exists.mp h1u
    have hr : List.range 2 = [0, 1] := rfl
    simp [texture.slotTextures, texture.slotUploadBuffers, texture.heldResources, hr,
      slotArray.get, List.reduceOption]
  · simp only [hs, if_false] at hn
    obtain ⟨h0t, h0u⟩ := hpop 0 (by omega)
    obtain ⟨h1, _⟩ := hrest 1 (by omega) (by omega)
    have h1' : tex'.slots.get 1 = slot.init := h1
    obtain ⟨su, at_, ⟨⟨t0, u0, st0⟩, ⟨t1, u1, st1⟩⟩, n, d, ds, rtv, dsv⟩ := tex'
    simp only at hn hd'
    subst hn hd'
    obtain ⟨a, rfl⟩ := Option.isSome_iff_exists.mp h0t
    obtain ⟨b, rfl⟩ := Option.isSome_iff_exists.mp h0u
    simp only [slotArray.get, slot.init, if_neg (by decide : ¬ (1 = 0)), slot.mk.injEq] at h1'
    obtain ⟨rfl, rfl, rfl⟩ := h1'
    have hr : List.range 1 = [0] := rfl
    simp [texture.slotTextures, texture.slotUploadBuffers, texture.heldResources, hr,
      slotArray.get, List.reduceOption]

/-- C6 at a concrete input: a stream texture on the example factory; its four resources
(handles 1 to 4) are queued at frame 7 and the descriptor queue stays empty. -/
theorem createEmptyTexture_DestroyResource_witness :
    ∃ tex' f' f'',
      createEmptyTexture exTables exFactory (texture.empty exSetupStream)
        = Except.ok (ResourceState.Valid, tex', f') ∧
      DestroyResource f' tex' = Except.ok (tex'.Clear, f'') ∧
      tex'.numSlots = 2 ∧ tex'.slotTextures.length = 2 ∧ tex'.slotUploadBuffers.length = 2 ∧
      f''.pointers.renderer.descAllocator.releaseQueue
        = f'.pointers.renderer.descAllocator.releaseQueue := by
  obtain ⟨tex', f', f'', h1, h2, h3, h4, h5, _, _, _, h6, _⟩ :=
    createEmptyTexture_DestroyResource exTables exFactory exSetupStream rfl (by decide)
      (by decide) rfl rfl
  have h3' : tex'.numSlots = 2 := h3
  exact ⟨tex', f', f'', h1, h2, h3', h3' ▸ h4, h3' ▸ h5, h6⟩

/-! ## Size and attributes of a render target (C10) -/

theorem releaseAll_refCount (r : renderer) (F : Nat) (hs : List Nat) (d : Nat) :
    (r.releaseAll F hs).resAllocator.refCount d = r.resAllocator.refCount d - hs.count d := by
  induction hs generalizing r with
  | nil => simp [renderer.releaseAll]
  | cons x t ih =>
    have := ih (r.ReleaseDeferred F x)
    simp only [renderer.releaseAll, List.foldl_cons] at this ⊢
    rw [this]
    by_cases hx : x = d
    · subst hx
      simp [renderer.ReleaseDeferred, d3d12ResAllocator.ReleaseDeferred, Nat.sub_sub]
      omega
    · have hx' : d ≠ x := fun h => hx h.symm
      simp [renderer.ReleaseDeferred, d3d12ResAllocator.ReleaseDeferred, hx, hx',
        Function.update_noteq hx']

theorem Alloc_ne_live (a : d3d12ResAllocator) (d : Nat) (h1 : d ∉ a.freeList)
    (h2 : d < a.nextHandle) : a.Alloc.1 ≠ d := by
  show a.freeList.headD a.nextHandle ≠ d
  cases hfl : a.freeList with
  | nil => simp only [List.headD_nil]; omega
  | cons x t =>
    simp only [List.headD_cons]
    intro hx
    apply h1
    rw [hfl, ← hx]
    exact List.mem_cons_self x t

/-- What `DestroyResource` does to the reference counts and the release queue. -/
theorem DestroyResource_refCount (f : d3d12TextureFactory) (tex : texture)
    (hvalid : f.isValid = true) :
    ∃ f', DestroyResource f tex = Except.ok (tex.Clear, f') ∧ f'.isValid = true ∧
      f'.pointers.renderer.frameIndex = f.pointers.renderer.frameIndex ∧
      (∀ d, f'.pointers.renderer.resAllocator.refCount d
        = f.pointers.renderer.resAllocator.refCount d - tex.heldResources.count d) ∧
      f'.pointers.renderer.resAllocator.releaseQueue
        = f.pointers.renderer.resAllocator.releaseQueue
          ++ tex.heldResources.map (fun h => (f.pointers.renderer.frameIndex, h)) := by
  refine ⟨_, DestroyResource_eq f tex hvalid, hvalid, ?_, ?_, ?_⟩
  · show (renderer.releaseSlots _ _).frameIndex = _
    rw [(releaseSlots_frame _ _).2.2.2, releaseAll_frameIndex]
  · intro d
    show (renderer.releaseSlots _ _).resAllocator.refCount d = _
    rw [(releaseSlots_frame _ _).1, releaseAll_refCount]
  · show (renderer.releaseSlots _ _).resAllocator.releaseQueue = _
    rw [(releaseSlots_frame _ _).1, releaseAll_resAllocator_releaseQueue]

/-- C2, as stated, fails: A owns its depth buffer (handle 2) and B already shares it (reference
count 2); the render target C, whose setup has shared depth referencing A, is created with A's
depth handle and without a new depth resource, and the reference count after C's creation is 3,
not 2. -/
theorem sharedDepth_refCount_counterexample :
    exTexA.ownsDepthBuffer = true ∧ exTexA.d3d12DepthBufferRes = some 2 ∧
    exSetupSharedC.ShouldSetupAsRenderTarget = true ∧ exSetupSharedC.HasSharedDepth = true ∧
    exFactoryB.pointers.texturePool.Lookup exSetupSharedC.DepthRenderTarget = some exTexA ∧
    exFactoryB.pointers.renderer.resAllocator.refCount 2 = 2 ∧
    exRunC.code = some ResourceState.Valid ∧
    exTexC.d3d12DepthBufferRes = some 2 ∧
    exFactoryC.pointers.renderer.resAllocator.refCount 2 = 3 :=
  ⟨rfl, rfl, rfl, rfl, rfl, rfl, rfl, rfl, rfl⟩

/-- C2, amended: let A hold a depth buffer `d` that it alone references (reference count 1,
a live object of the allocator), and let B be an empty entity whose render-target setup (with one
size source, as `TextureSetup` provides them) has a depth buffer shared with A (`HasDepth`,
`HasSharedDepth`, A found under `DepthRenderTarget`) and satisfies the assertions of
`createRenderTarget`.  Then
`createRenderTarget(B)` returns `Valid`, B's depth-buffer handle is A's handle, the only
allocation made is the colour buffer (the depth buffer gets an `AddRef`, no new resource), and the
reference count of `d` is 2 after B's creation, 1 after `DestroyResource(B)`, and 0 after
`DestroyResource(A)` as well, with its release queued at the current frame index. -/
theorem sharedDepth_refCount (tb : Tables) (f : d3d12TextureFactory) (A : texture)
    (setupB : TextureSetup) (d : Nat) (hvalid : f.isValid = true)
    (hpre : createRenderTarget_pre tb (texture.empty setupB))
    (hdepth : setupB.HasDepth = true) (hshared : setupB.HasSharedDepth = true)
    (hone : setupB.oneSizeSource)
    (hlook : f.pointers.texturePool.Lookup setupB.DepthRenderTarget = some A)
    (hA : A.d3d12DepthBufferRes = some d)
    (hAw : 0 < A.textureAttrs.Width) (hAh : 0 < A.textureAttrs.Height)
    (hcount : f.pointers.renderer.resAllocator.refCount d = 1)
    (hfree : d ∉ f.pointers.renderer.resAllocator.freeList)
    (hlive : d < f.pointers.renderer.resAllocator.nextHandle) :
    ∃ B' f1 f2 f3 c0 s1 s2,
      createRenderTarget tb f (texture.empty setupB) = Except.ok (ResourceState.Valid, B', f1) ∧
      B'.d3d12DepthBufferRes = A.d3d12DepthBufferRes ∧
      f1.pointers.renderer.calls = f.pointers.renderer.calls ++
        [Call.AllocRenderTarget A.textureAttrs.Width A.textureAttrs.Height setupB.ColorFormat
           setupB.ClearHint 1 c0,
         Call.AllocSlot f.pointers.renderer.rtvHeap s1,
         Call.CreateRenderTargetView (some c0) f.pointers.renderer.rtvHeap (s1 : Int),
         Call.AddRef d,
         Call.AllocSlot f.pointers.renderer.dsvHeap s2,
         Call.CreateDepthStencilView (some d) f.pointers.renderer.dsvHeap (s2 : Int)] ∧
      f1.pointers.renderer.resAllocator.refCount d = 2 ∧
      DestroyResource f1 B' = Except.ok (B'.Clear, f2) ∧
      f2.pointers.renderer.resAllocator.refCount d = 1 ∧
      DestroyResource f2 A = Except.ok (A.Clear, f3) ∧
      f3.pointers.renderer.resAllocator.refCount d = 0 ∧
      (f.pointers.renderer.frameIndex, d) ∈ f3.pointers.renderer.resAllocator.releaseQueue := by
  have hset : (texture.empty setupB).Setup = setupB := rfl
  have hrel : setupB.IsRelSizeRenderTarget = false := by
    cases hr : setupB.IsRelSizeRenderTarget
    · rfl
    · exact absurd ⟨hr, hshared⟩ hone
  have hres : resolvedSize f (texture.empty setupB).Setup
      = (A.textureAttrs.Width, A.textureAttrs.Height) := by
    unfold resolvedSize
    simp only [hset, hrel, hshared, hlook, Bool.false_eq_true, if_false, if_true]
  obtain ⟨t, r, hstep, hok⟩ := createRenderTarget_sharedDepth tb f (texture.empty setupB)
    A.textureAttrs.Width A.textureAttrs.Height A d hpre hres hAw hAh hdepth hshared hrel hlook hA
  rw [createDepthBuffer_shared (texture.empty setupB).Setup _ _ A d _ _ hshared hA] at hstep
  cases hstep
  have hc0 : f.pointers.renderer.resAllocator.Alloc.1 ≠ d :=
    Alloc_ne_live _ d hfree hlive
  have hc0' : d ≠ f.pointers.renderer.resAllocator.Alloc.1 := fun h => hc0 h.symm
  obtain ⟨B', f1, hok', hBd, hBheld, hv1, hF1, hcalls, hrc1⟩ : ∃ B' f1,
      createRenderTarget tb f (texture.empty setupB)
        = Except.ok (ResourceState.Valid, B', f1) ∧
      B'.d3d12DepthBufferRes = some d ∧
      B'.heldResources = [f.pointers.renderer.resAllocator.Alloc.1, d] ∧
      f1.isValid = true ∧
      f1.pointers.renderer.frameIndex = f.pointers.renderer.frameIndex ∧
      (∃ s1 s2, f1.pointers.renderer.calls = f.pointers.renderer.calls ++
        [Call.AllocRenderTarget A.textureAttrs.Width A.textureAttrs.Height setupB.ColorFormat
           setupB.ClearHint 1 f.pointers.renderer.resAllocator.Alloc.1,
         Call.AllocSlot f.pointers.renderer.rtvHeap s1,
         Call.CreateRenderTargetView (some f.pointers.renderer.resAllocator.Alloc.1)
           f.pointers.renderer.rtvHeap (s1 : Int),
         Call.AddRef d,
         Call.AllocSlot f.pointers.renderer.dsvHeap s2,
         Call.CreateDepthStencilView (some d) f.pointers.renderer.dsvHeap (s2 : Int)]) ∧
      f1.pointers.renderer.resAllocator.refCount d = 2 := by
    refine ⟨_, _, hok, rfl, rfl, hvalid, rfl,
      ⟨(f.pointers.renderer.descAllocator.AllocSlot f.pointers.renderer.rtvHeap).1,
       ((f.pointers.renderer.descAllocator.AllocSlot f.pointers.renderer.rtvHeap).2.AllocSlot
          f.pointers.renderer.dsvHeap).1, ?_⟩, ?_⟩
    · simp only [d3d12TextureFactory.withRenderer, createColorBuffer,
        renderer.AllocRenderTarget, renderer.AllocSlot, renderer.CreateRenderTargetView,
        renderer.CreateDepthStencilView, renderer.AddRef, hset, List.append_assoc,
        List.singleton_append, List.nil_append, List.cons_append]
      rfl
    · show Function.update _ d _ d = 2
      rw [Function.update_same]
      show Function.update f.pointers.renderer.resAllocator.refCount
        f.pointers.renderer.resAllocator.Alloc.1 1 d + 1 = 2
      rw [Function.update_noteq hc0', hcount]
  obtain ⟨f2, hd2, hv2, hF2, hrc2, _⟩ := DestroyResource_refCount f1 B' hv1
  obtain ⟨f3, hd3, _, _, hrc3, hq3⟩ := DestroyResource_refCount f2 A hv2
  obtain ⟨s1, s2, hcalls⟩ := hcalls
  have hcnt : List.count d [f.pointers.renderer.resAllocator.Alloc.1, d] = 1 := by
    simp [List.count_cons, hc0]
  refine ⟨B', f1, f2, f3, _, s1, s2, hok', by rw [hBd, hA], hcalls, hrc1, hd2, ?_, hd3, ?_, ?_⟩
  · rw [hrc2, hrc1, hBheld, hcnt]
  · rw [hrc3, hrc2, hrc1, hBheld, hcnt]
    have hmem : d ∈ A.heldResources := by
      simp [texture.heldResources, hA, List.reduceOption]
    have : 0 < A.heldResources.count d := List.count_pos_iff.mpr hmem
    omega
  · rw [hq3, hF2, hF1]
    apply List.mem_append_right
    have hmem : d ∈ A.heldResources := by
      simp [texture.heldResources, hA, List.reduceOption]
    exact List.mem_map.mpr ⟨d, hmem, rfl⟩

/-- C2, amended, at a concrete input: A owns depth buffer 2, B shares it; the count goes 2, 1, 0
and the release of handle 2 is queued at frame 7. -/
theorem sharedDepth_refCount_witness :
    ∃ B' f1 f2 f3,
      createRenderTarget exTables exFactoryA (texture.empty exSetupSharedB)
        = Except.ok (ResourceState.Valid, B', f1) ∧
      B'.d3d12DepthBufferRes = exTexA.d3d12DepthBufferRes ∧
      f1.pointers.renderer.resAllocator.refCount 2 = 2 ∧
      DestroyResource f1 B' = Except.ok (B'.Clear, f2) ∧
      f2.pointers.renderer.resAllocator.refCount 2 = 1 ∧
      DestroyResource f2 exTexA = Except.ok (exTexA.Clear, f3) ∧
      f3.pointers.renderer.resAllocator.refCount 2 = 0 ∧
      (7, 2) ∈ f3.pointers.renderer.resAllocator.releaseQueue := by
  obtain ⟨B', f1, f2, f3, _, _, _, h1, h2, _, h3, h4, h5, h6, h7, h8⟩ :=
    sharedDepth_refCount exTables exFactoryA exTexA exSetupSharedB 2 rfl
      ⟨rfl, rfl, rfl, rfl, rfl, rfl, rfl, rfl, rfl, rfl⟩ rfl rfl
      (fun hc => Bool.noConfusion hc.1) rfl rfl
      (by decide) (by decide) rfl (by decide) (by decide)
  exact ⟨B', f1, f2, f3, h1, h2, h3, h4, h5, h6, h7, h8⟩

/-! ## The allocators -/

theorem Alloc_allocatable (a : d3d12ResAllocator) : a.allocatable a.Alloc.1 := by
  show a.freeList.headD a.nextHandle ∈ a.freeList ∨ a.nextHandle ≤ a.freeList.headD a.nextHandle
  cases a.freeList with
  | nil => right; exact Nat.le_refl _
  | cons x t => left; exact List.mem_cons_self x t

theorem Alloc_allocatable_of (a : d3d12ResAllocator) (h : Nat)
    (hh : a.Alloc.2.allocatable h) : a.allocatable h := by
  rcases hh with hh | hh
  · left
    exact List.mem_of_mem_tail hh
  · right
    have hh' : (if a.freeList.isEmpty then a.nextHandle + 1 else a.nextHandle) ≤ h := hh
    split at hh' <;> omega

theorem Alloc_not_allocatable (a : d3d12ResAllocator) (hwf : a.wf) :
    ¬ a.Alloc.2.allocatable a.Alloc.1 := by
  obtain ⟨hnd, hlt⟩ := hwf
  intro hh
  have h1 : a.freeList.headD a.nextHandle ∈ a.freeList.tail ∨
      (if a.freeList.isEmpty then a.nextHandle + 1 else a.nextHandle)
        ≤ a.freeList.headD a.nextHandle := hh
  cases hfl : a.freeList with
  | nil => rw [hfl] at h1; simp at h1
  | cons x t =>
    rw [hfl] at h1 hnd hlt
    simp only [List.headD_cons, List.tail_cons, List.isEmpty_cons, Bool.false_eq_true,
      if_false] at h1
    rcases h1 with h1 | h1
    · exact (List.nodup_cons.mp hnd).1 h1
    · have := hlt x (List.mem_cons_self x t)
      omega

theorem Alloc_wf (a : d3d12ResAllocator) (hwf : a.wf) : a.Alloc.2.wf := by
  obtain ⟨hnd, hlt⟩ := hwf
  refine ⟨?_, ?_⟩
  · show a.freeList.tail.Nodup
    exact hnd.sublist (List.tail_sublist _)
  · intro h hh
    have h1 : h ∈ a.freeList.tail := hh
    have h2 := hlt h (List.mem_of_mem_tail h1)
    show h < (if a.freeList.isEmpty then a.nextHandle + 1 else a.nextHandle)
    split <;> omega

theorem allocN_spec (k : Nat) (a : d3d12ResAllocator) (hwf : a.wf) :
    (a.allocN k).1.Nodup ∧
    (∀ h ∈ (a.allocN k).1, a.allocatable h ∧ ¬ (a.allocN k).2.allocatable h) ∧
    (∀ h, ¬ a.allocatable h → ¬ (a.allocN k).2.allocatable h) ∧
    (a.allocN k).2.wf ∧
    (a.allocN k).2.releaseQueue = a.releaseQueue ∧
    (∀ h, (a.allocN k).2.refCount h = if h ∈ (a.allocN k).1 then 1 else a.refCount h) := by
  induction k generalizing a with
  | zero =>
    refine ⟨List.nodup_nil, ?_, fun _ h => h, hwf, rfl, ?_⟩
    · intro h hh; cases hh
    · intro h; simp [d3d12ResAllocator.allocN]
  | succ k ih =>
    obtain ⟨i1, i2, i3, i4, i5, i6⟩ := ih a.Alloc.2 (Alloc_wf a hwf)
    have hc := Alloc_not_allocatable a hwf
    show (a.Alloc.1 :: (a.Alloc.2.allocN k).1).Nodup ∧
      (∀ h ∈ a.Alloc.1 :: (a.Alloc.2.allocN k).1,
        a.allocatable h ∧ ¬ (a.Alloc.2.allocN k).2.allocatable h) ∧
      (∀ h, ¬ a.allocatable h → ¬ (a.Alloc.2.allocN k).2.allocatable h) ∧
      (a.Alloc.2.allocN k).2.wf ∧
      (a.Alloc.2.allocN k).2.releaseQueue = a.releaseQueue ∧
      (∀ h, (a.Alloc.2.allocN k).2.refCount h
        = if h ∈ a.Alloc.1 :: (a.Alloc.2.allocN k).1 then 1 else a.refCount h)
    refine ⟨?_, ?_, ?_, i4, ?_, ?_⟩
    · refine List.nodup_cons.mpr ⟨?_, i1⟩
      intro hmem
      exact hc (i2 _ hmem).1
    · intro h hh
      rcases List.mem_cons.mp hh with rfl | hh
      · exact ⟨Alloc_allocatable a, i3 _ hc⟩
      · exact ⟨Alloc_allocatable_of a h (i2 h hh).1, (i2 h hh).2⟩
    · intro h hh
      exact i3 h (fun hc' => hh (Alloc_allocatable_of a h hc'))
    · rw [i5]; rfl
    · intro h
      rw [i6 h]
      by_cases h1 : h ∈ (a.Alloc.2.allocN k).1
      · simp [h1]
      · by_cases h2 : h = a.Alloc.1
        · subst h2
          simp only [h1, if_false, List.mem_cons, true_or, if_true]
          show Function.update a.refCount a.Alloc.1 1 a.Alloc.1 = 1
          exact Function.update_same _ _ _
        · simp only [h1, if_false, List.mem_cons, h2, false_or]
          show Function.update a.refCount a.Alloc.1 1 h = a.refCount h
          exact Function.update_noteq h2 _ _

theorem AllocSlot_allocatable (d : d3d12DescAllocator) (heap : Nat) :
    d.allocatable heap (d.AllocSlot heap).1 := by
  show (d.freeSlots heap).headD (d.nextSlot heap) ∈ d.freeSlots heap ∨
    d.nextSlot heap ≤ (d.freeSlots heap).headD (d.nextSlot heap)
  cases d.freeSlots heap with
  | nil => right; exact Nat.le_refl _
  | cons x t => left; exact List.mem_cons_self x t

theorem AllocSlot_freeSlots (d : d3d12DescAllocator) (heap heap' : Nat) :
    (d.AllocSlot heap).2.freeSlots heap'
      = if heap' = heap then (d.freeSlots heap).tail else d.freeSlots heap' := by
  show Function.update d.freeSlots heap (d.freeSlots heap).tail heap' = _
  by_cases h : heap' = heap
  · subst h; simp
  · simp [h, Function.update_noteq h]

theorem AllocSlot_nextSlot (d : d3d12DescAllocator) (heap heap' : Nat) :
    (d.AllocSlot heap).2.nextSlot heap'
      = if heap' = heap ∧ (d.freeSlots heap).isEmpty = true then d.nextSlot heap + 1
        else d.nextSlot heap' := by
  show (if (d.freeSlots heap).isEmpty then
      Function.update d.nextSlot heap (d.nextSlot heap + 1) else d.nextSlot) heap' = _
  by_cases he : (d.freeSlots heap).isEmpty = true
  · by_cases h : heap' = heap
    · subst h; simp [he]
    · simp [he, h, Function.update_noteq h]
  · simp [he]

theorem AllocSlot_allocatable_of (d : d3d12DescAllocator) (heap heap' m : Nat)
    (hh : (d.AllocSlot heap).2.allocatable heap' m) : d.allocatable heap' m := by
  unfold d3d12DescAllocator.allocatable at hh ⊢
  rw [AllocSlot_freeSlots, AllocSlot_nextSlot] at hh
  by_cases h : heap' = heap
  · subst h
    simp only [if_true, true_and] at hh
    rcases hh with hh | hh
    · left; exact List.mem_of_mem_tail hh
    · right; split at hh <;> omega
  · simp only [h, if_false, false_and] at hh
    exact hh

theorem AllocSlot_not_allocatable (d : d3d12DescAllocator) (heap : Nat) (hwf : d.wf) :
    ¬ (d.AllocSlot heap).2.allocatable heap (d.AllocSlot heap).1 := by
  obtain ⟨hnd, hlt⟩ := hwf heap
  unfold d3d12DescAllocator.allocatable
  rw [AllocSlot_freeSlots, AllocSlot_nextSlot]
  simp only [if_true, true_and]
  show ¬ ((d.freeSlots heap).headD (d.nextSlot heap) ∈ (d.freeSlots heap).tail ∨
    (if (d.freeSlots heap).isEmpty = true then d.nextSlot heap + 1 else d.nextSlot heap)
      ≤ (d.freeSlots heap).headD (d.nextSlot heap))
  cases hfl : d.freeSlots heap with
  | nil => simp
  | cons x t =>
    rw [hfl] at hnd hlt
    simp only [List.headD_cons, List.tail_cons, List.isEmpty_cons, Bool.false_eq_true,
      if_false]
    intro h1
    rcases h1 with h1 | h1
    · exact (List.nodup_cons.mp hnd).1 h1
    · have := hlt x (List.mem_cons_self x t)
      omega

theorem AllocSlot_wf (d : d3d12DescAllocator) (heap : Nat) (hwf : d.wf) :
    (d.AllocSlot heap).2.wf := by
  intro heap'
  obtain ⟨hnd, hlt⟩ := hwf heap'
  rw [AllocSlot_freeSlots, AllocSlot_nextSlot]
  by_cases h : heap' = heap
  · subst h
    simp only [if_true, true_and]
    refine ⟨hnd.sublist (List.tail_sublist _), ?_⟩
    intro n hn
    have := hlt n (List.mem_of_mem_tail hn)
    split <;> omega
  · simp only [h, if_false, false_and]
    exact ⟨hnd, hlt⟩

theorem allocSlots_spec (heaps : List Nat) (d : d3d12DescAllocator) (hwf : d.wf) :
    (d.allocSlots heaps).1.Nodup ∧
    (∀ x ∈ (d.allocSlots heaps).1, 0 ≤ x.2 ∧ x.2 ≠ InvalidIndex ∧
      d.allocatable x.1 x.2.toNat ∧ ¬ (d.allocSlots heaps).2.allocatable x.1 x.2.toNat) ∧
    (∀ heap m, ¬ d.allocatable heap m → ¬ (d.allocSlots heaps).2.allocatable heap m) ∧
    (d.allocSlots heaps).2.wf ∧
    (d.allocSlots heaps).2.releaseQueue = d.releaseQueue := by
  induction heaps generalizing d with
  | nil =>
    refine ⟨List.nodup_nil, ?_, fun _ _ h => h, hwf, rfl⟩
    intro x hx; cases hx
  | cons heap heaps ih =>
    obtain ⟨i1, i2, i3, i4, i5⟩ := ih (d.AllocSlot heap).2 (AllocSlot_wf d heap hwf)
    have hc := AllocSlot_not_allocatable d heap hwf
    show ((heap, ((d.AllocSlot heap).1 : Int)) :: ((d.AllocSlot heap).2.allocSlots heaps).1).Nodup ∧
      (∀ x ∈ (heap, ((d.AllocSlot heap).1 : Int)) :: ((d.AllocSlot heap).2.allocSlots heaps).1,
        0 ≤ x.2 ∧ x.2 ≠ InvalidIndex ∧ d.allocatable x.1 x.2.toNat ∧
          ¬ ((d.AllocSlot heap).2.allocSlots heaps).2.allocatable x.1 x.2.toNat) ∧
      (∀ heap' m, ¬ d.allocatable heap' m →
        ¬ ((d.AllocSlot heap).2.allocSlots heaps).2.allocatable heap' m) ∧
      ((d.AllocSlot heap).2.allocSlots heaps).2.wf ∧
      ((d.AllocSlot heap).2.allocSlots heaps).2.releaseQueue = d.releaseQueue
    refine ⟨?_, ?_, ?_, i4, ?_⟩
    · refine List.nodup_cons.mpr ⟨?_, i1⟩
      intro hmem
      have := (i2 _ hmem).2.2.1
      simp only [Int.toNat_ofNat] at this
      exact hc this
    · intro x hx
      rcases List.mem_cons.mp hx with rfl | hx
      · refine ⟨Int.ofNat_nonneg _, ?_, ?_, ?_⟩
        · show ((d.AllocSlot heap).1 : Int) ≠ -1
          omega
        · simp only [Int.toNat_ofNat]
          exact AllocSlot_allocatable d heap
        · simp only [Int.toNat_ofNat]
          exact i3 _ _ hc
      · obtain ⟨h1, h2, h3, h4⟩ := i2 x hx
        exact ⟨h1, h2, AllocSlot_allocatable_of d heap _ _ h3, h4⟩
    · intro heap' m hh
      exact i3 heap' m (fun hc' => hh (AllocSlot_allocatable_of d heap heap' m hc'))
    · rw [i5]; rfl

/-! ## What a creation call does to the allocators -/

theorem InvalidIndex_ne_natCast (n : Nat) : InvalidIndex ≠ (n : Int) := by
  show (-1 : Int) ≠ (n : Int)
  omega

theorem mem_heldResources_depth (q : texture) (d : Nat) (h : q.d3d12DepthBufferRes = some d) :
    d ∈ q.heldResources := by
  simp [texture.heldResources, h, List.reduceOption]

theorem resolveSize_provider (f : d3d12TextureFactory) (setup : TextureSetup) (w h : Int)
    (q : texture) (hr : resolveSize f setup = Except.ok (w, h, some q)) :
    f.pointers.texturePool.Lookup setup.DepthRenderTarget = some q := by
  cases hrel : setup.IsRelSizeRenderTarget
  case true =>
    rw [resolveSize_relSize f setup hrel] at hr
    split at hr <;> cases hr
  unfold resolveSize at hr
  rw [hrel] at hr
  simp only [Bool.false_eq_true, if_false] at hr
  split at hr
  · cases hl : f.pointers.texturePool.Lookup setup.DepthRenderTarget with
    | none => simp only [hl] at hr; cases hr
    | some p =>
      simp only [hl] at hr
      cases hr
      rfl
  · cases hr

theorem CreationSummary_refl (f : d3d12TextureFactory) (setup : TextureSetup) :
    CreationSummary f f (texture.empty setup) :=
  ⟨rfl, rfl, rfl, ⟨0, none, rfl, rfl, fun _ h => by cases h⟩, ⟨[], Or.inl rfl, rfl, rfl⟩⟩

theorem createRenderTarget_summary (tb : Tables) (f : d3d12TextureFactory)
    (setup : TextureSetup) (c : ResourceState) (t' : texture) (f' : d3d12TextureFactory)
    (hok : createRenderTarget tb f (texture.empty setup) = Except.ok (c, t', f')) :
    CreationSummary f f' t' := by
  obtain ⟨_, w, h, p, t, r, hres, _, _, hstep, hx⟩ := createRenderTarget_ok tb f _ _ hok
  have hset : (texture.empty setup).Setup = setup := rfl
  rw [hset] at hstep hres
  cases hd : setup.HasDepth
  · rw [hd] at hstep
    simp only [Bool.false_eq_true, if_false] at hstep
    cases hstep
    cases hx
    refine ⟨rfl, rfl, rfl, ⟨1, none, rfl, rfl, fun _ h => by cases h⟩,
      ⟨[f.pointers.renderer.rtvHeap], Or.inr (Or.inl rfl), ?_, rfl⟩⟩
    simp only [texture.slotsOf, d3d12TextureFactory.withRenderer, createColorBuffer,
      texture.empty, texture.Clear, d3d12DescAllocator.allocSlots, renderer.AllocSlot,
      renderer.AllocRenderTarget]
    simp [InvalidIndex_ne_natCast]
  · rw [hd] at hstep
    simp only [if_true] at hstep
    cases hs : setup.HasSharedDepth
    · rw [createDepthBuffer_own _ _ _ _ _ _ hs] at hstep
      cases hstep
      cases hx
      refine ⟨rfl, rfl, rfl, ⟨2, none, rfl, rfl, fun _ h => by cases h⟩,
        ⟨[f.pointers.renderer.rtvHeap, f.pointers.renderer.dsvHeap], Or.inr (Or.inr rfl), ?_,
          rfl⟩⟩
      simp only [texture.slotsOf, d3d12TextureFactory.withRenderer, createColorBuffer,
        texture.empty, texture.Clear, d3d12DescAllocator.allocSlots, renderer.AllocSlot,
        renderer.AllocRenderTarget, renderer.CreateRenderTargetView]
      simp [InvalidIndex_ne_natCast]
    · cases p with
      | none => rw [createDepthBuffer_null _ _ _ _ _ hs] at hstep; cases hstep
      | some q =>
        cases hq : q.d3d12DepthBufferRes with
        | none =>
          simp only [createDepthBuffer, hs, hq, if_true, bind, Except.bind] at hstep
          cases hstep
        | some d =>
          rw [createDepthBuffer_shared _ _ _ _ _ _ _ hs hq] at hstep
          cases hstep
          cases hx
          refine ⟨rfl, rfl, rfl, ⟨1, some d, rfl, rfl, ?_⟩,
            ⟨[f.pointers.renderer.rtvHeap, f.pointers.renderer.dsvHeap], Or.inr (Or.inr rfl),
              ?_, rfl⟩⟩
          · intro d' hd'
            cases hd'
            exact ⟨_, q, resolveSize_provider f setup w h q hres,
              mem_heldResources_depth q d hq⟩
          · simp only [texture.slotsOf, d3d12TextureFactory.withRenderer, createColorBuffer,
              texture.empty, texture.Clear, d3d12DescAllocator.allocSlots, renderer.AllocSlot,
              renderer.AllocRenderTarget, renderer.CreateRenderTargetView, renderer.AddRef]
            simp [InvalidIndex_ne_natCast]

theorem createEmptyTexture_summary (tb : Tables) (f : d3d12TextureFactory)
    (setup : TextureSetup) (c : ResourceState) (t' : texture) (f' : d3d12TextureFactory)
    (hok : createEmptyTexture tb f (texture.empty setup) = Except.ok (c, t', f')) :
    CreationSummary f f' t' := by
  have hpre := createEmptyTexture_pre_of_ok tb f _ _ hok
  rw [createEmptyTexture_of_pre tb f _ hpre] at hok
  have hset : (texture.empty setup).Setup = setup := rfl
  rw [hset] at hok
  by_cases hs : Usage.Stream = setup.TextureUsage
  · have hr : List.range 2 = [0, 1] := rfl
    simp only [hs, if_true, hr, List.foldl_cons, List.foldl_nil] at hok
    cases hok
    exact ⟨rfl, rfl, rfl, ⟨4, none, rfl, rfl, fun _ h => by cases h⟩, ⟨[], Or.inl rfl, rfl, rfl⟩⟩
  · have hr : List.range 1 = [0] := rfl
    simp only [hs, if_false, hr, List.foldl_cons, List.foldl_nil] at hok
    cases hok
    exact ⟨rfl, rfl, rfl, ⟨2, none, rfl, rfl, fun _ h => by cases h⟩, ⟨[], Or.inl rfl, rfl, rfl⟩⟩

theorem createFromPixelData_summary (tb : Tables) (f : d3d12TextureFactory)
    (setup : TextureSetup) (data : Option Nat) (size : Int) (c : ResourceState) (t' : texture)
    (f' : d3d12TextureFactory)
    (hok : createFromPixelData tb f (texture.empty setup) data size = Except.ok (c, t', f')) :
    CreationSummary f f' t' := by
  obtain ⟨h1, h2, h3, h4, h5, h6⟩ := createFromPixelData_pre_of_ok tb f _ data size _ hok
  simp only [createFromPixelData, o_assert_dbg_bind, h1, h2, h3, h4, h5, h6,
    Option.isNone_none, decide_True, if_true, gt_iff_lt] at hok
  split at hok
  · cases hok; exact CreationSummary_refl f setup
  · split at hok
    · cases hok; exact CreationSummary_refl f setup
    · cases hok
      exact ⟨rfl, rfl, rfl, ⟨1, none, rfl, rfl, fun _ h => by cases h⟩,
        ⟨[], Or.inl rfl, rfl, rfl⟩⟩

theorem SetupResource_summary (tb : Tables) (f : d3d12TextureFactory)
    (setup : TextureSetup) (c : ResourceState) (t' : texture) (f' : d3d12TextureFactory)
    (hok : SetupResource tb f (texture.empty setup) = Except.ok (c, t', f')) :
    CreationSummary f f' t' := by
  simp only [SetupResource, o_assert_dbg_bind, ite_error_eq_ok] at hok
  obtain ⟨_, _, _, hok⟩ := hok
  split at hok
  · exact createRenderTarget_summary tb f setup c t' f' hok
  · split at hok
    · exact createEmptyTexture_summary tb f setup c t' f' hok
    · cases hok; exact CreationSummary_refl f setup

theorem SetupResourceWithData_summary (tb : Tables) (f : d3d12TextureFactory)
    (setup : TextureSetup) (data : Option Nat) (size : Int) (c : ResourceState) (t' : texture)
    (f' : d3d12TextureFactory)
    (hok : SetupResourceWithData tb f (texture.empty setup) data size
      = Except.ok (c, t', f')) :
    CreationSummary f f' t' := by
  simp only [SetupResourceWithData, o_assert_dbg_bind, ite_error_eq_ok] at hok
  obtain ⟨_, _, hok⟩ := hok
  split at hok
  · exact createFromPixelData_summary tb f setup data size c t' f' hok
  · cases hok; exact CreationSummary_refl f setup

/-! ## The bookkeeping invariant is kept by every operation -/

theorem countP_eq_of_not_mem {α : Type} [DecidableEq α] (l : List α) (x : α) (h : x ∉ l) :
    l.countP (fun y => decide (y = x)) = 0 := by
  rw [List.countP_eq_zero]
  intro y hy
  simp only [decide_eq_true_eq]
  intro hc
  exact h (hc ▸ hy)

theorem countP_eq_of_mem_nodup {α : Type} [DecidableEq α] (l : List α) (x : α) (hnd : l.Nodup)
    (h : x ∈ l) : l.countP (fun y => decide (y = x)) = 1 := by
  induction l with
  | nil => cases h
  | cons a t ih =>
    obtain ⟨ha, ht⟩ := List.nodup_cons.mp hnd
    rw [List.countP_cons]
    rcases List.mem_cons.mp h with rfl | hx
    · rw [countP_eq_of_not_mem t x ha]
      simp
    · have hne : ¬ a = x := fun hc => ha (hc ▸ hx)
      rw [ih ht hx]
      simp [hne]

theorem mem_of_countP_pos {α : Type} [DecidableEq α] (l : List α) (x : α)
    (h : 0 < l.countP (fun y => decide (y = x))) : x ∈ l := by
  by_contra hc
  rw [countP_eq_of_not_mem l x hc] at h
  exact Nat.lt_irrefl 0 h

theorem texHold_pos_of_lookup (s : System) (id : Nat) (q : texture) (d : Nat)
    (hq : s.textures[id]? = some q) (hd : d ∈ q.heldResources) : 0 < s.texHold d := by
  have hmem : q ∈ s.textures := List.getElem?_mem hq
  have h1 : 0 < q.heldResources.count d := List.count_pos_iff.mpr hd
  have h2 : q.heldResources.count d ≤ s.texHold d := by
    unfold System.texHold
    exact List.single_le_sum (fun _ _ => Nat.zero_le _) _
      (List.mem_map.mpr ⟨q, hmem, rfl⟩)
  omega

theorem Inv_create (s : System) (f' : d3d12TextureFactory) (t' : texture) (hinv : s.Inv)
    (hsum : CreationSummary s.factory f' t') :
    System.Inv { s with renderer := f'.pointers.renderer, textures := s.textures ++ [t'] } := by
  obtain ⟨R1, R2, R3, R4, S1, S2, S4⟩ := hinv
  obtain ⟨_, hrtv, hdsv, ⟨k, shared, hheld, hres, hshared⟩, ⟨heaps, _, hslots, hdesc⟩⟩ := hsum
  have hfr : s.factory.pointers.renderer = s.renderer := rfl
  rw [hfr] at hrtv hdsv hheld hres hslots hdesc
  obtain ⟨n1, n2, n3, n4, n5, n6⟩ := allocN_spec k s.renderer.resAllocator R4
  obtain ⟨m1, m2, m3, m4, m5⟩ := allocSlots_spec heaps s.renderer.descAllocator S4
  -- the shared resource is held by a texture of the pool
  have F3 : ∀ h ∈ shared.toList, 0 < s.texHold h := by
    intro h hh
    cases shared with
    | none => cases hh
    | some d =>
      simp only [Option.toList_some, List.mem_singleton] at hh
      subst hh
      obtain ⟨id, q, hq, hd⟩ := hshared h rfl
      exact texHold_pos_of_lookup s id q h hq hd
  have F1 : ∀ h, f'.pointers.renderer.resAllocator.refCount h
      = (if h ∈ (s.renderer.resAllocator.allocN k).1 then 1
          else s.renderer.resAllocator.refCount h) + shared.toList.count h := by
    intro h
    rw [hres]
    cases shared with
    | none => simp [n6 h]
    | some d =>
      show Function.update _ d _ h = _
      by_cases hd : h = d
      · subst hd
        rw [Function.update_same, n6 h]
        simp
      · rw [Function.update_noteq hd, n6 h]
        have : ¬ d = h := fun hc => hd hc.symm
        simp [List.count_cons, this]
  have F2 : ∀ h, f'.pointers.renderer.resAllocator.allocatable h
      ↔ (s.renderer.resAllocator.allocN k).2.allocatable h := by
    intro h
    rw [hres]
    cases shared <;> exact Iff.rfl
  have F4 : f'.pointers.renderer.resAllocator.releaseQueue
      = s.renderer.resAllocator.releaseQueue := by
    rw [hres]
    cases shared <;> exact n5
  have F5 : f'.pointers.renderer.resAllocator.wf := by
    rw [hres]
    cases shared <;> exact n4
  have T : ∀ h, System.texHold
      { s with renderer := f'.pointers.renderer, textures := s.textures ++ [t'] } h
      = s.texHold h + (s.renderer.resAllocator.allocN k).1.count h + shared.toList.count h := by
    intro h
    simp only [System.texHold, List.map_append, List.sum_append, List.map_cons, List.map_nil,
      List.sum_cons, List.sum_nil, add_zero, hheld, List.count_append]
    omega
  have Hnew : ∀ h, h ∈ (s.renderer.resAllocator.allocN k).1 → s.texHold h = 0 := by
    intro h hh
    by_contra hc
    exact R2 h (Nat.pos_of_ne_zero hc) (n2 h hh).1
  have U : ∀ x, System.slotHold
      { s with renderer := f'.pointers.renderer, textures := s.textures ++ [t'] } x
      = s.slotHold x + (s.renderer.descAllocator.allocSlots heaps).1.countP
          (fun y => decide (y = x)) := by
    intro x
    simp only [System.slotHold, List.map_append, List.sum_append, List.map_cons, List.map_nil,
      List.sum_cons, List.sum_nil, add_zero, hrtv, hdsv, hslots, hdesc, m5]
    omega
  have Unew : ∀ x, x ∈ (s.renderer.descAllocator.allocSlots heaps).1 → s.slotHold x = 0 := by
    intro x hx
    by_contra hc
    exact (S2 x (Nat.pos_of_ne_zero hc)).2 (m2 x hx).2.2.1
  refine ⟨?_, ?_, ?_, F5, ?_, ?_, ?_⟩
  · intro h
    show f'.pointers.renderer.resAllocator.refCount h = _
    rw [F1 h, T h]
    by_cases hh : h ∈ (s.renderer.resAllocator.allocN k).1
    · rw [if_pos hh, Hnew h hh, List.count_eq_one_of_mem n1 hh]
    · rw [if_neg hh, List.count_eq_zero_of_not_mem hh, R1 h]
      omega
  · intro h hpos
    show ¬ f'.pointers.renderer.resAllocator.allocatable h
    rw [F2 h]
    rw [T h] at hpos
    by_cases hh : h ∈ (s.renderer.resAllocator.allocN k).1
    · exact (n2 h hh).2
    · rw [List.count_eq_zero_of_not_mem hh] at hpos
      by_cases hs : h ∈ shared.toList
      · exact n3 h (R2 h (F3 h hs))
      · rw [List.count_eq_zero_of_not_mem hs] at hpos
        exact n3 h (R2 h (by omega))
  · intro e he
    show ¬ f'.pointers.renderer.resAllocator.allocatable e.2
    have he' : e ∈ f'.pointers.renderer.resAllocator.releaseQueue := he
    rw [F4] at he'
    rw [F2]
    exact n3 _ (R3 e he')
  · intro x
    rw [U x]
    by_cases hx : x ∈ (s.renderer.descAllocator.allocSlots heaps).1
    · have h1 := countP_eq_of_mem_nodup _ x m1 hx
      have h0 := Unew x hx
      omega
    · have h1 := countP_eq_of_not_mem _ x hx
      have h0 := S1 x
      omega
  · intro x hpos
    show 0 ≤ x.2 ∧ ¬ f'.pointers.renderer.descAllocator.allocatable x.1 x.2.toNat
    rw [hdesc]
    rw [U x] at hpos
    by_cases hx : x ∈ (s.renderer.descAllocator.allocSlots heaps).1
    · exact ⟨(m2 x hx).1, (m2 x hx).2.2.2⟩
    · have h1 := countP_eq_of_not_mem _ x hx
      have hpos' : 0 < s.slotHold x := by omega
      exact ⟨(S2 x hpos').1, m3 _ _ (S2 x hpos').2⟩
  · show f'.pointers.renderer.descAllocator.wf
    rw [hdesc]
    exact m4

theorem sum_map_set {α : Type} (l : List α) (g : α → Nat) (i : Nat) (a b : α)
    (h : l[i]? = some a) : ((l.set i b).map g).sum + g a = (l.map g).sum + g b := by
  induction l generalizing i with
  | nil => simp at h
  | cons x t ih =>
    cases i with
    | zero =>
      simp only [List.getElem?_cons_zero, Option.some.injEq] at h
      subst h
      simp only [List.set_cons_zero, List.map_cons, List.sum_cons]
      omega
    | succ j =>
      simp only [List.getElem?_cons_succ] at h
      have := ih j h
      simp only [List.set_cons_succ, List.map_cons, List.sum_cons]
      omega

theorem releaseSlots_heaps (r : renderer) (ss : List (Nat × Nat × Int)) :
    (r.releaseSlots ss).rtvHeap = r.rtvHeap ∧ (r.releaseSlots ss).dsvHeap = r.dsvHeap := by
  induction ss generalizing r with
  | nil => exact ⟨rfl, rfl⟩
  | cons h t ih =>
    have := ih (r.ReleaseSlotDeferred h.1 h.2.1 h.2.2)
    simp only [renderer.releaseSlots, List.foldl_cons] at this ⊢
    exact this

theorem heldSlots_map (tex : texture) (r : renderer) :
    (tex.heldSlots r).map (fun e => (e.1, e.2.2)) = tex.slotsOf r.rtvHeap r.dsvHeap := by
  unfold texture.heldSlots texture.slotsOf
  split_ifs <;> rfl

theorem Inv_destroy (s : System) (id : Nat) (tex t : texture) (f : d3d12TextureFactory)
    (hinv : s.Inv) (hget : s.textures[id]? = some tex)
    (hok : DestroyResource s.factory tex = Except.ok (t, f)) :
    System.Inv { s with renderer := f.pointers.renderer, textures := s.textures.set id t } := by
  obtain ⟨R1, R2, R3, R4, S1, S2, S4⟩ := hinv
  rw [DestroyResource_eq s.factory tex rfl] at hok
  cases hok
  have hfr : s.factory.pointers.renderer = s.renderer := rfl
  simp only [d3d12TextureFactory.withRenderer, hfr]
  have hmem : tex ∈ s.textures := List.getElem?_mem hget
  -- the renderer after the releases
  have A1 : ∀ h, ((s.renderer.releaseAll s.renderer.frameIndex tex.heldResources).releaseSlots
      (tex.heldSlots s.renderer)).resAllocator.refCount h
      = s.renderer.resAllocator.refCount h - tex.heldResources.count h := by
    intro h; rw [(releaseSlots_frame _ _).1, releaseAll_refCount]
  have A2 : ∀ h, ((s.renderer.releaseAll s.renderer.frameIndex tex.heldResources).releaseSlots
      (tex.heldSlots s.renderer)).resAllocator.allocatable h
      ↔ s.renderer.resAllocator.allocatable h := by
    intro h
    unfold d3d12ResAllocator.allocatable
    rw [(releaseSlots_frame _ _).1, releaseAll_freeList, releaseAll_nextHandle]
  have A3 : ((s.renderer.releaseAll s.renderer.frameIndex tex.heldResources).releaseSlots
      (tex.heldSlots s.renderer)).resAllocator.releaseQueue
      = s.renderer.resAllocator.releaseQueue
        ++ tex.heldResources.map (fun h => (s.renderer.frameIndex, h)) := by
    rw [(releaseSlots_frame _ _).1, releaseAll_resAllocator_releaseQueue]
  have A4 : ((s.renderer.releaseAll s.renderer.frameIndex tex.heldResources).releaseSlots
      (tex.heldSlots s.renderer)).resAllocator.wf := by
    unfold d3d12ResAllocator.wf
    rw [(releaseSlots_frame _ _).1, releaseAll_freeList, releaseAll_nextHandle]
    exact R4
  have B1 : ((s.renderer.releaseAll s.renderer.frameIndex tex.heldResources).releaseSlots
      (tex.heldSlots s.renderer)).descAllocator.releaseQueue
      = s.renderer.descAllocator.releaseQueue ++ tex.heldSlots s.renderer := by
    rw [releaseSlots_descAllocator_releaseQueue, releaseAll_descAllocator]
  have B2 : ∀ heap n, ((s.renderer.releaseAll s.renderer.frameIndex
      tex.heldResources).releaseSlots (tex.heldSlots s.renderer)).descAllocator.allocatable
        heap n ↔ s.renderer.descAllocator.allocatable heap n := by
    intro heap n
    unfold d3d12DescAllocator.allocatable
    rw [(releaseSlots_frame _ _).2.1, (releaseSlots_frame _ _).2.2.1, releaseAll_descAllocator]
  have B3 : ((s.renderer.releaseAll s.renderer.frameIndex tex.heldResources).releaseSlots
      (tex.heldSlots s.renderer)).descAllocator.wf := by
    unfold d3d12DescAllocator.wf
    rw [(releaseSlots_frame _ _).2.1, (releaseSlots_frame _ _).2.2.1, releaseAll_descAllocator]
    exact S4
  have B4 : ((s.renderer.releaseAll s.renderer.frameIndex tex.heldResources).releaseSlots
      (tex.heldSlots s.renderer)).rtvHeap = s.renderer.rtvHeap := by
    rw [(releaseSlots_heaps _ _).1, releaseAll_rtvHeap]
  have B5 : ((s.renderer.releaseAll s.renderer.frameIndex tex.heldResources).releaseSlots
      (tex.heldSlots s.renderer)).dsvHeap = s.renderer.dsvHeap := by
    rw [(releaseSlots_heaps _ _).2, releaseAll_dsvHeap]
  -- the holds after the entity is reset
  have T : ∀ h, System.texHold
      { s with renderer := (s.renderer.releaseAll s.renderer.frameIndex
          tex.heldResources).releaseSlots (tex.heldSlots s.renderer),
               textures := s.textures.set id tex.Clear } h + tex.heldResources.count h
      = s.texHold h := by
    intro h
    have := sum_map_set s.textures (fun t => t.heldResources.count h) id tex tex.Clear hget
    beta_reduce at this
    simp only [System.texHold]
    have hc : tex.Clear.heldResources.count h = 0 := rfl
    omega
  have U : ∀ x, System.slotHold
      { s with renderer := (s.renderer.releaseAll s.renderer.frameIndex
          tex.heldResources).releaseSlots (tex.heldSlots s.renderer),
               textures := s.textures.set id tex.Clear } x
      = s.slotHold x := by
    intro x
    have := sum_map_set s.textures (fun t => (t.slotsOf s.renderer.rtvHeap
      s.renderer.dsvHeap).countP (fun y => decide (y = x))) id tex tex.Clear hget
    have hc : (tex.Clear.slotsOf s.renderer.rtvHeap s.renderer.dsvHeap).countP
        (fun y => decide (y = x)) = 0 := rfl
    beta_reduce at this
    simp only [System.slotHold, B1, B4, B5, List.map_append, List.countP_append,
      heldSlots_map]
    omega
  refine ⟨?_, ?_, ?_, A4, ?_, ?_, B3⟩
  · intro h
    have := T h
    show _ = System.texHold _ h
    rw [A1 h, R1 h]
    omega
  · intro h hpos
    have := T h
    show ¬ d3d12ResAllocator.allocatable _ h
    rw [A2 h]
    exact R2 h (by omega)
  · intro e he
    show ¬ d3d12ResAllocator.allocatable _ e.2
    rw [A2]
    have he' : e ∈ ((s.renderer.releaseAll s.renderer.frameIndex
      tex.heldResources).releaseSlots (tex.heldSlots s.renderer)).resAllocator.releaseQueue := he
    rw [A3] at he'
    rcases List.mem_append.mp he' with he' | he'
    · exact R3 e he'
    · obtain ⟨h, hh, rfl⟩ := List.mem_map.mp he'
      exact R2 h (texHold_pos_of_lookup s id tex h hget hh)
  · intro x
    rw [U x]
    exact S1 x
  · intro x hpos
    rw [U x] at hpos
    show 0 ≤ x.2 ∧ ¬ d3d12DescAllocator.allocatable _ x.1 x.2.toNat
    rw [B2]
    exact S2 x hpos

theorem Inv_beginFrame (s : System) (hinv : s.Inv) :
    System.Inv { s with
      renderer := { s.renderer with frameIndex := s.renderer.frameIndex + 1 } } :=
  hinv

theorem Inv_init (firstHandle rtvHeap dsvHeap frameIndex : Nat) (display : displayMgr) :
    (System.init firstHandle rtvHeap dsvHeap frameIndex display).Inv := by
  refine ⟨fun _ => rfl, ?_, ?_, ⟨List.nodup_nil, ?_⟩, ?_, ?_, ?_⟩
  · intro h hpos
    exact absurd hpos (Nat.lt_irrefl 0)
  · intro e he; cases he
  · intro h hh; cases hh
  · intro x
    exact Nat.zero_le 1
  · intro x hpos
    exact absurd hpos (Nat.lt_irrefl 0)
  · intro heap
    refine ⟨List.nodup_nil, ?_⟩
    intro n hn; cases hn

theorem countP_filter_split {α : Type} (l : List α) (p p' q : α → Bool)
    (hp : ∀ a, p' a = !p a) :
    l.countP q = (l.filter p).countP q + (l.filter p').countP q := by
  induction l with
  | nil => rfl
  | cons a t ih =>
    simp only [List.countP_cons, List.filter_cons, hp a]
    cases hpa : p a <;> cases hqa : q a <;> simp [List.countP_cons, hqa, ih] <;> omega

theorem nodup_of_countP_le_one {α : Type} [DecidableEq α] (l : List α)
    (h : ∀ x, l.countP (fun y => decide (y = x)) ≤ 1) : l.Nodup := by
  induction l with
  | nil => exact List.nodup_nil
  | cons a t ih =>
    refine List.nodup_cons.mpr ⟨?_, ih ?_⟩
    · intro ha
      have h1 := h a
      rw [List.countP_cons] at h1
      have h2 : 0 < t.countP (fun y => decide (y = a)) := by
        rw [List.countP_pos_iff]
        exact ⟨a, ha, by simp⟩
      rw [decide_eq_true (rfl : a = a), if_pos rfl] at h1
      omega
    · intro x
      have h1 := h x
      rw [List.countP_cons] at h1
      omega

theorem Inv_retire (s : System) (hinv : s.Inv) :
    System.Inv { s with
      completedFrame := s.completedFrame + 1
      renderer := { s.renderer with
        resAllocator := s.renderer.resAllocator.GarbageCollect (s.completedFrame + 1)
        descAllocator := s.renderer.descAllocator.GarbageCollect (s.completedFrame + 1) } } := by
  obtain ⟨R1, R2, R3, R4, S1, S2, S4⟩ := hinv
  -- resources that are freed had a pending release, no reference and no later release
  have hfreed : ∀ h, h ∈ (s.renderer.resAllocator.GarbageCollect (s.completedFrame + 1)).freeList →
      h ∈ s.renderer.resAllocator.freeList ∨
      ((∃ e ∈ s.renderer.resAllocator.releaseQueue, e.2 = h) ∧
        s.renderer.resAllocator.refCount h = 0 ∧
        ∀ e ∈ (s.renderer.resAllocator.GarbageCollect (s.completedFrame + 1)).releaseQueue,
          e.2 ≠ h) := by
    intro h hh
    simp only [d3d12ResAllocator.GarbageCollect, List.mem_append, List.mem_filter,
      List.mem_dedup, List.mem_map, Bool.and_eq_true, decide_eq_true_eq] at hh
    rcases hh with hh | ⟨⟨e, ⟨he, _⟩, rfl⟩, h0, hrest⟩
    · exact Or.inl hh
    · refine Or.inr ⟨⟨e, he, rfl⟩, h0, ?_⟩
      intro e' he' hc
      apply hrest
      simp only [d3d12ResAllocator.GarbageCollect, List.mem_filter,
        decide_eq_true_eq] at he'
      exact ⟨e', ⟨he'.1, he'.2⟩, hc⟩
  have hnext : (s.renderer.resAllocator.GarbageCollect (s.completedFrame + 1)).nextHandle
      = s.renderer.resAllocator.nextHandle := rfl
  have hrestq : ∀ e ∈ (s.renderer.resAllocator.GarbageCollect
      (s.completedFrame + 1)).releaseQueue, e ∈ s.renderer.resAllocator.releaseQueue := by
    intro e he
    simp only [d3d12ResAllocator.GarbageCollect, List.mem_filter] at he
    exact he.1
  -- descriptor slots
  have hq : ∀ x, (s.renderer.descAllocator.releaseQueue.map
      (fun e => (e.1, e.2.2))).countP (fun y => decide (y = x))
      = ((s.renderer.descAllocator.releaseQueue.filter
          (fun e => decide (s.completedFrame + 1 < e.2.1))).map
          (fun e => (e.1, e.2.2))).countP (fun y => decide (y = x))
        + ((s.renderer.descAllocator.releaseQueue.filter
          (fun e => decide (e.2.1 ≤ s.completedFrame + 1))).map
          (fun e => (e.1, e.2.2))).countP (fun y => decide (y = x)) := by
    intro x
    rw [List.countP_map, List.countP_map, List.countP_map]
    exact countP_filter_split _ _ _ _ (fun a => by
      by_cases h : s.completedFrame + 1 < a.2.1
      · have h' : ¬ a.2.1 ≤ s.completedFrame + 1 := by omega
        simp [h, h']
      · have h' : a.2.1 ≤ s.completedFrame + 1 := by omega
        simp [h, h'])
  have U : ∀ x, System.slotHold { s with
      completedFrame := s.completedFrame + 1
      renderer := { s.renderer with
        resAllocator := s.renderer.resAllocator.GarbageCollect (s.completedFrame + 1)
        descAllocator := s.renderer.descAllocator.GarbageCollect (s.completedFrame + 1) } } x
      + ((s.renderer.descAllocator.releaseQueue.filter
          (fun e => decide (e.2.1 ≤ s.completedFrame + 1))).map
          (fun e => (e.1, e.2.2))).countP (fun y => decide (y = x))
      = s.slotHold x := by
    intro x
    have := hq x
    simp only [System.slotHold, d3d12DescAllocator.GarbageCollect]
    omega
  have hpend : ∀ e ∈ s.renderer.descAllocator.releaseQueue, 0 < s.slotHold (e.1, e.2.2) := by
    intro e he
    have : 0 < (s.renderer.descAllocator.releaseQueue.map
        (fun e => (e.1, e.2.2))).countP (fun y => decide (y = (e.1, e.2.2))) := by
      rw [List.countP_pos_iff]
      exact ⟨_, List.mem_map.mpr ⟨e, he, rfl⟩, by simp⟩
    unfold System.slotHold
    omega
  have hadded : ∀ heap n, n ∈ (s.renderer.descAllocator.GarbageCollect
      (s.completedFrame + 1)).freeSlots heap →
      n ∈ s.renderer.descAllocator.freeSlots heap ∨
      ∃ e ∈ s.renderer.descAllocator.releaseQueue, e.2.1 ≤ s.completedFrame + 1 ∧ e.1 = heap ∧
        e.2.2.toNat = n := by
    intro heap n hn
    simp only [d3d12DescAllocator.GarbageCollect, List.mem_append, List.mem_map,
      List.mem_filter, Bool.and_eq_true, decide_eq_true_eq] at hn
    rcases hn with hn | ⟨e, ⟨he, h1, h2⟩, h3⟩
    · exact Or.inl hn
    · exact Or.inr ⟨e, he, h1, h2, h3⟩
  have hduepos : ∀ e ∈ s.renderer.descAllocator.releaseQueue, e.2.1 ≤ s.completedFrame + 1 →
      0 < ((s.renderer.descAllocator.releaseQueue.filter
          (fun e => decide (e.2.1 ≤ s.completedFrame + 1))).map
          (fun e => (e.1, e.2.2))).countP (fun y => decide (y = (e.1, e.2.2))) := by
    intro e he h1
    rw [List.countP_pos_iff]
    exact ⟨_, List.mem_map.mpr ⟨e, List.mem_filter.mpr ⟨he, by simpa using h1⟩, rfl⟩,
      by simp⟩
  have hpairs : (s.renderer.descAllocator.releaseQueue.map (fun e => (e.1, e.2.2))).Nodup := by
    apply nodup_of_countP_le_one
    intro x
    have := S1 x
    unfold System.slotHold at this
    omega
  refine ⟨R1, ?_, ?_, ⟨?_, ?_⟩, ?_, ?_, ?_⟩
  · intro h hpos hall
    have hpos' : 0 < s.texHold h := hpos
    rcases hall with hall | hall
    · rcases hfreed h hall with h1 | ⟨_, h0, _⟩
      · exact R2 h hpos' (Or.inl h1)
      · rw [R1 h] at h0
        omega
    · exact R2 h hpos' (Or.inr hall)
  · intro e he hall
    have he' := hrestq e he
    rcases hall with hall | hall
    · rcases hfreed e.2 hall with h1 | ⟨_, _, hrest⟩
      · exact R3 e he' (Or.inl h1)
      · exact hrest e he rfl
    · exact R3 e he' (Or.inr hall)
  · show (s.renderer.resAllocator.freeList ++ _).Nodup
    refine List.Nodup.append R4.1 ((List.nodup_dedup _).filter _) ?_
    intro h h1 h2
    simp only [List.mem_filter, List.mem_dedup, List.mem_map] at h2
    obtain ⟨⟨e, he, rfl⟩, _⟩ := h2
    exact R3 e he.1 (Or.inl h1)
  · intro h hh
    rcases hfreed h hh with h1 | ⟨⟨e, he, rfl⟩, _, _⟩
    · exact R4.2 h h1
    · have := R3 e he
      unfold d3d12ResAllocator.allocatable at this
      show e.2 < s.renderer.resAllocator.nextHandle
      omega
  · intro x
    have := U x
    have := S1 x
    omega
  · intro x hpos
    have hu := U x
    have hpos' : 0 < s.slotHold x := by omega
    obtain ⟨h0, hna⟩ := S2 x hpos'
    refine ⟨h0, ?_⟩
    intro hall
    rcases hall with hall | hall
    · rcases hadded _ _ hall with h1 | ⟨e, he, h1, h2, h3⟩
      · exact hna (Or.inl h1)
      · have he0 := (S2 _ (hpend e he)).1
        have hx : (e.1, e.2.2) = x := by
          have h4 : e.2.2 = x.2 := by
            have h5 : (e.2.2.toNat : Int) = (x.2.toNat : Int) := by rw [h3]
            rw [Int.toNat_of_nonneg he0, Int.toNat_of_nonneg h0] at h5
            exact h5
          exact Prod.ext h2 h4
        have h6 := hduepos e he h1
        rw [hx] at h6
        have := S1 x
        omega
    · exact hna (Or.inr hall)
  · intro heap
    refine ⟨?_, ?_⟩
    · show (s.renderer.descAllocator.freeSlots heap ++ _).Nodup
      refine List.Nodup.append (S4 heap).1 ?_ ?_
      · refine List.Nodup.map_on ?_ ((List.Nodup.of_map _ hpairs).filter _)
        intro e1 he1 e2 he2 heq
        simp only [List.mem_filter, Bool.and_eq_true, decide_eq_true_eq] at he1 he2
        have h10 := (S2 _ (hpend e1 he1.1)).1
        have h20 := (S2 _ (hpend e2 he2.1)).1
        have h4 : e1.2.2 = e2.2.2 := by
          have h5 : (e1.2.2.toNat : Int) = (e2.2.2.toNat : Int) := by rw [heq]
          rw [Int.toNat_of_nonneg h10, Int.toNat_of_nonneg h20] at h5
          exact h5
        have hp : (fun e : Nat × Nat × Int => (e.1, e.2.2)) e1
            = (fun e : Nat × Nat × Int => (e.1, e.2.2)) e2 := by
          show (e1.1, e1.2.2) = (e2.1, e2.2.2)
          rw [h4, he1.2.2, he2.2.2]
        exact List.inj_on_of_nodup_map hpairs he1.1 he2.1 hp
      · intro n h1 h2
        simp only [List.mem_map, List.mem_filter, Bool.and_eq_true, decide_eq_true_eq] at h2
        obtain ⟨e, ⟨he, _, hheap⟩, rfl⟩ := h2
        have := (S2 _ (hpend e he)).2
        rw [hheap] at this
        exact this (Or.inl h1)
    · intro n hn
      rcases hadded heap n hn with h1 | ⟨e, he, _, h2, h3⟩
      · exact (S4 heap).2 n h1
      · have := (S2 _ (hpend e he)).2
        unfold d3d12DescAllocator.allocatable at this
        rw [h2, h3] at this
        show n < s.renderer.descAllocator.nextSlot heap
        omega

theorem Inv_step (tb : Tables) (s s' : System) (op : Op) (hinv : s.Inv)
    (hstep : s.step tb op = some s') : s'.Inv := by
  cases op with
  | setup setup =>
    simp only [System.step] at hstep
    split at hstep
    · rename_i c t f hok
      cases hstep
      exact Inv_create s f t hinv (SetupResource_summary tb s.factory setup c t f hok)
    · cases hstep
  | setupWithData setup data size =>
    simp only [System.step] at hstep
    split at hstep
    · rename_i c t f hok
      cases hstep
      exact Inv_create s f t hinv
        (SetupResourceWithData_summary tb s.factory setup data size c t f hok)
    · cases hstep
  | destroy id =>
    simp only [System.step] at hstep
    split at hstep
    · rename_i tex hget
      split at hstep
      · rename_i t f hok
        cases hstep
        exact Inv_destroy s id tex t f hinv hget hok
      · cases hstep
    · cases hstep
  | beginFrame =>
    simp only [System.step] at hstep
    cases hstep
    exact Inv_beginFrame s hinv
  | retireFrame =>
    simp only [System.step] at hstep
    split at hstep
    · cases hstep
      exact Inv_retire s hinv
    · cases hstep

theorem Inv_run (tb : Tables) (ops : List Op) (s s' : System) (hinv : s.Inv)
    (hrun : s.run tb ops = some s') : s'.Inv := by
  induction ops generalizing s with
  | nil =>
    simp only [System.run] at hrun
    cases hrun
    exact hinv
  | cons op ops ih =>
    simp only [System.run] at hrun
    split at hrun
    · rename_i s1 hstep
      exact ih s1 (Inv_step tb s s1 op hinv hstep) hrun
    · cases hrun

theorem CreationSummary_queues (f f' : d3d12TextureFactory) (t' : texture)
    (hsum : CreationSummary f f' t') :
    f'.pointers.renderer.resAllocator.releaseQueue
      = f.pointers.renderer.resAllocator.releaseQueue ∧
    f'.pointers.renderer.descAllocator.releaseQueue
      = f.pointers.renderer.descAllocator.releaseQueue := by
  obtain ⟨_, _, _, ⟨k, shared, _, hres, _⟩, ⟨heaps, _, _, hdesc⟩⟩ := hsum
  have hq : ∀ (k : Nat) (a : d3d12ResAllocator), (a.allocN k).2.releaseQueue = a.releaseQueue := by
    intro k
    induction k with
    | zero => intro a; rfl
    | succ k ih => intro a; exact ih a.Alloc.2
  have hs : ∀ (hs : List Nat) (d : d3d12DescAllocator),
      (d.allocSlots hs).2.releaseQueue = d.releaseQueue := by
    intro hs
    induction hs with
    | nil => intro d; rfl
    | cons h t ih => intro d; exact ih (d.AllocSlot h).2
  refine ⟨?_, ?_⟩
  · rw [hres]
    cases shared <;> exact hq k _
  · rw [hdesc]
    exact hs heaps _

/-- Along one operation the completed-frame counter does not decrease, and a pending release
stays pending unless the counter has reached its frame tag. -/
theorem step_pending (tb : Tables) (s s' : System) (op : Op)
    (hstep : s.step tb op = some s') :
    s.completedFrame ≤ s'.completedFrame ∧
    (∀ e ∈ s.renderer.resAllocator.releaseQueue,
      e ∈ s'.renderer.resAllocator.releaseQueue ∨ e.1 ≤ s'.completedFrame) ∧
    (∀ e ∈ s.renderer.descAllocator.releaseQueue,
      e ∈ s'.renderer.descAllocator.releaseQueue ∨ e.2.1 ≤ s'.completedFrame) := by
  cases op with
  | setup setup =>
    simp only [System.step] at hstep
    split at hstep
    · rename_i c t f hok
      cases hstep
      obtain ⟨h1, h2⟩ := CreationSummary_queues _ _ _
        (SetupResource_summary tb s.factory setup c t f hok)
      refine ⟨Nat.le_refl _, fun e he => Or.inl ?_, fun e he => Or.inl ?_⟩
      · show e ∈ f.pointers.renderer.resAllocator.releaseQueue
        rw [h1]; exact he
      · show e ∈ f.pointers.renderer.descAllocator.releaseQueue
        rw [h2]; exact he
    · cases hstep
  | setupWithData setup data size =>
    simp only [System.step] at hstep
    split at hstep
    · rename_i c t f hok
      cases hstep
      obtain ⟨h1, h2⟩ := CreationSummary_queues _ _ _
        (SetupResourceWithData_summary tb s.factory setup data size c t f hok)
      refine ⟨Nat.le_refl _, fun e he => Or.inl ?_, fun e he => Or.inl ?_⟩
      · show e ∈ f.pointers.renderer.resAllocator.releaseQueue
        rw [h1]; exact he
      · show e ∈ f.pointers.renderer.descAllocator.releaseQueue
        rw [h2]; exact he
    · cases hstep
  | destroy id =>
    simp only [System.step] at hstep
    split at hstep
    · rename_i tex hget
      split at hstep
      · rename_i t f hok
        cases hstep
        obtain ⟨f', hd, hq, _, _, hdq, _⟩ := DestroyResource_effect s.factory tex rfl
        rw [hd] at hok
        cases hok
        refine ⟨Nat.le_refl _, fun e he => Or.inl ?_, fun e he => Or.inl ?_⟩
        · show e ∈ f.pointers.renderer.resAllocator.releaseQueue
          rw [hq]; exact List.mem_append_left _ he
        · show e ∈ f.pointers.renderer.descAllocator.releaseQueue
          rw [hdq]; exact List.mem_append_left _ he
      · cases hstep
    · cases hstep
  | beginFrame =>
    simp only [System.step] at hstep
    cases hstep
    exact ⟨Nat.le_refl _, fun e he => Or.inl he, fun e he => Or.inl he⟩
  | retireFrame =>
    simp only [System.step] at hstep
    split at hstep
    · cases hstep
      refine ⟨Nat.le_succ _, fun e he => ?_, fun e he => ?_⟩
      · by_cases h : s.completedFrame + 1 < e.1
        · left
          show e ∈ (s.renderer.resAllocator.GarbageCollect (s.completedFrame + 1)).releaseQueue
          simp only [d3d12ResAllocator.GarbageCollect, List.mem_filter, decide_eq_true_eq]
          exact ⟨he, h⟩
        · right
          show e.1 ≤ s.completedFrame + 1
          omega
      · by_cases h : s.completedFrame + 1 < e.2.1
        · left
          show e ∈ (s.renderer.descAllocator.GarbageCollect (s.completedFrame + 1)).releaseQueue
          simp only [d3d12DescAllocator.GarbageCollect, List.mem_filter, decide_eq_true_eq]
          exact ⟨he, h⟩
        · right
          show e.2.1 ≤ s.completedFrame + 1
          omega
    · cases hstep

theorem run_pending (tb : Tables) (ops : List Op) (s s' : System)
    (hrun : s.run tb ops = some s') :
    s.completedFrame ≤ s'.completedFrame ∧
    (∀ e ∈ s.renderer.resAllocator.releaseQueue,
      e ∈ s'.renderer.resAllocator.releaseQueue ∨ e.1 ≤ s'.completedFrame) ∧
    (∀ e ∈ s.renderer.descAllocator.releaseQueue,
      e ∈ s'.renderer.descAllocator.releaseQueue ∨ e.2.1 ≤ s'.completedFrame) := by
  induction ops generalizing s with
  | nil =>
    simp only [System.run] at hrun
    cases hrun
    exact ⟨Nat.le_refl _, fun e he => Or.inl he, fun e he => Or.inl he⟩
  | cons op ops ih =>
    simp only [System.run] at hrun
    split at hrun
    · rename_i s1 hstep
      obtain ⟨a1, a2, a3⟩ := step_pending tb s s1 op hstep
      obtain ⟨b1, b2, b3⟩ := ih s1 hrun
      refine ⟨Nat.le_trans a1 b1, fun e he => ?_, fun e he => ?_⟩
      · rcases a2 e he with h | h
        · exact b2 e h
        · exact Or.inr (Nat.le_trans h b1)
      · rcases a3 e he with h | h
        · exact b3 e h
        · exact Or.inr (Nat.le_trans h b1)
    · cases hrun

/-! ## Deferred release over the frame pipeline (C4) -/

theorem mem_heldSlots_of_mem_slotsOf (tex : texture) (r : renderer) (x : Nat × Int)
    (hx : x ∈ tex.slotsOf r.rtvHeap r.dsvHeap) : (x.1, r.frameIndex, x.2) ∈ tex.heldSlots r := by
  unfold texture.slotsOf at hx
  unfold texture.heldSlots
  rcases List.mem_append.mp hx with h | h
  · apply List.mem_append_left
    split at h
    · rename_i hc
      rw [if_pos hc]
      rw [List.mem_singleton] at h
      subst h
      exact List.mem_singleton.mpr rfl
    · cases h
  · apply List.mem_append_right
    split at h
    · rename_i hc
      rw [if_pos hc]
      rw [List.mem_singleton] at h
      subst h
      exact List.mem_singleton.mpr rfl
    · cases h

theorem slotHold_pos_of_pending (s : System) (e : Nat × Nat × Int)
    (he : e ∈ s.renderer.descAllocator.releaseQueue) : 0 < s.slotHold (e.1, e.2.2) := by
  have h1 : (e.1, e.2.2) ∈ s.renderer.descAllocator.releaseQueue.map (fun e => (e.1, e.2.2)) :=
    List.mem_map.mpr ⟨e, he, rfl⟩
  have h2 : 0 < (s.renderer.descAllocator.releaseQueue.map (fun e => (e.1, e.2.2))).countP
      (fun y => decide (y = (e.1, e.2.2))) :=
    List.countP_pos_iff.mpr ⟨_, h1, decide_eq_true rfl⟩
  unfold System.slotHold
  omega

/-- What a creation call on a system's factory can hand out: a resource the new texture holds is
either allocatable before the call, or a resource that a texture of the pool holds; a descriptor
slot the new texture holds is allocatable before the call. -/
theorem creation_hands_out (s : System) (f' : d3d12TextureFactory) (t' : texture)
    (hinv : s.Inv) (hsum : CreationSummary s.factory f' t') :
    (∀ h ∈ t'.heldResources, s.renderer.resAllocator.allocatable h ∨ 0 < s.texHold h) ∧
    (∀ x ∈ t'.slotsOf s.renderer.rtvHeap s.renderer.dsvHeap,
      s.renderer.descAllocator.allocatable x.1 x.2.toNat) := by
  obtain ⟨_, _, _, hwf, _, _, hdwf⟩ := hinv
  obtain ⟨_, _, _, ⟨k, shared, hheld, _, hshared⟩, ⟨heaps, _, hslots, _⟩⟩ := hsum
  refine ⟨?_, ?_⟩
  · intro h hh
    rw [hheld] at hh
    rcases List.mem_append.mp hh with h1 | h1
    · left
      exact ((allocN_spec k _ hwf).2.1 h h1).1
    · right
      cases shared with
      | none => cases h1
      | some d =>
        have hd : h = d := by simpa using h1
        subst hd
        obtain ⟨id, q, hq, hdq⟩ := hshared h rfl
        exact texHold_pos_of_lookup s id q h hq hdq
  · intro x hx
    have hx' : x ∈ (s.renderer.descAllocator.allocSlots heaps).1 := hslots ▸ hx
    exact ((allocSlots_spec heaps _ hdwf).2.1 x hx').2.2.1

/-- C4: on every system reachable from start-up, when `DestroyResource` on a texture of the pool
releases the texture's resources and descriptor slots at frame index `F`, then in every later
state whose completed-frame counter is still below `F` each of these releases is still pending,
the resource or slot is not in a free list and cannot be handed out by the next allocations, and
no creation call (`SetupResource`, with or without data) in that state gives it to a new texture,
except for a resource that a texture of the pool still holds (a shared depth buffer, the same
logical resource). -/
theorem deferred_release_not_reused (tb : Tables) (firstHandle rtvHeap dsvHeap frameIndex : Nat)
    (display : displayMgr) (ops1 ops2 : List Op) (s0 s1 s2 : System) (id : Nat) (tex : texture)
    (hreach : (System.init firstHandle rtvHeap dsvHeap frameIndex display).run tb ops1 = some s0)
    (hget : s0.textures[id]? = some tex)
    (hdestroy : s0.step tb (Op.destroy id) = some s1)
    (hlater : s1.run tb ops2 = some s2)
    (hnot : s2.completedFrame < s0.renderer.frameIndex) :
    (∀ h ∈ tex.heldResources,
      (s0.renderer.frameIndex, h) ∈ s2.renderer.resAllocator.releaseQueue ∧
      h ∉ s2.renderer.resAllocator.freeList ∧
      ¬ s2.renderer.resAllocator.allocatable h ∧
      (∀ setup c t' f', SetupResource tb s2.factory (texture.empty setup) = Except.ok (c, t', f') →
        h ∈ t'.heldResources → 0 < s2.texHold h) ∧
      (∀ setup data size c t' f',
        SetupResourceWithData tb s2.factory (texture.empty setup) data size
          = Except.ok (c, t', f') →
        h ∈ t'.heldResources → 0 < s2.texHold h)) ∧
    (∀ x ∈ tex.slotsOf s0.renderer.rtvHeap s0.renderer.dsvHeap,
      (x.1, s0.renderer.frameIndex, x.2) ∈ s2.renderer.descAllocator.releaseQueue ∧
      x.2.toNat ∉ s2.renderer.descAllocator.freeSlots x.1 ∧
      ¬ s2.renderer.descAllocator.allocatable x.1 x.2.toNat ∧
      (∀ setup c t' f', SetupResource tb s2.factory (texture.empty setup) = Except.ok (c, t', f') →
        x ∉ t'.slotsOf s2.renderer.rtvHeap s2.renderer.dsvHeap) ∧
      (∀ setup data size c t' f',
        SetupResourceWithData tb s2.factory (texture.empty setup) data size
          = Except.ok (c, t', f') →
        x ∉ t'.slotsOf s2.renderer.rtvHeap s2.renderer.dsvHeap)) := by
  have hinv0 : s0.Inv := Inv_run tb ops1 _ s0 (Inv_init _ _ _ _ _) hreach
  have hinv1 : s1.Inv := Inv_step tb s0 s1 _ hinv0 hdestroy
  have hinv2 : s2.Inv := Inv_run tb ops2 s1 s2 hinv1 hlater
  obtain ⟨_, hq2, hd2⟩ := run_pending tb ops2 s1 s2 hlater
  -- the releases are queued by the destroy step
  have hqueued : (∀ h ∈ tex.heldResources,
        (s0.renderer.frameIndex, h) ∈ s1.renderer.resAllocator.releaseQueue) ∧
      (∀ x ∈ tex.slotsOf s0.renderer.rtvHeap s0.renderer.dsvHeap,
        (x.1, s0.renderer.frameIndex, x.2) ∈ s1.renderer.descAllocator.releaseQueue) := by
    simp only [System.step, hget] at hdestroy
    obtain ⟨f', hd, hq, _, _, hdq, _⟩ := DestroyResource_effect s0.factory tex rfl
    rw [hd] at hdestroy
    cases hdestroy
    refine ⟨fun h hh => ?_, fun x hx => ?_⟩
    · show _ ∈ f'.pointers.renderer.resAllocator.releaseQueue
      rw [hq]
      exact List.mem_append_right _ (List.mem_map.mpr ⟨h, hh, rfl⟩)
    · show _ ∈ f'.pointers.renderer.descAllocator.releaseQueue
      rw [hdq]
      exact List.mem_append_right _ (mem_heldSlots_of_mem_slotsOf tex s0.renderer x hx)
  refine ⟨fun h hh => ?_, fun x hx => ?_⟩
  · have hpend : (s0.renderer.frameIndex, h) ∈ s2.renderer.resAllocator.releaseQueue := by
      rcases hq2 _ (hqueued.1 h hh) with hp | hp
      · exact hp
      · exact absurd hp (Nat.not_le.mpr hnot)
    have hna : ¬ s2.renderer.resAllocator.allocatable h := hinv2.2.2.1 _ hpend
    refine ⟨hpend, fun hf => hna (Or.inl hf), hna, ?_, ?_⟩
    · intro setup c t' f' hok hmem
      rcases (creation_hands_out s2 f' t' hinv2
        (SetupResource_summary tb s2.factory setup c t' f' hok)).1 h hmem with ha | ha
      · exact absurd ha hna
      · exact ha
    · intro setup data size c t' f' hok hmem
      rcases (creation_hands_out s2 f' t' hinv2
        (SetupResourceWithData_summary tb s2.factory setup data size c t' f' hok)).1 h hmem
        with ha | ha
      · exact absurd ha hna
      · exact ha
  · have hpend : (x.1, s0.renderer.frameIndex, x.2) ∈ s2.renderer.descAllocator.releaseQueue := by
      rcases hd2 _ (hqueued.2 x hx) with hp | hp
      · exact hp
      · exact absurd hp (Nat.not_le.mpr hnot)
    have hna : ¬ s2.renderer.descAllocator.allocatable x.1 x.2.toNat :=
      (hinv2.2.2.2.2.2.1 x (slotHold_pos_of_pending s2 _ hpend)).2
    refine ⟨hpend, fun hf => hna (Or.inl hf), hna, ?_, ?_⟩
    · intro setup c t' f' hok hmem
      exact hna ((creation_hands_out s2 f' t' hinv2
        (SetupResource_summary tb s2.factory setup c t' f' hok)).2 x hmem)
    · intro setup data size c t' f' hok hmem
      exact hna ((creation_hands_out s2 f' t' hinv2
        (SetupResourceWithData_summary tb s2.factory setup data size c t' f' hok)).2 x hmem)

/-- C4 at a concrete run: render target A (colour buffer 1, depth buffer 2, RTV slot 0, DSV slot
0) is set up and destroyed at frame 5; two frames later, with completed-frame counter 1, both
resources and both slots are still pending and cannot be handed out. -/
theorem deferred_release_not_reused_witness :
    exSystemA.renderer.frameIndex = 5 ∧ exSystemLater.completedFrame = 1 ∧
    exSystemTexA.heldResources = [1, 2] ∧
    exSystemTexA.slotsOf 1 2 = [(1, 0), (2, 0)] ∧
    (5, 1) ∈ exSystemLater.renderer.resAllocator.releaseQueue ∧
    ¬ exSystemLater.renderer.resAllocator.allocatable 1 ∧
    (5, 2) ∈ exSystemLater.renderer.resAllocator.releaseQueue ∧
    ¬ exSystemLater.renderer.resAllocator.allocatable 2 ∧
    (1, 5, 0) ∈ exSystemLater.renderer.descAllocator.releaseQueue ∧
    ¬ exSystemLater.renderer.descAllocator.allocatable 1 0 ∧
    (2, 5, 0) ∈ exSystemLater.renderer.descAllocator.releaseQueue ∧
    ¬ exSystemLater.renderer.descAllocator.allocatable 2 0 := by
  have h := deferred_release_not_reused exTables 1 1 2 5 exFactory.pointers.displayMgr
    [Op.setup exSetupDepthA] [Op.beginFrame, Op.beginFrame, Op.retireFrame]
    exSystemA exSystemDestroyed exSystemLater 0 exSystemTexA rfl rfl rfl rfl (by decide)
  have hres : exSystemTexA.heldResources = [1, 2] := by decide
  have hslots : exSystemTexA.slotsOf 1 2 = [(1, 0), (2, 0)] := by decide
  have r1 := h.1 1 (by rw [hres]; decide)
  have r2 := h.1 2 (by rw [hres]; decide)
  have s1 := h.2 (1, 0) (by show _ ∈ exSystemTexA.slotsOf 1 2; rw [hslots]; decide)
  have s2 := h.2 (2, 0) (by show _ ∈ exSystemTexA.slotsOf 1 2; rw [hslots]; decide)
  exact ⟨rfl, rfl, hres, hslots, r1.1, r1.2.2.1, r2.1, r2.2.2.1, s1.1, s1.2.2.1, s2.1, s2.2.2.1⟩

/-! ## Descriptor slots of a created texture (C11) -/

theorem createFromPixelData_slots (tb : Tables) (f : d3d12TextureFactory) (tex : texture)
    (data : Option Nat) (size : Int) (c : ResourceState) (t' : texture)
    (f' : d3d12TextureFactory)
    (hok : createFromPixelData tb f tex data size = Except.ok (c, t', f')) :
    t'.rtvDescriptorSlot = tex.rtvDescriptorSlot ∧
    t'.dsvDescriptorSlot = tex.dsvDescriptorSlot ∧
    f'.pointers.renderer.descAllocator = f.pointers.renderer.descAllocator := by
  obtain ⟨h1, h2, h3, h4, h5, h6⟩ := createFromPixelData_pre_of_ok tb f tex data size _ hok
  have h4' : size > 0 := h4
  have h5' : tex.Setup.NumMipMaps > 0 := h5
  simp only [createFromPixelData, o_assert_dbg_bind, h1, h2, h3, h4', h5', h6, Option.isNone_none,
    decide_True, if_true] at hok
  split at hok
  · cases hok
    exact ⟨rfl, rfl, rfl⟩
  · split at hok
    · cases hok
      exact ⟨rfl, rfl, rfl⟩
    · cases hok
      exact ⟨rfl, rfl, rfl⟩

/-- C11: for every texture a creation path produces from an empty entity: after
`createEmptyTexture` and after `createFromPixelData` both descriptor slots are `InvalidIndex`;
after `createRenderTarget` the calls made are the colour allocation, `AllocSlot` on the RTV heap
and then `CreateRenderTargetView` in the slot it returned, which is `rtvDescriptorSlot`; without
`HasDepth` nothing follows and `dsvDescriptorSlot` is `InvalidIndex`; with `HasDepth` there follow
the depth step (`AddRef` of the shared buffer, or the allocation of a new one), `AllocSlot` on the
DSV heap and then `CreateDepthStencilView` in the slot it returned, which is
`dsvDescriptorSlot`. -/
theorem descriptorSlots_of_created (tb : Tables) (f : d3d12TextureFactory)
    (setup : TextureSetup) :
    (∀ c t' f', createEmptyTexture tb f (texture.empty setup) = Except.ok (c, t', f') →
      t'.rtvDescriptorSlot = InvalidIndex ∧ t'.dsvDescriptorSlot = InvalidIndex) ∧
    (∀ data size c t' f',
      createFromPixelData tb f (texture.empty setup) data size = Except.ok (c, t', f') →
      t'.rtvDescriptorSlot = InvalidIndex ∧ t'.dsvDescriptorSlot = InvalidIndex) ∧
    (∀ c t' f', createRenderTarget tb f (texture.empty setup) = Except.ok (c, t', f') →
      ∃ w h c0 dc,
        f'.pointers.renderer.calls = f.pointers.renderer.calls ++
          [Call.AllocRenderTarget w h setup.ColorFormat setup.ClearHint 1 c0,
           Call.AllocSlot f.pointers.renderer.rtvHeap
             (f.pointers.renderer.descAllocator.AllocSlot f.pointers.renderer.rtvHeap).1,
           Call.CreateRenderTargetView (some c0) f.pointers.renderer.rtvHeap
             t'.rtvDescriptorSlot] ++ dc ∧
        t'.rtvDescriptorSlot =
          ((f.pointers.renderer.descAllocator.AllocSlot f.pointers.renderer.rtvHeap).1 : Int) ∧
        t'.rtvDescriptorSlot ≠ InvalidIndex ∧
        (setup.HasDepth = false → dc = [] ∧ t'.dsvDescriptorSlot = InvalidIndex) ∧
        (setup.HasDepth = true → ∃ first d,
          dc = [first,
                Call.AllocSlot f.pointers.renderer.dsvHeap
                  ((f.pointers.renderer.descAllocator.AllocSlot
                    f.pointers.renderer.rtvHeap).2.AllocSlot f.pointers.renderer.dsvHeap).1,
                Call.CreateDepthStencilView (some d) f.pointers.renderer.dsvHeap
                  t'.dsvDescriptorSlot] ∧
          t'.dsvDescriptorSlot =
            (((f.pointers.renderer.descAllocator.AllocSlot
              f.pointers.renderer.rtvHeap).2.AllocSlot f.pointers.renderer.dsvHeap).1 : Int) ∧
          t'.dsvDescriptorSlot ≠ InvalidIndex ∧
          t'.d3d12DepthBufferRes = some d ∧
          (setup.HasSharedDepth = true → first = Call.AddRef d) ∧
          (setup.HasSharedDepth = false →
            first = Call.AllocRenderTarget w h setup.DepthFormat setup.ClearHint 1 d))) := by
  refine ⟨?_, ?_, ?_⟩
  · intro c t' f' hok
    obtain ⟨_, _, _, _, _, _, _, h8, h9⟩ := createEmptyTexture_frame tb f _ c t' f' hok
    exact ⟨h8, h9⟩
  · intro data size c t' f' hok
    obtain ⟨h1, h2, _⟩ := createFromPixelData_slots tb f _ data size c t' f' hok
    exact ⟨h1, h2⟩
  · intro c t' f' hok
    obtain ⟨_, w, h, p, t, r, hres, _, _, hstep, hx⟩ := createRenderTarget_ok tb f _ _ hok
    have hset : (texture.empty setup).Setup = setup := rfl
    rw [hset] at hstep hres
    clear hok
    cases hd : setup.HasDepth
    · rw [hd] at hstep
      simp only [Bool.false_eq_true, if_false] at hstep
      cases hstep
      cases hx
      refine ⟨w, h, f.pointers.renderer.resAllocator.Alloc.1, [], ?_, rfl, ?_, ?_, ?_⟩
      · show f.pointers.renderer.calls ++ [_] ++ [_] ++ [_] = _
        simp only [List.append_assoc, List.cons_append, List.nil_append, List.append_nil]
        rfl
      · exact (InvalidIndex_ne_natCast _).symm
      · intro _
        exact ⟨rfl, rfl⟩
      · intro hc
        cases hc
    · rw [hd] at hstep
      simp only [if_true] at hstep
      cases hs : setup.HasSharedDepth
      · rw [createDepthBuffer_own _ _ _ _ _ _ hs] at hstep
        cases hstep
        cases hx
        refine ⟨w, h, f.pointers.renderer.resAllocator.Alloc.1,
          [Call.AllocRenderTarget w h setup.DepthFormat setup.ClearHint 1
             f.pointers.renderer.resAllocator.Alloc.2.Alloc.1,
           Call.AllocSlot f.pointers.renderer.dsvHeap
             ((f.pointers.renderer.descAllocator.AllocSlot
               f.pointers.renderer.rtvHeap).2.AllocSlot f.pointers.renderer.dsvHeap).1,
           Call.CreateDepthStencilView (some f.pointers.renderer.resAllocator.Alloc.2.Alloc.1)
             f.pointers.renderer.dsvHeap
             (((f.pointers.renderer.descAllocator.AllocSlot
               f.pointers.renderer.rtvHeap).2.AllocSlot f.pointers.renderer.dsvHeap).1 : Int)],
          ?_, rfl, ?_, ?_, ?_⟩
        · show f.pointers.renderer.calls ++ [_] ++ [_] ++ [_] ++ [_] ++ [_] ++ [_] = _
          simp only [List.append_assoc, List.cons_append, List.nil_append, List.append_nil]
          rfl
        · exact (InvalidIndex_ne_natCast _).symm
        · intro hc
          cases hc
        · intro _
          refine ⟨_, f.pointers.renderer.resAllocator.Alloc.2.Alloc.1, rfl, rfl, ?_, rfl, ?_, ?_⟩
          · exact (InvalidIndex_ne_natCast _).symm
          · intro hc
            cases hc
          · intro _
            rfl
      · cases p with
        | none => rw [createDepthBuffer_null _ _ _ _ _ hs] at hstep; cases hstep
        | some q =>
          cases hq : q.d3d12DepthBufferRes with
          | none =>
            simp only [createDepthBuffer, hs, hq, if_true, bind, Except.bind] at hstep
            cases hstep
          | some d =>
            rw [createDepthBuffer_shared _ _ _ _ _ _ _ hs hq] at hstep
            cases hstep
            cases hx
            refine ⟨w, h, f.pointers.renderer.resAllocator.Alloc.1,
              [Call.AddRef d,
               Call.AllocSlot f.pointers.renderer.dsvHeap
                 ((f.pointers.renderer.descAllocator.AllocSlot
                   f.pointers.renderer.rtvHeap).2.AllocSlot f.pointers.renderer.dsvHeap).1,
               Call.CreateDepthStencilView (some d) f.pointers.renderer.dsvHeap
                 (((f.pointers.renderer.descAllocator.AllocSlot
                   f.pointers.renderer.rtvHeap).2.AllocSlot f.pointers.renderer.dsvHeap).1
                   : Int)],
              ?_, rfl, ?_, ?_, ?_⟩
            · show f.pointers.renderer.calls ++ [_] ++ [_] ++ [_] ++ [_] ++ [_] ++ [_] = _
              simp only [List.append_assoc, List.cons_append, List.nil_append, List.append_nil]
              rfl
            · exact (InvalidIndex_ne_natCast _).symm
            · intro hc
              cases hc
            · intro _
              refine ⟨_, d, rfl, rfl, ?_, rfl, ?_, ?_⟩
              · exact (InvalidIndex_ne_natCast _).symm
              · intro _
                rfl
              · intro hc
                cases hc

/-- C11 at a concrete input: the render target A with its own depth buffer, created on the fresh
example factory, has RTV slot 0 and DSV slot 0, each allocated right before its view is created;
the streamed texture has no descriptor slot. -/
theorem descriptorSlots_of_created_witness :
    createRenderTarget exTables exFactory (texture.empty exSetupDepthA)
      = Except.ok (ResourceState.Valid, exTexA, exFactoryAfterA) ∧
    exFactoryAfterA.pointers.renderer.calls =
      [Call.AllocRenderTarget 256 128 1 0 1 1, Call.AllocSlot 1 0,
       Call.CreateRenderTargetView (some 1) 1 0,
       Call.AllocRenderTarget 256 128 9 0 1 2, Call.AllocSlot 2 0,
       Call.CreateDepthStencilView (some 2) 2 0] ∧
    exTexA.rtvDescriptorSlot = 0 ∧ exTexA.dsvDescriptorSlot = 0 ∧
    exTexA.rtvDescriptorSlot ≠ InvalidIndex ∧ exTexA.dsvDescriptorSlot ≠ InvalidIndex := by
  have hrun : createRenderTarget exTables exFactory (texture.empty exSetupDepthA)
      = Except.ok (ResourceState.Valid, exTexA, exFactoryAfterA) := rfl
  obtain ⟨_, _, _, _, _, _, h3, _, h5⟩ :=
    (descriptorSlots_of_created exTables exFactory exSetupDepthA).2.2 _ _ _ hrun
  obtain ⟨_, _, _, _, h6, _⟩ := h5 rfl
  exact ⟨hrun, by decide, by decide, by decide, h3, h6⟩

/-! ## Framebuffer size in the UWP code path (C12) -/

/-- C12: when the four values `updateFramebufferSize` of the UWP code path converts to `int` are
values of `int` (beyond that the conversion is undefined), the call leaves `FramebufferWidth` with
the pixel value derived from the logical height (the value derived from the logical width,
assigned first, is overwritten), leaves `FramebufferHeight` as it was, sets `WindowWidth` and
`WindowHeight` to the truncated logical width and height, and does not touch the setup. -/
theorem updateFramebufferSize_effect (this : d3d11DisplayMgr) (dispInfo : DisplayInformation)
    (win : CoreWindow)
    (hW : inIntRange (F32.trunc win.Bounds.Width))
    (hH : inIntRange (F32.trunc win.Bounds.Height))
    (hPW : inIntRange (F32.trunc (dipsToPixels win.Bounds.Width
      (effectiveDpi this.gfxSetup dispInfo.LogicalDpi))))
    (hPH : inIntRange (F32.trunc (dipsToPixels win.Bounds.Height
      (effectiveDpi this.gfxSetup dispInfo.LogicalDpi)))) :
    ∃ this', this.updateFramebufferSize dispInfo win = Except.ok this' ∧
      this'.displayAttrs.FramebufferWidth
        = F32.trunc (dipsToPixels win.Bounds.Height
            (effectiveDpi this.gfxSetup dispInfo.LogicalDpi)) ∧
      this'.displayAttrs.FramebufferHeight = this.displayAttrs.FramebufferHeight ∧
      this'.displayAttrs.WindowWidth = F32.trunc win.Bounds.Width ∧
      this'.displayAttrs.WindowHeight = F32.trunc win.Bounds.Height ∧
      this'.gfxSetup = this.gfxSetup := by
  refine ⟨{ this with displayAttrs :=
      { this.displayAttrs with
        WindowWidth := F32.trunc win.Bounds.Width
        WindowHeight := F32.trunc win.Bounds.Height
        FramebufferWidth := F32.trunc (dipsToPixels win.Bounds.Height
          (effectiveDpi this.gfxSetup dispInfo.LogicalDpi)) } }, ?_, rfl, rfl, rfl, rfl, rfl⟩
  simp only [d3d11DisplayMgr.updateFramebufferSize, F32.toInt_of_inIntRange _ hW,
    F32.toInt_of_inIntRange _ hH, F32.toInt_of_inIntRange _ hPW, F32.toInt_of_inIntRange _ hPH]
  rfl

/-- C12 at a concrete input: a window of 1280 x 720 device-independent pixels at 240 dpi with
high-dpi rendering off (effective dpi 120): the width would be 1600 pixels and the height 900;
`FramebufferWidth` ends up 900 and `FramebufferHeight` keeps its old value 600. -/
theorem updateFramebufferSize_effect_witness :
    F32.trunc (dipsToPixels exCoreWindow.Bounds.Width
      (effectiveDpi exDisplayMgr.gfxSetup exDisplayInformation.LogicalDpi)) = 1600 ∧
    ∃ this', exDisplayMgr.updateFramebufferSize exDisplayInformation exCoreWindow
        = Except.ok this' ∧
      this'.displayAttrs.FramebufferWidth = 900 ∧
      this'.displayAttrs.FramebufferHeight = 600 ∧
      this'.displayAttrs.WindowWidth = 1280 ∧
      this'.displayAttrs.WindowHeight = 720 := by
  obtain ⟨this', hok, h1, h2, h3, h4, _⟩ :=
    updateFramebufferSize_effect exDisplayMgr exDisplayInformation exCoreWindow
      (by decide) (by decide) (by decide) (by decide)
  have e1 : F32.trunc (dipsToPixels exCoreWindow.Bounds.Height
      (effectiveDpi exDisplayMgr.gfxSetup exDisplayInformation.LogicalDpi)) = 900 := by decide
  have e2 : F32.trunc exCoreWindow.Bounds.Width = 1280 := by decide
  have e3 : F32.trunc exCoreWindow.Bounds.Height = 720 := by decide
  exact ⟨by decide, this', hok, h1.trans e1, h2, h3.trans e2, h4.trans e3⟩

/-! ## The shared-depth provider at the attach step (C13) -/

end Oryol
